import Mathlib

/-! Audio policy manager (msm7k): device selection and volume application.

A shallow embedding of `AudioPolicyManager::getDeviceForStrategy` and
`AudioPolicyManager::checkAndSetVolume` from `libaudio/AudioPolicyManager.cpp`.

* `uint32_t` device masks are natural numbers; the code only combines them with `&` and `|`,
  which never overflow, so no reduction modulo `2^32` is needed.
* The build modelled is the one with `WITH_A2DP` and `HAVE_FM_RADIO` defined.
* The `AudioSystem` device flags and `AudioSystem::isA2dpDevice` come from the platform
  headers; they are parameters of the model (structure `AudioSystem`).
* `float` values are elements of a parameter type `F` with the operations the code uses
  (structure `FloatOps`); the model never looks inside them. Two instances are given: `ieeeOps`,
  the operations on finite IEEE 754 values with rounding to nearest, held as rationals, and
  `exactOps`, the same operations without rounding, used where no rounding occurs.
* Calls on `mpClientInterface` are recorded, in program order, in a list of `SinkCall`.
-/

namespace AudioPolicy

/-! ## Enumerations of the platform headers -/

/-- The `routing_strategy` values; `STRATEGY_UNKNOWN` stands for every value that reaches the
`default:` label of the switch in `getDeviceForStrategy`. -/
inductive Strategy where
  | STRATEGY_MEDIA
  | STRATEGY_PHONE
  | STRATEGY_SONIFICATION
  | STRATEGY_ENFORCED_AUDIBLE
  | STRATEGY_DTMF
  | STRATEGY_UNKNOWN
  deriving DecidableEq, Repr

/-- The `AudioSystem::audio_mode` values a phone state can take. -/
inductive PhoneState where
  | MODE_NORMAL
  | MODE_RINGTONE
  | MODE_IN_CALL
  | MODE_IN_COMMUNICATION
  deriving DecidableEq, Repr

/-- The `AudioSystem::force_use` usages indexing `mForceUse`. -/
inductive ForceUse where
  | FOR_COMMUNICATION
  | FOR_MEDIA
  | FOR_RECORD
  | FOR_DOCK
  deriving DecidableEq, Repr

/-- The `AudioSystem::forced_config` values stored in `mForceUse`. -/
inductive ForcedConfig where
  | FORCE_NONE
  | FORCE_SPEAKER
  | FORCE_HEADPHONES
  | FORCE_BT_SCO
  | FORCE_BT_A2DP
  | FORCE_WIRED_ACCESSORY
  | FORCE_BT_CAR_DOCK
  | FORCE_BT_DESK_DOCK
  | FORCE_ANALOG_DOCK
  | FORCE_DIGITAL_DOCK
  | FORCE_NO_BT_A2DP
  deriving DecidableEq, Repr

/-- The `AudioSystem::stream_type` values that index the per-stream arrays. -/
inductive StreamType where
  | VOICE_CALL
  | SYSTEM
  | RING
  | MUSIC
  | ALARM
  | NOTIFICATION
  | BLUETOOTH_SCO
  | ENFORCED_AUDIBLE
  | DTMF
  | TTS
  | FM
  deriving DecidableEq, Repr

/-- The `status_t` values `checkAndSetVolume` returns. -/
inductive Status where
  | NO_ERROR
  | INVALID_OPERATION
  deriving DecidableEq, Repr

/-! ## Parameters: what the platform headers and collaborators provide -/

/-- The output device flags of `AudioSystem::audio_devices` and the predicate
`AudioSystem::isA2dpDevice`, none of which is defined in this repository. -/
structure AudioSystem where
  DEVICE_OUT_EARPIECE : Nat
  DEVICE_OUT_SPEAKER : Nat
  DEVICE_OUT_WIRED_HEADSET : Nat
  DEVICE_OUT_WIRED_HEADPHONE : Nat
  DEVICE_OUT_BLUETOOTH_SCO : Nat
  DEVICE_OUT_BLUETOOTH_SCO_HEADSET : Nat
  DEVICE_OUT_BLUETOOTH_SCO_CARKIT : Nat
  DEVICE_OUT_BLUETOOTH_A2DP : Nat
  DEVICE_OUT_BLUETOOTH_A2DP_HEADPHONES : Nat
  DEVICE_OUT_BLUETOOTH_A2DP_SPEAKER : Nat
  DEVICE_OUT_AUX_DIGITAL : Nat
  DEVICE_OUT_FM_ALL : Nat
  isA2dpDevice : Nat → Bool

/-- The `float` operations `checkAndSetVolume` performs, over a carrier `F`. -/
structure FloatOps (F : Type) where
  /-- The product written `volume *= volumeFactor`. -/
  mul : F → F → F
  /-- The comparison written `a != b`. -/
  ne : F → F → Bool
  /-- The comparison written `v >= 0`. -/
  geZero : F → Bool
  /-- The conversion written `atof(buf)`. -/
  atof : String → F
  /-- The factor written `pow(10.0, -x/20.0)`. -/
  attenuation : F → F
  /-- The remap written `0.01 + 0.99 * volume`. -/
  floorRemap : F → F
  /-- The quotient written `(float)index/(float)indexMax`. -/
  ratio : Int → Int → F
  /-- The constant `1.0`. -/
  one : F

/-- One `AudioOutputDescriptor`: per stream, the mute count and the last applied volume. -/
structure AudioOutputDescriptor (F : Type) where
  mMuteCount : StreamType → Int
  mCurVolume : StreamType → F

/-- One `StreamDescriptor` of `mStreams`; only `mIndexMax` is read here. -/
structure StreamDescriptor where
  mIndexMax : Int

/-- The fields of the policy manager that the two functions read or write. Output handles
(`audio_io_handle_t`) are integers, and `mOutputs.valueFor` is a total lookup. -/
structure AudioPolicyManager (F : Type) where
  mPhoneState : PhoneState
  mForceUse : ForceUse → ForcedConfig
  mAvailableOutputDevices : Nat
  mA2dpOutput : Int
  mDeviceForStrategy : Strategy → Nat
  mOutputs : Int → AudioOutputDescriptor F
  mStreams : StreamType → StreamDescriptor
  mHardwareOutput : Int
  mLastVoiceVolume : F
  /-- The answer of the base-class method `a2dpUsedForSonification()`. -/
  a2dpUsedForSonification : Bool

/-- A call on the client interface `mpClientInterface`, with its arguments. -/
inductive SinkCall (F : Type) where
  | setStreamVolume (stream : StreamType) (volume : F) (output : Int) (delayMs : Int)
  | setVoiceVolume (volume : F) (delayMs : Int)
  | setFmVolume (volume : F) (delayMs : Int)

/-- The collaborators `checkAndSetVolume` asks for values: the base-class curve
`computeVolume(stream, index, output, device)` and the property store
`property_get(key, value, default)`, here returning the value read. -/
structure Collaborators (F : Type) where
  computeVolume : StreamType → Int → Int → Nat → F
  property_get : String → String → String

/-- What one call of `checkAndSetVolume` produces: the returned status, the policy manager
afterwards, and the client-interface calls made, in program order. -/
structure Outcome (F : Type) where
  status : Status
  state : AudioPolicyManager F
  calls : List (SinkCall F)

/-! ## `getDeviceForStrategy` -/

section DeviceSelection

variable {F : Type}

/-- The inner `switch (mForceUse[FOR_COMMUNICATION])` at its `default:` label (lines 82-104),
also reached by falling through from `FORCE_BT_SCO`. -/
def phoneDefaultCase (A : AudioSystem) (m : AudioPolicyManager F) : Nat :=
  let device := m.mAvailableOutputDevices &&& A.DEVICE_OUT_WIRED_HEADPHONE
  if device ≠ 0 then device else
  let device := m.mAvailableOutputDevices &&& A.DEVICE_OUT_WIRED_HEADSET
  if device ≠ 0 then device else
  let device :=
    if m.mPhoneState ≠ PhoneState.MODE_IN_CALL then
      m.mAvailableOutputDevices &&& A.DEVICE_OUT_BLUETOOTH_A2DP
    else device
  if m.mPhoneState ≠ PhoneState.MODE_IN_CALL ∧ device ≠ 0 then device else
  let device :=
    if m.mPhoneState ≠ PhoneState.MODE_IN_CALL then
      m.mAvailableOutputDevices &&& A.DEVICE_OUT_BLUETOOTH_A2DP_HEADPHONES
    else device
  if m.mPhoneState ≠ PhoneState.MODE_IN_CALL ∧ device ≠ 0 then device else
  let device :=
    if m.mPhoneState = PhoneState.MODE_RINGTONE then
      m.mAvailableOutputDevices &&& A.DEVICE_OUT_SPEAKER
    else device
  if device ≠ 0 then device else
  m.mAvailableOutputDevices &&& A.DEVICE_OUT_EARPIECE

/-- The body of `case STRATEGY_PHONE:` (lines 66-125). `strategy` is the function argument:
`STRATEGY_PHONE`, or `STRATEGY_DTMF` when the case is entered by falling through. -/
def phoneCase (A : AudioSystem) (m : AudioPolicyManager F) (strategy : Strategy) : Nat :=
  match m.mForceUse ForceUse.FOR_COMMUNICATION with
  | ForcedConfig.FORCE_BT_SCO =>
    let tryCarkit : Bool :=
      decide (m.mPhoneState ≠ PhoneState.MODE_IN_CALL ∨ strategy ≠ Strategy.STRATEGY_DTMF)
    let device :=
      if tryCarkit then m.mAvailableOutputDevices &&& A.DEVICE_OUT_BLUETOOTH_SCO_CARKIT else 0
    if tryCarkit ∧ device ≠ 0 then device else
    let device := m.mAvailableOutputDevices &&& A.DEVICE_OUT_BLUETOOTH_SCO_HEADSET
    if device ≠ 0 then device else
    let device := m.mAvailableOutputDevices &&& A.DEVICE_OUT_BLUETOOTH_SCO
    if device ≠ 0 then device else
    phoneDefaultCase A m
  | ForcedConfig.FORCE_SPEAKER =>
    let tryCarkit : Bool :=
      decide (m.mPhoneState ≠ PhoneState.MODE_IN_CALL ∨ strategy ≠ Strategy.STRATEGY_DTMF)
    let device :=
      if tryCarkit then m.mAvailableOutputDevices &&& A.DEVICE_OUT_BLUETOOTH_SCO_CARKIT else 0
    if tryCarkit ∧ device ≠ 0 then device else
    let device :=
      if m.mPhoneState ≠ PhoneState.MODE_IN_CALL then
        m.mAvailableOutputDevices &&& A.DEVICE_OUT_BLUETOOTH_A2DP_SPEAKER
      else device
    if m.mPhoneState ≠ PhoneState.MODE_IN_CALL ∧ device ≠ 0 then device else
    m.mAvailableOutputDevices &&& A.DEVICE_OUT_SPEAKER
  | _ => phoneDefaultCase A m

/-- The statement pattern `if (d == 0) { d = v; }`: the value of `d` afterwards. -/
def assignIfZero (d v : Nat) : Nat :=
  if d = 0 then v else d

/-- The body of `case STRATEGY_MEDIA:` (lines 143-205). `device` is the value of the local
variable on entry (nonzero only after falling through from `STRATEGY_SONIFICATION`), and
`phoneDevice` is the value of the call `getDeviceForStrategy(STRATEGY_PHONE)` of line 200. -/
def mediaCase (A : AudioSystem) (m : AudioPolicyManager F) (strategy : Strategy)
    (device : Nat) (phoneDevice : Nat) : Nat :=
  if strategy ≠ Strategy.STRATEGY_SONIFICATION then
    let device2 :=
      if m.mForceUse ForceUse.FOR_MEDIA = ForcedConfig.FORCE_SPEAKER then
        m.mAvailableOutputDevices &&& A.DEVICE_OUT_SPEAKER
      else 0
    let device2 := assignIfZero device2 (m.mAvailableOutputDevices &&& A.DEVICE_OUT_AUX_DIGITAL)
    if m.mA2dpOutput ≠ 0 ∧ strategy = Strategy.STRATEGY_SONIFICATION
        ∧ m.a2dpUsedForSonification = false then
      device
    else
    let device2 :=
      if m.mA2dpOutput ≠ 0 then
        let device2 :=
          assignIfZero device2 (m.mAvailableOutputDevices &&& A.DEVICE_OUT_BLUETOOTH_A2DP)
        let device2 :=
          assignIfZero device2
            (m.mAvailableOutputDevices &&& A.DEVICE_OUT_BLUETOOTH_A2DP_HEADPHONES)
        assignIfZero device2 (m.mAvailableOutputDevices &&& A.DEVICE_OUT_BLUETOOTH_A2DP_SPEAKER)
      else device2
    let device2 :=
      assignIfZero device2 (m.mAvailableOutputDevices &&& A.DEVICE_OUT_WIRED_HEADPHONE)
    let device2 :=
      assignIfZero device2 (m.mAvailableOutputDevices &&& A.DEVICE_OUT_WIRED_HEADSET)
    let device2 := assignIfZero device2 (m.mAvailableOutputDevices &&& A.DEVICE_OUT_SPEAKER)
    let device2 := assignIfZero device2 (m.mAvailableOutputDevices &&& A.DEVICE_OUT_EARPIECE)
    let device := device ||| device2
    let device :=
      if m.mAvailableOutputDevices &&& A.DEVICE_OUT_FM_ALL ≠ 0 then
        device ||| A.DEVICE_OUT_FM_ALL
      else device
    if m.mPhoneState = PhoneState.MODE_IN_CALL ∧ A.isA2dpDevice device = false
        ∧ device ≠ phoneDevice then
      0
    else device
  else device

/-- The measure under which the recursive calls of `getDeviceForStrategy` decrease. -/
def callRank : Strategy → Bool → Nat
  | _, true => 0
  | Strategy.STRATEGY_PHONE, false => 1
  | Strategy.STRATEGY_MEDIA, false => 2
  | _, false => 3

/-- The function `AudioPolicyManager::getDeviceForStrategy(strategy, fromCache)`
(lines 47-214). The call of line 200 omits `fromCache`, whose default in the class
declaration is `true`. -/
def getDeviceForStrategy (A : AudioSystem) (m : AudioPolicyManager F) :
    Strategy → Bool → Nat
  | strategy, true => m.mDeviceForStrategy strategy
  | Strategy.STRATEGY_DTMF, false =>
    if m.mPhoneState ≠ PhoneState.MODE_IN_CALL then
      getDeviceForStrategy A m Strategy.STRATEGY_MEDIA false
    else
      phoneCase A m Strategy.STRATEGY_DTMF
  | Strategy.STRATEGY_PHONE, false => phoneCase A m Strategy.STRATEGY_PHONE
  | Strategy.STRATEGY_SONIFICATION, false =>
    let device := m.mAvailableOutputDevices &&& A.DEVICE_OUT_SPEAKER
    if m.mPhoneState = PhoneState.MODE_IN_CALL then
      getDeviceForStrategy A m Strategy.STRATEGY_PHONE false
    else
      mediaCase A m Strategy.STRATEGY_SONIFICATION device
        (getDeviceForStrategy A m Strategy.STRATEGY_PHONE true)
  | Strategy.STRATEGY_ENFORCED_AUDIBLE, false =>
    if m.mPhoneState = PhoneState.MODE_IN_CALL then
      getDeviceForStrategy A m Strategy.STRATEGY_PHONE false
    else
      mediaCase A m Strategy.STRATEGY_ENFORCED_AUDIBLE 0
        (getDeviceForStrategy A m Strategy.STRATEGY_PHONE true)
  | Strategy.STRATEGY_MEDIA, false =>
    mediaCase A m Strategy.STRATEGY_MEDIA 0
      (getDeviceForStrategy A m Strategy.STRATEGY_PHONE true)
  | Strategy.STRATEGY_UNKNOWN, false => 0
termination_by strategy fromCache => callRank strategy fromCache
decreasing_by all_goals simp [callRank]

end DeviceSelection

/-! ## `checkAndSetVolume` -/

section VolumeApplication

variable {F : Type}

/-- The assignment `mOutputs.valueFor(output)->mCurVolume[stream] = volume` (line 277). -/
def setCurVolume (m : AudioPolicyManager F) (output : Int) (stream : StreamType) (volume : F) :
    AudioPolicyManager F :=
  { m with
    mOutputs := fun o =>
      if o = output then
        { m.mOutputs o with
          mCurVolume := fun s => if s = stream then volume else (m.mOutputs o).mCurVolume s }
      else m.mOutputs o }

/-- The attenuation block shared by lines 236-265: read the property `key` with default
`dflt` and multiply `volume` by `pow(10.0, -atof(value)/20.0)`. -/
def attenuate (fl : FloatOps F) (env : Collaborators F) (key dflt : String) (volume : F) : F :=
  fl.mul volume (fl.attenuation (fl.atof (env.property_get key dflt)))

/-- The voice volume side channel and the final `return NO_ERROR` (lines 299-314), entered
with the state `m` and the calls made so far. -/
def voiceVolumeStep (fl : FloatOps F) (m : AudioPolicyManager F) (stream : StreamType)
    (index : Int) (output : Int) (delayMs : Int) (calls : List (SinkCall F)) : Outcome F :=
  if stream = StreamType.VOICE_CALL ∨ stream = StreamType.BLUETOOTH_SCO then
    let voiceVolume :=
      if stream = StreamType.VOICE_CALL then fl.ratio index (m.mStreams stream).mIndexMax
      else fl.one
    if fl.geZero voiceVolume = true ∧ output = m.mHardwareOutput then
      { status := Status.NO_ERROR
        state := { m with mLastVoiceVolume := voiceVolume }
        calls := calls ++ [SinkCall.setVoiceVolume voiceVolume delayMs] }
    else { status := Status.NO_ERROR, state := m, calls := calls }
  else { status := Status.NO_ERROR, state := m, calls := calls }

/-- The function `AudioPolicyManager::checkAndSetVolume(stream, index, output, device,
delayMs, force)` (lines 216-315). -/
def checkAndSetVolume (A : AudioSystem) (fl : FloatOps F) (env : Collaborators F)
    (m : AudioPolicyManager F) (stream : StreamType) (index : Int) (output : Int)
    (device : Nat) (delayMs : Int) (force : Bool) : Outcome F :=
  if (m.mOutputs output).mMuteCount stream ≠ 0 then
    { status := Status.NO_ERROR, state := m, calls := [] }
  else if (stream = StreamType.VOICE_CALL
        ∧ m.mForceUse ForceUse.FOR_COMMUNICATION = ForcedConfig.FORCE_BT_SCO)
      ∨ (stream = StreamType.BLUETOOTH_SCO
        ∧ m.mForceUse ForceUse.FOR_COMMUNICATION ≠ ForcedConfig.FORCE_BT_SCO) then
    { status := Status.INVALID_OPERATION, state := m, calls := [] }
  else
    let volume := env.computeVolume stream index output device
    let volume :=
      if device = A.DEVICE_OUT_SPEAKER then
        attenuate fl env "persist.sys.speaker-attn" "6" volume
      else volume
    let volume :=
      if device = A.DEVICE_OUT_WIRED_HEADSET ∨ device = A.DEVICE_OUT_WIRED_HEADPHONE then
        attenuate fl env "persist.sys.headset-attn" "0" volume
      else volume
    let volume :=
      if stream = StreamType.FM then attenuate fl env "persist.sys.fm-attn" "0" volume
      else volume
    if fl.ne volume ((m.mOutputs output).mCurVolume stream) = true
        ∨ stream = StreamType.VOICE_CALL ∨ stream = StreamType.FM ∨ force = true then
      let m1 := setCurVolume m output stream volume
      if stream = StreamType.VOICE_CALL ∨ stream = StreamType.DTMF
          ∨ stream = StreamType.BLUETOOTH_SCO then
        let volume := fl.floorRemap volume
        voiceVolumeStep fl m1 stream index output delayMs
          [SinkCall.setStreamVolume stream volume output delayMs]
      else if stream = StreamType.FM then
        let fmVolume := volume
        if fl.geZero fmVolume = true ∧ output = m1.mHardwareOutput then
          { status := Status.NO_ERROR
            state := m1
            calls := [SinkCall.setFmVolume fmVolume delayMs] }
        else { status := Status.NO_ERROR, state := m1, calls := [] }
      else
        voiceVolumeStep fl m1 stream index output delayMs
          [SinkCall.setStreamVolume stream volume output delayMs]
    else voiceVolumeStep fl m stream index output delayMs []

end VolumeApplication

/-! ## Vocabulary of the specification -/

/-- The mask `r` only contains flags of the mask `a` (in C, `(r & ~a) == 0`). -/
def SubMask (r a : Nat) : Prop :=
  r &&& a = r

instance (r a : Nat) : Decidable (SubMask r a) := by
  unfold SubMask; infer_instance

/-- The first available device of a priority list: the flags of the first entry that the
available mask intersects, and `0` when it intersects none. -/
def firstAvailable (avail : Nat) : List Nat → Nat
  | [] => 0
  | d :: ds => if avail &&& d ≠ 0 then avail &&& d else firstAvailable avail ds

/-- The priority list of the media candidate: `SPEAKER` when media is forced to the speaker,
`AUX_DIGITAL`, the three A2DP devices when an A2DP output is open, then the wired devices,
the speaker and the earpiece. -/
def mediaCandidates {F : Type} (A : AudioSystem) (m : AudioPolicyManager F) : List Nat :=
  (if m.mForceUse ForceUse.FOR_MEDIA = ForcedConfig.FORCE_SPEAKER then
      [A.DEVICE_OUT_SPEAKER] else [])
    ++ [A.DEVICE_OUT_AUX_DIGITAL]
    ++ (if m.mA2dpOutput ≠ 0 then
      [A.DEVICE_OUT_BLUETOOTH_A2DP, A.DEVICE_OUT_BLUETOOTH_A2DP_HEADPHONES,
        A.DEVICE_OUT_BLUETOOTH_A2DP_SPEAKER] else [])
    ++ [A.DEVICE_OUT_WIRED_HEADPHONE, A.DEVICE_OUT_WIRED_HEADSET, A.DEVICE_OUT_SPEAKER,
        A.DEVICE_OUT_EARPIECE]

/-- The FM flags added to a media device: all of `DEVICE_OUT_FM_ALL` when at least one of
them is available, none otherwise. -/
def fmFlags {F : Type} (A : AudioSystem) (m : AudioPolicyManager F) : Nat :=
  if m.mAvailableOutputDevices &&& A.DEVICE_OUT_FM_ALL ≠ 0 then A.DEVICE_OUT_FM_ALL else 0

/-- The device set the media rules compute before the in-call check: the first available
media candidate together with the FM flags. -/
def mediaComputed {F : Type} (A : AudioSystem) (m : AudioPolicyManager F) : Nat :=
  firstAvailable m.mAvailableOutputDevices (mediaCandidates A m) ||| fmFlags A m

/-- The state `m` with the force-use value of `usage` replaced by `config`. -/
def withForceUse {F : Type} (m : AudioPolicyManager F) (usage : ForceUse)
    (config : ForcedConfig) : AudioPolicyManager F :=
  { m with mForceUse := fun u => if u = usage then config else m.mForceUse u }

/-! ## A concrete platform and concrete states -/

/-- A flag assignment with one bit per device, in the order of the platform enumeration, and
`DEVICE_OUT_FM_ALL` the union of two FM flags (`0x800` and `0x1000`). `isA2dpDevice` holds of
exactly the three single A2DP flags. -/
def samplePlatform : AudioSystem where
  DEVICE_OUT_EARPIECE := 0x1
  DEVICE_OUT_SPEAKER := 0x2
  DEVICE_OUT_WIRED_HEADSET := 0x4
  DEVICE_OUT_WIRED_HEADPHONE := 0x8
  DEVICE_OUT_BLUETOOTH_SCO := 0x10
  DEVICE_OUT_BLUETOOTH_SCO_HEADSET := 0x20
  DEVICE_OUT_BLUETOOTH_SCO_CARKIT := 0x40
  DEVICE_OUT_BLUETOOTH_A2DP := 0x80
  DEVICE_OUT_BLUETOOTH_A2DP_HEADPHONES := 0x100
  DEVICE_OUT_BLUETOOTH_A2DP_SPEAKER := 0x200
  DEVICE_OUT_AUX_DIGITAL := 0x400
  DEVICE_OUT_FM_ALL := 0x1800
  isA2dpDevice := fun d => decide (d = 0x80 ∨ d = 0x100 ∨ d = 0x200)

/-- A policy state with the given phone state, communication and media force-use values and
available devices; no A2DP output, an all-zero cache, one unmuted output table whose volumes
are `0`, and hardware output `1`. -/
def sampleState (phone : PhoneState) (comm media : ForcedConfig) (avail : Nat) :
    AudioPolicyManager ℚ where
  mPhoneState := phone
  mForceUse := fun u =>
    match u with
    | ForceUse.FOR_COMMUNICATION => comm
    | ForceUse.FOR_MEDIA => media
    | _ => ForcedConfig.FORCE_NONE
  mAvailableOutputDevices := avail
  mA2dpOutput := 0
  mDeviceForStrategy := fun _ => 0
  mOutputs := fun _ => { mMuteCount := fun _ => 0, mCurVolume := fun _ => 0 }
  mStreams := fun _ => { mIndexMax := 15 }
  mHardwareOutput := 1
  mLastVoiceVolume := 0
  a2dpUsedForSonification := true



/-- The state `m` with the mute count of `stream` on every output set to `count`. -/
def withMuteCount {F : Type} (m : AudioPolicyManager F) (stream : StreamType) (count : Int) :
    AudioPolicyManager F :=
  { m with
    mOutputs := fun o =>
      { m.mOutputs o with
        mMuteCount := fun s => if s = stream then count else (m.mOutputs o).mMuteCount s } }

/-- The operations of `FloatOps` on rationals without any rounding; the two library
functions `atof` and `pow(10.0, -x/20.0)` are passed in. It agrees with the `float`
arithmetic of the program only where every intermediate value is a `float`. -/
def exactOps (atof : String → ℚ) (attenuation : ℚ → ℚ) : FloatOps ℚ where
  mul := fun a b => a * b
  ne := fun a b => decide (a ≠ b)
  geZero := fun v => decide (0 ≤ v)
  atof := atof
  attenuation := attenuation
  floorRemap := fun v => 1 / 100 + 99 / 100 * v
  ratio := fun i j => (i : ℚ) / (j : ℚ)
  one := 1

/-- Collaborators whose curve is `index / 15` and whose property store is empty, so that
`property_get` returns the default it is given. -/
def sampleEnv : Collaborators ℚ where
  computeVolume := fun _ index _ _ => (index : ℚ) / 15
  property_get := fun _ dflt => dflt

/-! ## Vocabulary of the volume claims -/

/-- The volume `checkAndSetVolume` holds after the attenuation blocks (lines 233-266): the
curve value, multiplied by the speaker factor when the device is the speaker, by the headset
factor when it is the wired headset or headphone, and by the FM factor when the stream is FM. -/
def attenuatedVolume {F : Type} (A : AudioSystem) (fl : FloatOps F) (env : Collaborators F)
    (stream : StreamType) (index output : Int) (device : Nat) : F :=
  let volume := env.computeVolume stream index output device
  let volume :=
    if device = A.DEVICE_OUT_SPEAKER then
      attenuate fl env "persist.sys.speaker-attn" "6" volume
    else volume
  let volume :=
    if device = A.DEVICE_OUT_WIRED_HEADSET ∨ device = A.DEVICE_OUT_WIRED_HEADPHONE then
      attenuate fl env "persist.sys.headset-attn" "0" volume
    else volume
  if stream = StreamType.FM then attenuate fl env "persist.sys.fm-attn" "0" volume
  else volume

/-- The cross-routing condition of lines 225-226 under which the call is refused. -/
def crossRouted {F : Type} (m : AudioPolicyManager F) (stream : StreamType) : Prop :=
  (stream = StreamType.VOICE_CALL
      ∧ m.mForceUse ForceUse.FOR_COMMUNICATION = ForcedConfig.FORCE_BT_SCO)
    ∨ (stream = StreamType.BLUETOOTH_SCO
      ∧ m.mForceUse ForceUse.FOR_COMMUNICATION ≠ ForcedConfig.FORCE_BT_SCO)

instance {F : Type} (m : AudioPolicyManager F) (stream : StreamType) :
    Decidable (crossRouted m stream) := by
  unfold crossRouted; infer_instance

/-- The value handed to `setStreamVolume` for the attenuated volume `v`: remapped to the
hardware floor for the voice call, DTMF and Bluetooth SCO streams, `v` itself otherwise. -/
def transmittedVolume {F : Type} (fl : FloatOps F) (stream : StreamType) (v : F) : F :=
  if stream = StreamType.VOICE_CALL ∨ stream = StreamType.DTMF
      ∨ stream = StreamType.BLUETOOTH_SCO then fl.floorRemap v
  else v

/-- The priority list of the default branch of the phone rules: the wired headphone and
headset, the A2DP device and headphones when the phone is not in a call, the speaker when it
is ringing, and the earpiece. -/
def phoneDefaultCandidates {F : Type} (A : AudioSystem) (m : AudioPolicyManager F) :
    List Nat :=
  [A.DEVICE_OUT_WIRED_HEADPHONE, A.DEVICE_OUT_WIRED_HEADSET]
    ++ (if m.mPhoneState ≠ PhoneState.MODE_IN_CALL then
      [A.DEVICE_OUT_BLUETOOTH_A2DP, A.DEVICE_OUT_BLUETOOTH_A2DP_HEADPHONES] else [])
    ++ (if m.mPhoneState = PhoneState.MODE_RINGTONE then [A.DEVICE_OUT_SPEAKER] else [])
    ++ [A.DEVICE_OUT_EARPIECE]

/-- The voice volume of the side channel: `index / indexMax` for the voice call stream and
`1.0` for the Bluetooth SCO stream. -/
def voiceVolumeOf {F : Type} (fl : FloatOps F) (m : AudioPolicyManager F) (stream : StreamType)
    (index : Int) : F :=
  if stream = StreamType.VOICE_CALL then fl.ratio index (m.mStreams stream).mIndexMax
  else fl.one

/-- The value of `atof` on the decimal strings `"-20"`, `"20"`, `"6"` and `"0"`, the property
values used in the examples. No example uses another string; there the table holds `0`, which
is the value of `atof` only when no number can be parsed. -/
def sampleAtof (s : String) : ℚ :=
  if s = "-20" then -20 else if s = "20" then 20 else if s = "6" then 6 else 0

/-- The exact value of `10^(-x/20)` at `x = -20`, `0` and `20`, the arguments used in the
examples of the unrounded arithmetic. No example uses another argument; there the table holds
`1`, which is not the value of `pow`. -/
def sampleAttenuation (x : ℚ) : ℚ :=
  if x = -20 then 10 else if x = 20 then 1 / 10 else 1

/-- The unrounded arithmetic with the two tables above for `atof` and the attenuation. -/
def sampleOps : FloatOps ℚ :=
  exactOps sampleAtof sampleAttenuation

/-- Collaborators whose curve is `index / 15` and whose property store holds only the speaker
attenuation, set to `-20` dB. -/
def boostedEnv : Collaborators ℚ where
  computeVolume := fun _ index _ _ => (index : ℚ) / 15
  property_get := fun key dflt => if key = "persist.sys.speaker-attn" then "-20" else dflt

/-! ## Floating point: IEEE 754 rounding of finite values

The `float` and `double` values of the program are finite binary floating point numbers, held
here as rationals. An operation of the program is the exact operation on the rationals
followed by rounding to nearest, ties to even, to the format of its result. Infinities, NaN
and the sign of zero are not modelled: no value that occurs below leaves the finite range. -/

/-- Rounding of a rational to the nearest integer, a tie going to the even one. -/
def roundHalfEven (x : ℚ) : ℤ :=
  if x - ⌊x⌋ < 1 / 2 then ⌊x⌋
  else if 1 / 2 < x - ⌊x⌋ then ⌊x⌋ + 1
  else if ⌊x⌋ % 2 = 0 then ⌊x⌋ else ⌊x⌋ + 1

/-- The exponent of the binade in which a positive rational is rounded: that of its leading
bit, and at least `emin`, below which the spacing no longer shrinks. -/
def binadeExponent (emin : ℤ) (q : ℚ) : ℤ :=
  max (Int.log 2 q) emin

/-- The spacing of the numbers with `p` significant bits in the binade of `q`. -/
def binadeSpacing (p : ℕ) (emin : ℤ) (q : ℚ) : ℚ :=
  2 ^ (binadeExponent emin q - p + 1)

/-- Round-to-nearest-even of a non-negative rational to `p` significant bits with least
exponent `emin`: the nearest multiple of the spacing of its binade. -/
def roundMagnitude (p : ℕ) (emin : ℤ) (q : ℚ) : ℚ :=
  if q = 0 then 0
  else (roundHalfEven (q / binadeSpacing p emin q) : ℚ) * binadeSpacing p emin q

/-- Round-to-nearest-even to `p` significant bits with least exponent `emin`, the default
rounding of IEEE 754 arithmetic; results beyond the largest finite number are not modelled. -/
def roundBinary (p : ℕ) (emin : ℤ) (q : ℚ) : ℚ :=
  if q < 0 then -roundMagnitude p emin (-q) else roundMagnitude p emin q

/-- Rounding to `float` (binary32: 24 significant bits, least exponent `-126`). -/
def toFloat (q : ℚ) : ℚ :=
  roundBinary 24 (-126) q

/-- Rounding to `double` (binary64: 53 significant bits, least exponent `-1022`). -/
def toDouble (q : ℚ) : ℚ :=
  roundBinary 53 (-1022) q

/-- The statement `volume = 0.01 + 0.99 * volume` of line 284 in IEEE 754 arithmetic: the
literals are `double` constants, the `float` operand is promoted, the product and the sum are
rounded to `double`, and the assignment rounds the result to `float`. -/
def ieeeFloorRemap (v : ℚ) : ℚ :=
  toFloat (toDouble (toDouble (1 / 100) + toDouble (toDouble (99 / 100) * v)))

/-- The `float` operations of `checkAndSetVolume` in IEEE 754 arithmetic. `volume *=
volumeFactor` is a `float` product; `pow(10.0, -atof(buf)/20.0)` is a `double`, rounded to
`float` by the initialisation of `volumeFactor`; `(float)index/(float)indexMax` is a `float`
quotient of two conversions. The two library functions are passed in: `atof` as the `double`
read from a string and `pow10 x` as the `double` that `pow(10.0, -x/20.0)` returns. -/
def ieeeOps (atof : String → ℚ) (pow10 : ℚ → ℚ) : FloatOps ℚ where
  mul := fun a b => toFloat (a * b)
  ne := fun a b => decide (a ≠ b)
  geZero := fun v => decide (0 ≤ v)
  atof := atof
  attenuation := fun x => toFloat (pow10 x)
  floorRemap := ieeeFloorRemap
  ratio := fun i j => toFloat (toFloat i / toFloat j)
  one := 1

/-- The `double` nearest to `10^(-x/20)` at `x = -20`, `0`, `6` and `20`, the arguments used
in the examples: `10`, `1`, `2257146638606633 / 2^52` and `3602879701896397 / 2^55`. No example
uses another argument; there the table holds `1`, which is not the value of `pow`. -/
def samplePow (x : ℚ) : ℚ :=
  if x = -20 then 10
  else if x = 0 then 1
  else if x = 6 then 2257146638606633 / 4503599627370496
  else if x = 20 then 3602879701896397 / 36028797018963968
  else 1

/-- IEEE 754 arithmetic with the tables `sampleAtof` and `samplePow` for the two library
functions. -/
def ieeeSampleOps : FloatOps ℚ :=
  ieeeOps sampleAtof samplePow

/-- Collaborators whose curve is `index / 15` and whose property store holds only the speaker
attenuation, set to `20` dB. -/
def dampedEnv : Collaborators ℚ where
  computeVolume := fun _ index _ _ => (index : ℚ) / 15
  property_get := fun key dflt => if key = "persist.sys.speaker-attn" then "20" else dflt

/-- Collaborators whose curve is `index / 15` and whose property store holds only the FM
attenuation, set to `-20` dB. -/
def fmBoostedEnv : Collaborators ℚ where
  computeVolume := fun _ index _ _ => (index : ℚ) / 15
  property_get := fun key dflt => if key = "persist.sys.fm-attn" then "-20" else dflt

/-- Collaborators whose curve is constantly `0.5` and whose property store is empty. -/
def halfEnv : Collaborators ℚ where
  computeVolume := fun _ _ _ _ => 1 / 2
  property_get := fun _ dflt => dflt

/-! # Theorems -/

open Strategy PhoneState ForceUse ForcedConfig

/-! ## Unfolding `getDeviceForStrategy` -/

section Unfolding

variable {F : Type} (A : AudioSystem) (m : AudioPolicyManager F)

theorem getDevice_fromCache (strategy : Strategy) :
    getDeviceForStrategy A m strategy true = m.mDeviceForStrategy strategy := by
  rw [getDeviceForStrategy]

theorem getDevice_phone :
    getDeviceForStrategy A m STRATEGY_PHONE false = phoneCase A m STRATEGY_PHONE := by
  rw [getDeviceForStrategy]

theorem getDevice_media :
    getDeviceForStrategy A m STRATEGY_MEDIA false
      = mediaCase A m STRATEGY_MEDIA 0 (m.mDeviceForStrategy STRATEGY_PHONE) := by
  rw [getDeviceForStrategy, getDevice_fromCache]

theorem getDevice_dtmf :
    getDeviceForStrategy A m STRATEGY_DTMF false
      = if m.mPhoneState ≠ MODE_IN_CALL then getDeviceForStrategy A m STRATEGY_MEDIA false
        else phoneCase A m STRATEGY_DTMF := by
  conv_lhs => rw [getDeviceForStrategy]

theorem getDevice_sonification :
    getDeviceForStrategy A m STRATEGY_SONIFICATION false
      = if m.mPhoneState = MODE_IN_CALL then getDeviceForStrategy A m STRATEGY_PHONE false
        else mediaCase A m STRATEGY_SONIFICATION
          (m.mAvailableOutputDevices &&& A.DEVICE_OUT_SPEAKER)
          (m.mDeviceForStrategy STRATEGY_PHONE) := by
  conv_lhs => rw [getDeviceForStrategy]
  rw [getDevice_fromCache]

theorem getDevice_enforcedAudible :
    getDeviceForStrategy A m STRATEGY_ENFORCED_AUDIBLE false
      = if m.mPhoneState = MODE_IN_CALL then getDeviceForStrategy A m STRATEGY_PHONE false
        else mediaCase A m STRATEGY_ENFORCED_AUDIBLE 0
          (m.mDeviceForStrategy STRATEGY_PHONE) := by
  conv_lhs => rw [getDeviceForStrategy]
  rw [getDevice_fromCache]

theorem getDevice_unknown :
    getDeviceForStrategy A m STRATEGY_UNKNOWN false = 0 := by
  rw [getDeviceForStrategy]

end Unfolding

/-! ## Masks and priority lists -/

theorem subMask_zero (a : Nat) : SubMask 0 a := by
  simp [SubMask]

theorem subMask_and (a x : Nat) : SubMask (a &&& x) a := by
  unfold SubMask
  rw [Nat.and_comm a x, Nat.and_assoc, Nat.and_self]

theorem subMask_iff_testBit (r a : Nat) :
    SubMask r a ↔ ∀ i, r.testBit i = true → a.testBit i = true := by
  unfold SubMask
  constructor
  · intro h i hi
    rw [← h, Nat.testBit_and] at hi
    simp only [Bool.and_eq_true] at hi
    exact hi.2
  · intro h
    apply Nat.eq_of_testBit_eq
    intro i
    rw [Nat.testBit_and]
    cases hr : r.testBit i
    · rfl
    · simp [h i hr]

theorem subMask_or {r s a b : Nat} (hr : SubMask r a) (hs : SubMask s b) :
    SubMask (r ||| s) (a ||| b) := by
  rw [subMask_iff_testBit] at *
  intro i hi
  rw [Nat.testBit_or, Bool.or_eq_true] at *
  rcases hi with hi | hi
  · exact Or.inl (hr i hi)
  · exact Or.inr (hs i hi)

theorem subMask_or_right {r a : Nat} (b : Nat) (hr : SubMask r a) : SubMask r (a ||| b) := by
  have h := subMask_or hr (subMask_zero b)
  rwa [Nat.or_zero] at h

theorem subMask_refl (a : Nat) : SubMask a a := by
  simp [SubMask]

theorem assignIfZero_zero_left (v : Nat) : assignIfZero 0 v = v := by
  simp [assignIfZero]

theorem assignIfZero_zero_right (d : Nat) : assignIfZero d 0 = d := by
  unfold assignIfZero
  split_ifs with h
  · exact h.symm
  · rfl

theorem assignIfZero_assoc (a b c : Nat) :
    assignIfZero (assignIfZero a b) c = assignIfZero a (assignIfZero b c) := by
  unfold assignIfZero
  split_ifs <;> simp_all

theorem firstAvailable_cons (avail d : Nat) (ds : List Nat) :
    firstAvailable avail (d :: ds) = assignIfZero (avail &&& d) (firstAvailable avail ds) := by
  simp only [firstAvailable, assignIfZero]
  split_ifs <;> simp_all

theorem firstAvailable_nil (avail : Nat) : firstAvailable avail [] = 0 := rfl

theorem firstAvailable_subMask (avail : Nat) (ds : List Nat) :
    SubMask (firstAvailable avail ds) avail := by
  induction ds with
  | nil => exact subMask_zero avail
  | cons d ds ih =>
    simp only [firstAvailable]
    split_ifs
    · exact subMask_and avail d
    · exact ih

/-- A single-bit flag that the available mask intersects is contained in it. -/
theorem and_two_pow_of_ne_zero (avail k : Nat) (h : avail &&& 2 ^ k ≠ 0) :
    avail &&& 2 ^ k = 2 ^ k := by
  apply Nat.eq_of_testBit_eq
  intro i
  rw [Nat.testBit_and, Nat.testBit_two_pow]
  by_cases hk : k = i
  · subst hk
    have hb : avail.testBit k = true := by
      by_contra hb
      apply h
      apply Nat.eq_of_testBit_eq
      intro j
      rw [Nat.testBit_and, Nat.testBit_two_pow, Nat.zero_testBit]
      by_cases hj : k = j
      · subst hj; simp [hb]
      · simp [hj]
    simp [hb]
  · simp [hk]

/-- On a list of single-bit flags, `firstAvailable` returns `0` or an entry of the list. -/
theorem firstAvailable_mem (avail : Nat) (ds : List Nat) (hbits : ∀ d ∈ ds, ∃ k, d = 2 ^ k) :
    firstAvailable avail ds = 0 ∨ firstAvailable avail ds ∈ ds := by
  induction ds with
  | nil => exact Or.inl rfl
  | cons d ds ih =>
    simp only [firstAvailable]
    split_ifs with h
    · obtain ⟨k, rfl⟩ := hbits d (List.mem_cons_self d ds)
      right
      rw [and_two_pow_of_ne_zero avail k h]
      exact List.mem_cons_self _ _
    · rcases ih (fun x hx => hbits x (List.mem_cons_of_mem d hx)) with h0 | hm
      · exact Or.inl h0
      · exact Or.inr (List.mem_cons_of_mem d hm)

/-! ## The phone and media cases -/

section Cases

variable {F : Type} (A : AudioSystem) (m : AudioPolicyManager F)

theorem phoneDefaultCase_subMask :
    SubMask (phoneDefaultCase A m) m.mAvailableOutputDevices := by
  unfold phoneDefaultCase
  dsimp only
  split_ifs <;> exact subMask_and _ _

theorem phoneCase_subMask (strategy : Strategy) :
    SubMask (phoneCase A m strategy) m.mAvailableOutputDevices := by
  unfold phoneCase
  split
  · dsimp only
    split_ifs <;>
      first | exact subMask_and _ _ | exact subMask_zero _ | exact phoneDefaultCase_subMask A m
  · dsimp only
    split_ifs <;> first | exact subMask_and _ _ | exact subMask_zero _
  · exact phoneDefaultCase_subMask A m

/-- The media case for a strategy other than `STRATEGY_SONIFICATION` entered with `device`:
the entry device, the first available media candidate and the FM flags are ORed, and the
in-call check keeps that set or replaces it by `0`. -/
theorem mediaCase_eq (strategy : Strategy) (device phoneDevice : Nat)
    (hs : strategy ≠ STRATEGY_SONIFICATION) :
    mediaCase A m strategy device phoneDevice
      = if m.mPhoneState = MODE_IN_CALL
            ∧ A.isA2dpDevice
                ((device ||| firstAvailable m.mAvailableOutputDevices (mediaCandidates A m))
                  ||| fmFlags A m) = false
            ∧ (device ||| firstAvailable m.mAvailableOutputDevices (mediaCandidates A m))
                  ||| fmFlags A m ≠ phoneDevice then 0
        else (device ||| firstAvailable m.mAvailableOutputDevices (mediaCandidates A m))
                  ||| fmFlags A m := by
  have hcand :
      firstAvailable m.mAvailableOutputDevices (mediaCandidates A m)
        = assignIfZero (assignIfZero (assignIfZero (assignIfZero
            (if m.mA2dpOutput ≠ 0 then
              assignIfZero (assignIfZero (assignIfZero
                (assignIfZero
                  (if m.mForceUse FOR_MEDIA = FORCE_SPEAKER then
                    m.mAvailableOutputDevices &&& A.DEVICE_OUT_SPEAKER else 0)
                  (m.mAvailableOutputDevices &&& A.DEVICE_OUT_AUX_DIGITAL))
                (m.mAvailableOutputDevices &&& A.DEVICE_OUT_BLUETOOTH_A2DP))
                (m.mAvailableOutputDevices &&& A.DEVICE_OUT_BLUETOOTH_A2DP_HEADPHONES))
                (m.mAvailableOutputDevices &&& A.DEVICE_OUT_BLUETOOTH_A2DP_SPEAKER)
            else
              assignIfZero
                (if m.mForceUse FOR_MEDIA = FORCE_SPEAKER then
                  m.mAvailableOutputDevices &&& A.DEVICE_OUT_SPEAKER else 0)
                (m.mAvailableOutputDevices &&& A.DEVICE_OUT_AUX_DIGITAL))
            (m.mAvailableOutputDevices &&& A.DEVICE_OUT_WIRED_HEADPHONE))
            (m.mAvailableOutputDevices &&& A.DEVICE_OUT_WIRED_HEADSET))
            (m.mAvailableOutputDevices &&& A.DEVICE_OUT_SPEAKER))
            (m.mAvailableOutputDevices &&& A.DEVICE_OUT_EARPIECE) := by
    unfold mediaCandidates
    by_cases hf : m.mForceUse FOR_MEDIA = FORCE_SPEAKER <;>
      by_cases ha : m.mA2dpOutput ≠ 0 <;>
      simp only [hf, ha, if_true, if_false, ne_eq, not_true_eq_false, not_false_eq_true,
        List.cons_append, List.nil_append, firstAvailable_cons, firstAvailable_nil,
        assignIfZero_assoc, assignIfZero_zero_left, assignIfZero_zero_right]
  have hfm : ∀ d : Nat,
      (if m.mAvailableOutputDevices &&& A.DEVICE_OUT_FM_ALL ≠ 0 then d ||| A.DEVICE_OUT_FM_ALL
        else d) = d ||| fmFlags A m := by
    intro d
    unfold fmFlags
    split_ifs
    · rfl
    · rw [Nat.or_zero]
  unfold mediaCase
  rw [if_pos hs]
  dsimp only
  rw [if_neg (fun h => hs h.2.1), hfm, ← hcand]

/-- The media case entered from `STRATEGY_SONIFICATION` skips the whole block. -/
theorem mediaCase_sonification (device phoneDevice : Nat) :
    mediaCase A m STRATEGY_SONIFICATION device phoneDevice = device := by
  simp [mediaCase]

theorem fmFlags_eq_zero (h : m.mAvailableOutputDevices &&& A.DEVICE_OUT_FM_ALL = 0) :
    fmFlags A m = 0 := by
  simp [fmFlags, h]

theorem mediaComputed_subMask :
    SubMask (mediaComputed A m) (m.mAvailableOutputDevices ||| fmFlags A m) :=
  subMask_or (firstAvailable_subMask _ _) (subMask_refl _)

theorem mediaCase_zero_eq (strategy : Strategy) (phoneDevice : Nat)
    (hs : strategy ≠ STRATEGY_SONIFICATION) :
    mediaCase A m strategy 0 phoneDevice
      = if m.mPhoneState = MODE_IN_CALL ∧ A.isA2dpDevice (mediaComputed A m) = false
            ∧ mediaComputed A m ≠ phoneDevice then 0
        else mediaComputed A m := by
  rw [mediaCase_eq A m strategy 0 phoneDevice hs, Nat.zero_or]
  rfl

theorem mediaCase_zero_subMask (strategy : Strategy) (phoneDevice : Nat)
    (hs : strategy ≠ STRATEGY_SONIFICATION) :
    SubMask (mediaCase A m strategy 0 phoneDevice)
      (m.mAvailableOutputDevices ||| fmFlags A m) := by
  rw [mediaCase_zero_eq A m strategy phoneDevice hs]
  split_ifs
  · exact subMask_zero _
  · exact mediaComputed_subMask A m

end Cases

/-! ## Device selection: claims -/

section DeviceClaims

variable {F : Type}

/-- C1, as stated, fails: with only the flag `0x800` of `DEVICE_OUT_FM_ALL = 0x1800`
available, `getDeviceForStrategy(STRATEGY_MEDIA, false)` returns `0x1800`, which is neither
`0` nor a subset of the available devices. -/
theorem getDevice_subset_counterexample :
    getDeviceForStrategy samplePlatform
        (sampleState MODE_NORMAL FORCE_NONE FORCE_NONE 0x800) STRATEGY_MEDIA false = 0x1800
      ∧ ¬ (getDeviceForStrategy samplePlatform
            (sampleState MODE_NORMAL FORCE_NONE FORCE_NONE 0x800) STRATEGY_MEDIA false = 0
          ∨ SubMask
            (getDeviceForStrategy samplePlatform
              (sampleState MODE_NORMAL FORCE_NONE FORCE_NONE 0x800) STRATEGY_MEDIA false)
            (sampleState MODE_NORMAL FORCE_NONE FORCE_NONE 0x800).mAvailableOutputDevices) := by
  rw [getDevice_media]
  decide

/-- Every result lies within the available devices together with the FM flags the media
rules add. -/
theorem getDevice_subMask_or_fm (A : AudioSystem) (m : AudioPolicyManager F)
    (strategy : Strategy) :
    SubMask (getDeviceForStrategy A m strategy false)
      (m.mAvailableOutputDevices ||| fmFlags A m) := by
  have hphone : SubMask (getDeviceForStrategy A m STRATEGY_PHONE false)
      (m.mAvailableOutputDevices ||| fmFlags A m) := by
    rw [getDevice_phone]
    exact subMask_or_right _ (phoneCase_subMask A m _)
  have hmedia : SubMask (getDeviceForStrategy A m STRATEGY_MEDIA false)
      (m.mAvailableOutputDevices ||| fmFlags A m) := by
    rw [getDevice_media]
    exact mediaCase_zero_subMask A m _ _ (by decide)
  cases strategy with
  | STRATEGY_MEDIA => exact hmedia
  | STRATEGY_PHONE => exact hphone
  | STRATEGY_SONIFICATION =>
    rw [getDevice_sonification]
    split_ifs
    · exact hphone
    · rw [mediaCase_sonification]
      exact subMask_or_right _ (subMask_and _ _)
  | STRATEGY_ENFORCED_AUDIBLE =>
    rw [getDevice_enforcedAudible]
    split_ifs
    · exact hphone
    · exact mediaCase_zero_subMask A m _ _ (by decide)
  | STRATEGY_DTMF =>
    rw [getDevice_dtmf]
    split_ifs
    · exact hmedia
    · exact subMask_or_right _ (phoneCase_subMask A m _)
  | STRATEGY_UNKNOWN =>
    rw [getDevice_unknown]
    exact subMask_zero _

theorem or_eq_of_subMask {b a : Nat} (h : SubMask b a) : a ||| b = a := by
  rw [subMask_iff_testBit] at h
  apply Nat.eq_of_testBit_eq
  intro i
  rw [Nat.testBit_or]
  cases hb : b.testBit i
  · simp
  · simp [h i hb]

/-- A strategy that does not resolve through the media rules returns a subset of the
available devices. -/
theorem getDevice_subMask_of_phone_rules (A : AudioSystem) (m : AudioPolicyManager F)
    (strategy : Strategy) (hmedia : strategy ≠ STRATEGY_MEDIA)
    (hrules : m.mPhoneState = MODE_IN_CALL
      ∨ (strategy ≠ STRATEGY_DTMF ∧ strategy ≠ STRATEGY_ENFORCED_AUDIBLE)) :
    SubMask (getDeviceForStrategy A m strategy false) m.mAvailableOutputDevices := by
  have hphone : SubMask (getDeviceForStrategy A m STRATEGY_PHONE false)
      m.mAvailableOutputDevices := by
    rw [getDevice_phone]
    exact phoneCase_subMask A m _
  cases strategy with
  | STRATEGY_MEDIA => exact absurd rfl hmedia
  | STRATEGY_PHONE => exact hphone
  | STRATEGY_SONIFICATION =>
    rw [getDevice_sonification]
    split_ifs
    · exact hphone
    · rw [mediaCase_sonification]
      exact subMask_and _ _
  | STRATEGY_ENFORCED_AUDIBLE =>
    rcases hrules with hcall | ⟨_, h⟩
    · rw [getDevice_enforcedAudible, if_pos hcall]
      exact hphone
    · exact absurd rfl h
  | STRATEGY_DTMF =>
    rcases hrules with hcall | ⟨h, _⟩
    · rw [getDevice_dtmf, if_neg (by simp [hcall])]
      exact phoneCase_subMask A m _
    · exact absurd rfl h
  | STRATEGY_UNKNOWN =>
    rw [getDevice_unknown]
    exact subMask_zero _

/-- Every result is a subset of the available devices, or it is the device set the media
rules compute: the first available media candidate together with the FM flags. -/
theorem getDevice_subMask_or_eq_mediaComputed (A : AudioSystem) (m : AudioPolicyManager F)
    (strategy : Strategy) :
    SubMask (getDeviceForStrategy A m strategy false) m.mAvailableOutputDevices
      ∨ getDeviceForStrategy A m strategy false = mediaComputed A m := by
  have hcase : ∀ (s : Strategy) (pd : Nat), s ≠ STRATEGY_SONIFICATION →
      SubMask (mediaCase A m s 0 pd) m.mAvailableOutputDevices
        ∨ mediaCase A m s 0 pd = mediaComputed A m := by
    intro s pd hs
    rw [mediaCase_zero_eq A m s pd hs]
    split_ifs
    · exact Or.inl (subMask_zero _)
    · exact Or.inr rfl
  have hmedia : SubMask (getDeviceForStrategy A m STRATEGY_MEDIA false)
        m.mAvailableOutputDevices
      ∨ getDeviceForStrategy A m STRATEGY_MEDIA false = mediaComputed A m := by
    rw [getDevice_media]
    exact hcase _ _ (by decide)
  by_cases hcall : m.mPhoneState = MODE_IN_CALL
  · cases strategy with
    | STRATEGY_MEDIA => exact hmedia
    | STRATEGY_PHONE =>
      exact Or.inl (getDevice_subMask_of_phone_rules A m _ (by decide) (Or.inl hcall))
    | STRATEGY_SONIFICATION =>
      exact Or.inl (getDevice_subMask_of_phone_rules A m _ (by decide) (Or.inl hcall))
    | STRATEGY_ENFORCED_AUDIBLE =>
      exact Or.inl (getDevice_subMask_of_phone_rules A m _ (by decide) (Or.inl hcall))
    | STRATEGY_DTMF =>
      exact Or.inl (getDevice_subMask_of_phone_rules A m _ (by decide) (Or.inl hcall))
    | STRATEGY_UNKNOWN =>
      exact Or.inl (getDevice_subMask_of_phone_rules A m _ (by decide) (Or.inl hcall))
  · cases strategy with
    | STRATEGY_MEDIA => exact hmedia
    | STRATEGY_PHONE =>
      exact Or.inl (getDevice_subMask_of_phone_rules A m _ (by decide)
        (Or.inr ⟨by decide, by decide⟩))
    | STRATEGY_SONIFICATION =>
      exact Or.inl (getDevice_subMask_of_phone_rules A m _ (by decide)
        (Or.inr ⟨by decide, by decide⟩))
    | STRATEGY_ENFORCED_AUDIBLE =>
      rw [getDevice_enforcedAudible, if_neg hcall]
      exact hcase _ _ (by decide)
    | STRATEGY_DTMF =>
      rw [getDevice_dtmf, if_pos hcall]
      exact hmedia
    | STRATEGY_UNKNOWN =>
      exact Or.inl (getDevice_subMask_of_phone_rules A m _ (by decide)
        (Or.inr ⟨by decide, by decide⟩))

/-- C1, amended: for every strategy and every policy state,
`getDeviceForStrategy(strategy, false)` returns a mask that is a subset of
`mAvailableOutputDevices` (possibly `0`) whenever the strategy does not resolve through the
media rules (`PHONE`, `SONIFICATION`, an unknown strategy, and `DTMF` and `ENFORCED_AUDIBLE`
in a call), and for every strategy whenever none or all of the flags of `DEVICE_OUT_FM_ALL`
are available. In the remaining states, where only some of the FM flags are available and the
media rules apply, the result is a subset of `mAvailableOutputDevices | DEVICE_OUT_FM_ALL`;
and a result that is not a subset of `mAvailableOutputDevices` is the first available media
candidate together with all of `DEVICE_OUT_FM_ALL`. -/
theorem getDevice_subset_unless_partial_fm (A : AudioSystem) (m : AudioPolicyManager F)
    (strategy : Strategy) :
    (strategy ≠ STRATEGY_MEDIA
          ∧ (m.mPhoneState = MODE_IN_CALL
            ∨ (strategy ≠ STRATEGY_DTMF ∧ strategy ≠ STRATEGY_ENFORCED_AUDIBLE)) →
        SubMask (getDeviceForStrategy A m strategy false) m.mAvailableOutputDevices)
      ∧ (m.mAvailableOutputDevices &&& A.DEVICE_OUT_FM_ALL = 0
          ∨ m.mAvailableOutputDevices &&& A.DEVICE_OUT_FM_ALL = A.DEVICE_OUT_FM_ALL →
        SubMask (getDeviceForStrategy A m strategy false) m.mAvailableOutputDevices)
      ∧ SubMask (getDeviceForStrategy A m strategy false)
          (m.mAvailableOutputDevices ||| A.DEVICE_OUT_FM_ALL)
      ∧ (SubMask (getDeviceForStrategy A m strategy false) m.mAvailableOutputDevices
        ∨ getDeviceForStrategy A m strategy false
          = firstAvailable m.mAvailableOutputDevices (mediaCandidates A m)
            ||| A.DEVICE_OUT_FM_ALL) := by
  have hfm := getDevice_subMask_or_fm A m strategy
  refine ⟨fun h => getDevice_subMask_of_phone_rules A m strategy h.1 h.2, ?_, ?_, ?_⟩
  · rintro (h | h)
    · rw [fmFlags_eq_zero A m h, Nat.or_zero] at hfm
      exact hfm
    · have hsub : SubMask A.DEVICE_OUT_FM_ALL m.mAvailableOutputDevices := by
        unfold SubMask
        rw [Nat.and_comm]
        exact h
      have hle : SubMask (fmFlags A m) m.mAvailableOutputDevices := by
        unfold fmFlags
        split_ifs
        · exact hsub
        · exact subMask_zero _
      rw [or_eq_of_subMask hle] at hfm
      exact hfm
  · have hle : SubMask (m.mAvailableOutputDevices ||| fmFlags A m)
        (m.mAvailableOutputDevices ||| A.DEVICE_OUT_FM_ALL) := by
      unfold fmFlags
      split_ifs
      · exact subMask_refl _
      · exact subMask_or (subMask_refl _) (subMask_zero _)
    rw [subMask_iff_testBit] at hfm hle ⊢
    exact fun i hi => hle i (hfm i hi)
  · rcases getDevice_subMask_or_eq_mediaComputed A m strategy with h | h
    · exact Or.inl h
    · by_cases hany : m.mAvailableOutputDevices &&& A.DEVICE_OUT_FM_ALL = 0
      · left
        rw [fmFlags_eq_zero A m hany, Nat.or_zero] at hfm
        exact hfm
      · right
        rw [h]
        unfold mediaComputed fmFlags
        rw [if_pos hany]

theorem getDevice_subset_unless_partial_fm_witness :
    SubMask
        (getDeviceForStrategy samplePlatform
          (sampleState MODE_NORMAL FORCE_NONE FORCE_NONE 0x80A) STRATEGY_SONIFICATION false)
        (sampleState MODE_NORMAL FORCE_NONE FORCE_NONE 0x80A).mAvailableOutputDevices
      ∧ SubMask
        (getDeviceForStrategy samplePlatform
          (sampleState MODE_NORMAL FORCE_NONE FORCE_NONE 0x180A) STRATEGY_MEDIA false)
        (sampleState MODE_NORMAL FORCE_NONE FORCE_NONE 0x180A).mAvailableOutputDevices :=
  ⟨(getDevice_subset_unless_partial_fm samplePlatform
      (sampleState MODE_NORMAL FORCE_NONE FORCE_NONE 0x80A) STRATEGY_SONIFICATION).1
      ⟨by decide, Or.inr ⟨by decide, by decide⟩⟩,
    (getDevice_subset_unless_partial_fm samplePlatform
      (sampleState MODE_NORMAL FORCE_NONE FORCE_NONE 0x180A) STRATEGY_MEDIA).2.1
      (Or.inr (by decide))⟩

/-- C2, as stated, fails: in a call with `FOR_COMMUNICATION` forced to `BT_SCO` and both the
SCO carkit (`0x40`) and the SCO headset (`0x20`) available, `STRATEGY_PHONE` selects the
carkit while `STRATEGY_DTMF` skips it and selects the headset. -/
theorem dtmf_in_call_counterexample :
    (sampleState MODE_IN_CALL FORCE_BT_SCO FORCE_NONE 0x60).mPhoneState = MODE_IN_CALL
      ∧ getDeviceForStrategy samplePlatform
          (sampleState MODE_IN_CALL FORCE_BT_SCO FORCE_NONE 0x60) STRATEGY_DTMF false = 0x20
      ∧ getDeviceForStrategy samplePlatform
          (sampleState MODE_IN_CALL FORCE_BT_SCO FORCE_NONE 0x60) STRATEGY_PHONE false = 0x40
      ∧ getDeviceForStrategy samplePlatform
          (sampleState MODE_IN_CALL FORCE_BT_SCO FORCE_NONE 0x60) STRATEGY_DTMF false
        ≠ getDeviceForStrategy samplePlatform
          (sampleState MODE_IN_CALL FORCE_BT_SCO FORCE_NONE 0x60) STRATEGY_PHONE false := by
  rw [getDevice_dtmf, getDevice_phone]
  decide

/-- C3: for every policy state whose phone state is not IN_CALL,
`getDeviceForStrategy(DTMF, false)` equals `getDeviceForStrategy(MEDIA, false)` on the same
state, whatever the force-use table and the cache hold. -/
theorem dtmf_off_call_eq_media (A : AudioSystem) (m : AudioPolicyManager F)
    (hcall : m.mPhoneState ≠ MODE_IN_CALL) :
    getDeviceForStrategy A m STRATEGY_DTMF false
      = getDeviceForStrategy A m STRATEGY_MEDIA false := by
  rw [getDevice_dtmf, if_pos hcall]

theorem dtmf_off_call_eq_media_witness :
    (sampleState MODE_RINGTONE FORCE_BT_SCO FORCE_NONE 0x4A).mPhoneState ≠ MODE_IN_CALL
      ∧ getDeviceForStrategy samplePlatform
          (sampleState MODE_RINGTONE FORCE_BT_SCO FORCE_NONE 0x4A) STRATEGY_DTMF false
        = getDeviceForStrategy samplePlatform
          (sampleState MODE_RINGTONE FORCE_BT_SCO FORCE_NONE 0x4A) STRATEGY_MEDIA false :=
  ⟨by decide,
    dtmf_off_call_eq_media samplePlatform
      (sampleState MODE_RINGTONE FORCE_BT_SCO FORCE_NONE 0x4A) (by decide)⟩

/-- C4: for `STRATEGY_MEDIA` with `fromCache = false` while the phone state is IN_CALL, the
result is `0` when the computed device set (first available media candidate ORed with the FM
flags) is not an A2DP device and differs from the cache entry `mDeviceForStrategy[PHONE]`,
and is the computed device set unchanged otherwise. -/
theorem media_in_call (A : AudioSystem) (m : AudioPolicyManager F)
    (hcall : m.mPhoneState = MODE_IN_CALL) :
    getDeviceForStrategy A m STRATEGY_MEDIA false
      = if A.isA2dpDevice (mediaComputed A m) = false
            ∧ mediaComputed A m ≠ m.mDeviceForStrategy STRATEGY_PHONE then 0
        else mediaComputed A m := by
  rw [getDevice_media, mediaCase_zero_eq A m _ _ (by decide)]
  simp [hcall]

theorem media_in_call_witness :
    (sampleState MODE_IN_CALL FORCE_NONE FORCE_NONE 0x9).mPhoneState = MODE_IN_CALL
      ∧ getDeviceForStrategy samplePlatform
          (sampleState MODE_IN_CALL FORCE_NONE FORCE_NONE 0x9) STRATEGY_MEDIA false = 0 :=
  ⟨rfl,
    (media_in_call samplePlatform
      (sampleState MODE_IN_CALL FORCE_NONE FORCE_NONE 0x9) rfl).trans (by decide)⟩

/-- C5, as stated, fails: off call, with no A2DP output and the speaker (`0x2`) and the wired
headphone (`0x8`) available, `STRATEGY_SONIFICATION` returns the speaker alone, whereas
`(available & SPEAKER) | getDeviceForStrategy(MEDIA, false)` is `0xA`. -/
theorem sonification_off_call_counterexample :
    (sampleState MODE_NORMAL FORCE_NONE FORCE_NONE 0xA).mPhoneState ≠ MODE_IN_CALL
      ∧ (sampleState MODE_NORMAL FORCE_NONE FORCE_NONE 0xA).mA2dpOutput = 0
      ∧ getDeviceForStrategy samplePlatform
          (sampleState MODE_NORMAL FORCE_NONE FORCE_NONE 0xA) STRATEGY_SONIFICATION false = 0x2
      ∧ (sampleState MODE_NORMAL FORCE_NONE FORCE_NONE 0xA).mAvailableOutputDevices
            &&& samplePlatform.DEVICE_OUT_SPEAKER
          ||| getDeviceForStrategy samplePlatform
            (sampleState MODE_NORMAL FORCE_NONE FORCE_NONE 0xA) STRATEGY_MEDIA false = 0xA
      ∧ getDeviceForStrategy samplePlatform
          (sampleState MODE_NORMAL FORCE_NONE FORCE_NONE 0xA) STRATEGY_SONIFICATION false
        ≠ (sampleState MODE_NORMAL FORCE_NONE FORCE_NONE 0xA).mAvailableOutputDevices
            &&& samplePlatform.DEVICE_OUT_SPEAKER
          ||| getDeviceForStrategy samplePlatform
            (sampleState MODE_NORMAL FORCE_NONE FORCE_NONE 0xA) STRATEGY_MEDIA false := by
  rw [getDevice_sonification, getDevice_media]
  decide

/-- C5, amended: for `STRATEGY_SONIFICATION` with `fromCache = false` while not in an active
call, MEDIA handling is skipped and the returned mask is exactly
`mAvailableOutputDevices & SPEAKER`. -/
theorem sonification_off_call (A : AudioSystem) (m : AudioPolicyManager F)
    (hcall : m.mPhoneState ≠ MODE_IN_CALL) :
    getDeviceForStrategy A m STRATEGY_SONIFICATION false
      = m.mAvailableOutputDevices &&& A.DEVICE_OUT_SPEAKER := by
  rw [getDevice_sonification, if_neg hcall, mediaCase_sonification]

theorem sonification_off_call_witness :
    (sampleState MODE_NORMAL FORCE_NONE FORCE_NONE 0xA).mPhoneState ≠ MODE_IN_CALL
      ∧ getDeviceForStrategy samplePlatform
          (sampleState MODE_NORMAL FORCE_NONE FORCE_NONE 0xA) STRATEGY_SONIFICATION false
        = (sampleState MODE_NORMAL FORCE_NONE FORCE_NONE 0xA).mAvailableOutputDevices
            &&& samplePlatform.DEVICE_OUT_SPEAKER :=
  ⟨by decide,
    sonification_off_call samplePlatform (sampleState MODE_NORMAL FORCE_NONE FORCE_NONE 0xA)
      (by decide)⟩

/-- C6: for every policy state whose phone state is IN_CALL,
`getDeviceForStrategy(ENFORCED_AUDIBLE, false)` and `getDeviceForStrategy(SONIFICATION, false)`
both equal `getDeviceForStrategy(PHONE, false)` on the same state, so the speaker flag computed
first for SONIFICATION is discarded. -/
theorem audible_in_call_eq_phone (A : AudioSystem) (m : AudioPolicyManager F)
    (hcall : m.mPhoneState = MODE_IN_CALL) :
    getDeviceForStrategy A m STRATEGY_ENFORCED_AUDIBLE false
        = getDeviceForStrategy A m STRATEGY_PHONE false
      ∧ getDeviceForStrategy A m STRATEGY_SONIFICATION false
        = getDeviceForStrategy A m STRATEGY_PHONE false := by
  rw [getDevice_enforcedAudible, getDevice_sonification, if_pos hcall, if_pos hcall]
  exact ⟨rfl, rfl⟩

theorem audible_in_call_eq_phone_witness :
    (sampleState MODE_IN_CALL FORCE_NONE FORCE_NONE 0x3).mPhoneState = MODE_IN_CALL
      ∧ getDeviceForStrategy samplePlatform
          (sampleState MODE_IN_CALL FORCE_NONE FORCE_NONE 0x3) STRATEGY_ENFORCED_AUDIBLE false
        = getDeviceForStrategy samplePlatform
          (sampleState MODE_IN_CALL FORCE_NONE FORCE_NONE 0x3) STRATEGY_PHONE false
      ∧ getDeviceForStrategy samplePlatform
          (sampleState MODE_IN_CALL FORCE_NONE FORCE_NONE 0x3) STRATEGY_SONIFICATION false
        = getDeviceForStrategy samplePlatform
          (sampleState MODE_IN_CALL FORCE_NONE FORCE_NONE 0x3) STRATEGY_PHONE false :=
  ⟨rfl,
    audible_in_call_eq_phone samplePlatform
      (sampleState MODE_IN_CALL FORCE_NONE FORCE_NONE 0x3) rfl⟩

/-- C7: for `STRATEGY_PHONE` with `fromCache = false` and `FOR_COMMUNICATION` forced to
`BT_SCO`, whenever one of `BLUETOOTH_SCO_CARKIT`, `BLUETOOTH_SCO_HEADSET`, `BLUETOOTH_SCO` is
available the result is the first available of them in that order, for every phone state and
whatever else is available; and when `BLUETOOTH_SCO` is available while neither the carkit nor
the headset is, the result is exactly `BLUETOOTH_SCO`. -/
theorem phone_forced_bt_sco (A : AudioSystem) (m : AudioPolicyManager F)
    (hforce : m.mForceUse FOR_COMMUNICATION = FORCE_BT_SCO) :
    (firstAvailable m.mAvailableOutputDevices
          [A.DEVICE_OUT_BLUETOOTH_SCO_CARKIT, A.DEVICE_OUT_BLUETOOTH_SCO_HEADSET,
            A.DEVICE_OUT_BLUETOOTH_SCO] ≠ 0 →
        getDeviceForStrategy A m STRATEGY_PHONE false
          = firstAvailable m.mAvailableOutputDevices
              [A.DEVICE_OUT_BLUETOOTH_SCO_CARKIT, A.DEVICE_OUT_BLUETOOTH_SCO_HEADSET,
                A.DEVICE_OUT_BLUETOOTH_SCO])
      ∧ (m.mAvailableOutputDevices &&& A.DEVICE_OUT_BLUETOOTH_SCO_CARKIT = 0 →
          m.mAvailableOutputDevices &&& A.DEVICE_OUT_BLUETOOTH_SCO_HEADSET = 0 →
          A.DEVICE_OUT_BLUETOOTH_SCO ≠ 0 →
          m.mAvailableOutputDevices &&& A.DEVICE_OUT_BLUETOOTH_SCO
            = A.DEVICE_OUT_BLUETOOTH_SCO →
          getDeviceForStrategy A m STRATEGY_PHONE false = A.DEVICE_OUT_BLUETOOTH_SCO) := by
  rw [getDevice_phone]
  unfold phoneCase
  rw [hforce]
  constructor
  · intro hsome
    simp only [firstAvailable] at hsome ⊢
    split_ifs at hsome ⊢ <;> simp_all
  · intro hcar hhead hne hsco
    simp [hcar, hhead, hsco, hne]

theorem phone_forced_bt_sco_witness :
    (sampleState MODE_IN_CALL FORCE_BT_SCO FORCE_NONE 0x1F).mForceUse FOR_COMMUNICATION
        = FORCE_BT_SCO
      ∧ getDeviceForStrategy samplePlatform
          (sampleState MODE_IN_CALL FORCE_BT_SCO FORCE_NONE 0x1F) STRATEGY_PHONE false
        = firstAvailable 0x1F [0x40, 0x20, 0x10]
      ∧ getDeviceForStrategy samplePlatform
          (sampleState MODE_IN_CALL FORCE_BT_SCO FORCE_NONE 0x1F) STRATEGY_PHONE false
        = samplePlatform.DEVICE_OUT_BLUETOOTH_SCO :=
  have h := phone_forced_bt_sco samplePlatform
    (sampleState MODE_IN_CALL FORCE_BT_SCO FORCE_NONE 0x1F) rfl
  ⟨rfl, h.1 (by decide), h.2 (by decide) (by decide) (by decide) (by decide)⟩

end DeviceClaims

/-! ## Volume application: claims -/

section VolumeClaims

variable {F : Type}

/-- The mute gate (lines 219-222): a muted stream ends the call at once. -/
theorem checkAndSetVolume_of_muted (A : AudioSystem) (fl : FloatOps F) (env : Collaborators F)
    (m : AudioPolicyManager F) (stream : StreamType) (index output : Int) (device : Nat)
    (delayMs : Int) (force : Bool) (hmute : (m.mOutputs output).mMuteCount stream ≠ 0) :
    checkAndSetVolume A fl env m stream index output device delayMs force
      = { status := Status.NO_ERROR, state := m, calls := [] } := by
  unfold checkAndSetVolume
  rw [if_pos hmute]

/-- The cross-routing guard (lines 225-230), reached by an unmuted stream. -/
theorem checkAndSetVolume_of_guard (A : AudioSystem) (fl : FloatOps F) (env : Collaborators F)
    (m : AudioPolicyManager F) (stream : StreamType) (index output : Int) (device : Nat)
    (delayMs : Int) (force : Bool) (hmute : (m.mOutputs output).mMuteCount stream = 0)
    (hguard : (stream = StreamType.VOICE_CALL
          ∧ m.mForceUse FOR_COMMUNICATION = FORCE_BT_SCO)
        ∨ (stream = StreamType.BLUETOOTH_SCO
          ∧ m.mForceUse FOR_COMMUNICATION ≠ FORCE_BT_SCO)) :
    checkAndSetVolume A fl env m stream index output device delayMs force
      = { status := Status.INVALID_OPERATION, state := m, calls := [] } := by
  unfold checkAndSetVolume
  rw [if_neg (by simp [hmute]), if_pos hguard]

/-- C9: for every stream, index, device, delay and force flag, if the target output's mute
count for the stream is nonzero then `checkAndSetVolume` returns `NO_ERROR`, makes no call on
the client interface (none of `setStreamVolume`, `setVoiceVolume`, `setFmVolume`), and leaves
the policy state, hence the last-applied volumes and `mLastVoiceVolume`, unchanged. -/
theorem muted_stream_untouched (A : AudioSystem) (fl : FloatOps F) (env : Collaborators F)
    (m : AudioPolicyManager F) (stream : StreamType) (index output : Int) (device : Nat)
    (delayMs : Int) (force : Bool) (hmute : (m.mOutputs output).mMuteCount stream ≠ 0) :
    (checkAndSetVolume A fl env m stream index output device delayMs force).status
        = Status.NO_ERROR
      ∧ (checkAndSetVolume A fl env m stream index output device delayMs force).calls = []
      ∧ (checkAndSetVolume A fl env m stream index output device delayMs force).state = m := by
  rw [checkAndSetVolume_of_muted A fl env m stream index output device delayMs force hmute]
  exact ⟨rfl, rfl, rfl⟩

theorem muted_stream_untouched_witness :
    ((withMuteCount (sampleState MODE_NORMAL FORCE_NONE FORCE_NONE 0x2) StreamType.MUSIC 2).mOutputs
          1).mMuteCount StreamType.MUSIC ≠ 0
      ∧ (checkAndSetVolume samplePlatform (exactOps (fun _ => 0) (fun _ => 1)) sampleEnv
          (withMuteCount (sampleState MODE_NORMAL FORCE_NONE FORCE_NONE 0x2) StreamType.MUSIC 2)
          StreamType.MUSIC 7 1 0x2 0 true).calls = [] :=
  ⟨by decide,
    (muted_stream_untouched samplePlatform (exactOps (fun _ => 0) (fun _ => 1)) sampleEnv
      (withMuteCount (sampleState MODE_NORMAL FORCE_NONE FORCE_NONE 0x2) StreamType.MUSIC 2)
      StreamType.MUSIC 7 1 0x2 0 true (by decide)).2.1⟩

/-- C10, as stated, fails: with `FOR_COMMUNICATION` forced to `BT_SCO` and the `VOICE_CALL`
stream muted on the output (mute count `1`), `checkAndSetVolume` returns `NO_ERROR`, not
`INVALID_OPERATION`. -/
theorem voice_call_bt_sco_counterexample :
    (withMuteCount (sampleState MODE_IN_CALL FORCE_BT_SCO FORCE_NONE 0x10)
          StreamType.VOICE_CALL 1).mForceUse FOR_COMMUNICATION = FORCE_BT_SCO
      ∧ (checkAndSetVolume samplePlatform (exactOps (fun _ => 0) (fun _ => 1)) sampleEnv
          (withMuteCount (sampleState MODE_IN_CALL FORCE_BT_SCO FORCE_NONE 0x10)
            StreamType.VOICE_CALL 1)
          StreamType.VOICE_CALL 5 1 0x10 0 false).status = Status.NO_ERROR
      ∧ (checkAndSetVolume samplePlatform (exactOps (fun _ => 0) (fun _ => 1)) sampleEnv
          (withMuteCount (sampleState MODE_IN_CALL FORCE_BT_SCO FORCE_NONE 0x10)
            StreamType.VOICE_CALL 1)
          StreamType.VOICE_CALL 5 1 0x10 0 false).status ≠ Status.INVALID_OPERATION := by
  rw [checkAndSetVolume_of_muted _ _ _ _ _ _ _ _ _ _ (by decide)]
  decide

/-- C10, amended: for every index, output, device, delay, force flag and per-output state,
`checkAndSetVolume` with stream `VOICE_CALL` while `FOR_COMMUNICATION` is forced to `BT_SCO`
returns `INVALID_OPERATION` when the stream's mute count on the output is zero and `NO_ERROR`
when it is nonzero; in both cases it makes no call on the client interface and leaves the
policy state unchanged. -/
theorem voice_call_bt_sco (A : AudioSystem) (fl : FloatOps F) (env : Collaborators F)
    (m : AudioPolicyManager F) (index output : Int) (device : Nat) (delayMs : Int)
    (force : Bool) (hforce : m.mForceUse FOR_COMMUNICATION = FORCE_BT_SCO) :
    (checkAndSetVolume A fl env m StreamType.VOICE_CALL index output device delayMs
          force).status
        = (if (m.mOutputs output).mMuteCount StreamType.VOICE_CALL = 0
            then Status.INVALID_OPERATION else Status.NO_ERROR)
      ∧ (checkAndSetVolume A fl env m StreamType.VOICE_CALL index output device delayMs
          force).calls = []
      ∧ (checkAndSetVolume A fl env m StreamType.VOICE_CALL index output device delayMs
          force).state = m := by
  by_cases hmute : (m.mOutputs output).mMuteCount StreamType.VOICE_CALL = 0
  · rw [checkAndSetVolume_of_guard A fl env m _ index output device delayMs force hmute
      (Or.inl ⟨rfl, hforce⟩), if_pos hmute]
    exact ⟨rfl, rfl, rfl⟩
  · rw [checkAndSetVolume_of_muted A fl env m _ index output device delayMs force hmute,
      if_neg hmute]
    exact ⟨rfl, rfl, rfl⟩

theorem voice_call_bt_sco_witness :
    (sampleState MODE_IN_CALL FORCE_BT_SCO FORCE_NONE 0x10).mForceUse FOR_COMMUNICATION
        = FORCE_BT_SCO
      ∧ (checkAndSetVolume samplePlatform (exactOps (fun _ => 0) (fun _ => 1)) sampleEnv
          (sampleState MODE_IN_CALL FORCE_BT_SCO FORCE_NONE 0x10)
          StreamType.VOICE_CALL 5 1 0x10 0 false).status = Status.INVALID_OPERATION :=
  ⟨rfl,
    (voice_call_bt_sco samplePlatform (exactOps (fun _ => 0) (fun _ => 1)) sampleEnv
      (sampleState MODE_IN_CALL FORCE_BT_SCO FORCE_NONE 0x10) 5 1 0x10 0 false rfl).1.trans
      (by decide)⟩

end VolumeClaims

/-! ## Volume application past the two gates -/

section VolumeNormalForm

variable {F : Type}

theorem voiceVolumeStep_status (fl : FloatOps F) (m : AudioPolicyManager F)
    (stream : StreamType) (index output delayMs : Int) (calls : List (SinkCall F)) :
    (voiceVolumeStep fl m stream index output delayMs calls).status = Status.NO_ERROR := by
  unfold voiceVolumeStep
  dsimp only
  split_ifs <;> rfl

/-- An unmuted, not cross-routed call: the change decision, then either the FM path or the
generic write followed by the voice volume side channel. -/
theorem checkAndSetVolume_of_pass (A : AudioSystem) (fl : FloatOps F) (env : Collaborators F)
    (m : AudioPolicyManager F) (stream : StreamType) (index output : Int) (device : Nat)
    (delayMs : Int) (force : Bool) (hmute : (m.mOutputs output).mMuteCount stream = 0)
    (hguard : ¬ crossRouted m stream) :
    checkAndSetVolume A fl env m stream index output device delayMs force
      = if fl.ne (attenuatedVolume A fl env stream index output device)
              ((m.mOutputs output).mCurVolume stream) = true
            ∨ stream = StreamType.VOICE_CALL ∨ stream = StreamType.FM ∨ force = true then
          if stream = StreamType.FM then
            { status := Status.NO_ERROR
              state := setCurVolume m output stream
                (attenuatedVolume A fl env stream index output device)
              calls :=
                if fl.geZero (attenuatedVolume A fl env stream index output device) = true
                    ∧ output = m.mHardwareOutput then
                  [SinkCall.setFmVolume (attenuatedVolume A fl env stream index output device)
                    delayMs]
                else [] }
          else
            voiceVolumeStep fl
              (setCurVolume m output stream
                (attenuatedVolume A fl env stream index output device))
              stream index output delayMs
              [SinkCall.setStreamVolume stream
                (transmittedVolume fl stream
                  (attenuatedVolume A fl env stream index output device))
                output delayMs]
        else voiceVolumeStep fl m stream index output delayMs [] := by
  have hbody : checkAndSetVolume A fl env m stream index output device delayMs force
      = if (m.mOutputs output).mMuteCount stream ≠ 0 then
          { status := Status.NO_ERROR, state := m, calls := [] }
        else if (stream = StreamType.VOICE_CALL
              ∧ m.mForceUse FOR_COMMUNICATION = FORCE_BT_SCO)
            ∨ (stream = StreamType.BLUETOOTH_SCO
              ∧ m.mForceUse FOR_COMMUNICATION ≠ FORCE_BT_SCO) then
          { status := Status.INVALID_OPERATION, state := m, calls := [] }
        else
          (fun v : F =>
            if fl.ne v ((m.mOutputs output).mCurVolume stream) = true
                ∨ stream = StreamType.VOICE_CALL ∨ stream = StreamType.FM ∨ force = true then
              if stream = StreamType.VOICE_CALL ∨ stream = StreamType.DTMF
                  ∨ stream = StreamType.BLUETOOTH_SCO then
                voiceVolumeStep fl (setCurVolume m output stream v) stream index output delayMs
                  [SinkCall.setStreamVolume stream (fl.floorRemap v) output delayMs]
              else if stream = StreamType.FM then
                if fl.geZero v = true ∧ output = m.mHardwareOutput then
                  { status := Status.NO_ERROR
                    state := setCurVolume m output stream v
                    calls := [SinkCall.setFmVolume v delayMs] }
                else
                  { status := Status.NO_ERROR
                    state := setCurVolume m output stream v
                    calls := [] }
              else
                voiceVolumeStep fl (setCurVolume m output stream v) stream index output delayMs
                  [SinkCall.setStreamVolume stream v output delayMs]
            else voiceVolumeStep fl m stream index output delayMs [])
            (attenuatedVolume A fl env stream index output device) := rfl
  unfold crossRouted at hguard
  rw [hbody, if_neg (by simp [hmute]), if_neg hguard]
  dsimp only
  generalize attenuatedVolume A fl env stream index output device = v
  unfold transmittedVolume
  split_ifs <;> first | rfl | simp_all

end VolumeNormalForm

section VolumeSteps

variable {F : Type}

/-- The voice volume side channel in one test: the voice volume is sent and stored exactly
when the stream is the voice call or Bluetooth SCO stream, the voice volume is not negative and
the output is the hardware output. -/
theorem voiceVolumeStep_eq (fl : FloatOps F) (m : AudioPolicyManager F)
    (stream : StreamType) (index output delayMs : Int) (calls : List (SinkCall F)) :
    voiceVolumeStep fl m stream index output delayMs calls
      = if (stream = StreamType.VOICE_CALL ∨ stream = StreamType.BLUETOOTH_SCO)
            ∧ fl.geZero (voiceVolumeOf fl m stream index) = true
            ∧ output = m.mHardwareOutput then
          { status := Status.NO_ERROR
            state := { m with mLastVoiceVolume := voiceVolumeOf fl m stream index }
            calls := calls ++ [SinkCall.setVoiceVolume (voiceVolumeOf fl m stream index) delayMs] }
        else { status := Status.NO_ERROR, state := m, calls := calls } := by
  unfold voiceVolumeStep voiceVolumeOf
  dsimp only
  split_ifs <;> first | rfl | simp_all

theorem checkAndSetVolume_status_of_pass (A : AudioSystem) (fl : FloatOps F)
    (env : Collaborators F) (m : AudioPolicyManager F) (stream : StreamType)
    (index output : Int) (device : Nat) (delayMs : Int) (force : Bool)
    (hmute : (m.mOutputs output).mMuteCount stream = 0) (hguard : ¬ crossRouted m stream) :
    (checkAndSetVolume A fl env m stream index output device delayMs force).status
      = Status.NO_ERROR := by
  rw [checkAndSetVolume_of_pass A fl env m stream index output device delayMs force hmute
    hguard]
  split_ifs <;> first | rfl | exact voiceVolumeStep_status _ _ _ _ _ _ _

end VolumeSteps

/-! ## Volume application: further claims -/

section VolumeClaimsTwo

variable {F : Type}

/-- C11: `checkAndSetVolume` returns `INVALID_OPERATION` if and only if the stream's mute count
on the output is zero and either the stream is `VOICE_CALL` with `FOR_COMMUNICATION` forced to
`BT_SCO`, or the stream is `BLUETOOTH_SCO` with `FOR_COMMUNICATION` not forced to `BT_SCO`; in
every other case it returns `NO_ERROR`; and whenever it returns `INVALID_OPERATION` it makes no
call on the client interface and leaves the policy state unchanged. -/
theorem invalid_operation_iff (A : AudioSystem) (fl : FloatOps F) (env : Collaborators F)
    (m : AudioPolicyManager F) (stream : StreamType) (index output : Int) (device : Nat)
    (delayMs : Int) (force : Bool) :
    ((checkAndSetVolume A fl env m stream index output device delayMs force).status
          = Status.INVALID_OPERATION
        ↔ (m.mOutputs output).mMuteCount stream = 0
          ∧ ((stream = StreamType.VOICE_CALL
              ∧ m.mForceUse FOR_COMMUNICATION = FORCE_BT_SCO)
            ∨ (stream = StreamType.BLUETOOTH_SCO
              ∧ m.mForceUse FOR_COMMUNICATION ≠ FORCE_BT_SCO)))
      ∧ ((checkAndSetVolume A fl env m stream index output device delayMs force).status
          ≠ Status.INVALID_OPERATION →
        (checkAndSetVolume A fl env m stream index output device delayMs force).status
          = Status.NO_ERROR)
      ∧ ((checkAndSetVolume A fl env m stream index output device delayMs force).status
          = Status.INVALID_OPERATION →
        (checkAndSetVolume A fl env m stream index output device delayMs force).calls = []
          ∧ (checkAndSetVolume A fl env m stream index output device delayMs force).state
            = m) := by
  by_cases hmute : (m.mOutputs output).mMuteCount stream = 0
  · by_cases hguard : crossRouted m stream
    · rw [checkAndSetVolume_of_guard A fl env m stream index output device delayMs force
        hmute hguard]
      exact ⟨⟨fun _ => ⟨hmute, hguard⟩, fun _ => rfl⟩, fun h => absurd rfl h,
        fun _ => ⟨rfl, rfl⟩⟩
    · have hs := checkAndSetVolume_status_of_pass A fl env m stream index output device
        delayMs force hmute hguard
      rw [hs]
      exact ⟨⟨fun h => Status.noConfusion h, fun h => absurd h.2 hguard⟩, fun _ => rfl,
        fun h => Status.noConfusion h⟩
  · rw [checkAndSetVolume_of_muted A fl env m stream index output device delayMs force hmute]
    exact ⟨⟨fun h => Status.noConfusion h, fun h => absurd h.1 hmute⟩, fun _ => rfl,
      fun h => Status.noConfusion h⟩

theorem invalid_operation_iff_witness :
    (checkAndSetVolume samplePlatform (exactOps (fun _ => 0) (fun _ => 1)) sampleEnv
        (sampleState MODE_NORMAL FORCE_NONE FORCE_NONE 0x10)
        StreamType.BLUETOOTH_SCO 3 1 0x10 0 false).status = Status.INVALID_OPERATION
      ∧ (checkAndSetVolume samplePlatform (exactOps (fun _ => 0) (fun _ => 1)) sampleEnv
          (sampleState MODE_NORMAL FORCE_NONE FORCE_NONE 0x10)
          StreamType.BLUETOOTH_SCO 3 1 0x10 0 false).calls = [] :=
  have h := invalid_operation_iff samplePlatform (exactOps (fun _ => 0) (fun _ => 1))
    sampleEnv (sampleState MODE_NORMAL FORCE_NONE FORCE_NONE 0x10)
    StreamType.BLUETOOTH_SCO 3 1 0x10 0 false
  have hs := h.1.2 ⟨by decide, Or.inr ⟨rfl, by decide⟩⟩
  ⟨hs, (h.2.2 hs).1⟩

end VolumeClaimsTwo

section ExactOps

theorem sampleAtof_zero : sampleAtof "0" = 0 := by
  unfold sampleAtof
  rw [if_neg (by decide), if_neg (by decide), if_neg (by decide)]

theorem sampleAtof_six : sampleAtof "6" = 6 := by
  unfold sampleAtof
  rw [if_neg (by decide), if_neg (by decide), if_pos rfl]

theorem sampleAtof_minus_twenty : sampleAtof "-20" = -20 := by
  unfold sampleAtof
  rw [if_pos rfl]

theorem sampleAttenuation_zero : sampleAttenuation 0 = 1 := by
  norm_num [sampleAttenuation]

theorem sampleAttenuation_minus_twenty : sampleAttenuation (-20) = 10 := by
  norm_num [sampleAttenuation]

end ExactOps

section VolumeClaimsThree

variable {F : Type}

/-- C16: for every `checkAndSetVolume` call with stream `FM` that passes the mute gate, the
result is `NO_ERROR`, `setStreamVolume` is never invoked, the output's last-applied FM volume
is set to the attenuated volume, and `setFmVolume(volume, delayMs)` is the one call made when
the attenuated volume is `>= 0` and the output is `mHardwareOutput`; when that condition is
false no call at all is made. -/
theorem fm_stream_path (A : AudioSystem) (fl : FloatOps F) (env : Collaborators F)
    (m : AudioPolicyManager F) (index output : Int) (device : Nat) (delayMs : Int)
    (force : Bool) (hmute : (m.mOutputs output).mMuteCount StreamType.FM = 0) :
    (checkAndSetVolume A fl env m StreamType.FM index output device delayMs force).status
        = Status.NO_ERROR
      ∧ (∀ s v o d, SinkCall.setStreamVolume s v o d
          ∉ (checkAndSetVolume A fl env m StreamType.FM index output device delayMs
              force).calls)
      ∧ (checkAndSetVolume A fl env m StreamType.FM index output device delayMs force).state
          = setCurVolume m output StreamType.FM
              (attenuatedVolume A fl env StreamType.FM index output device)
      ∧ (((checkAndSetVolume A fl env m StreamType.FM index output device delayMs
              force).state.mOutputs output).mCurVolume StreamType.FM
          = attenuatedVolume A fl env StreamType.FM index output device)
      ∧ (fl.geZero (attenuatedVolume A fl env StreamType.FM index output device) = true
            ∧ output = m.mHardwareOutput →
          (checkAndSetVolume A fl env m StreamType.FM index output device delayMs
              force).calls
            = [SinkCall.setFmVolume
                (attenuatedVolume A fl env StreamType.FM index output device) delayMs])
      ∧ (¬ (fl.geZero (attenuatedVolume A fl env StreamType.FM index output device) = true
            ∧ output = m.mHardwareOutput) →
          (checkAndSetVolume A fl env m StreamType.FM index output device delayMs
              force).calls = []) := by
  have hguard : ¬ crossRouted m StreamType.FM := by
    unfold crossRouted
    simp
  rw [checkAndSetVolume_of_pass A fl env m StreamType.FM index output device delayMs force
    hmute hguard]
  rw [if_pos (Or.inr (Or.inr (Or.inl rfl))), if_pos rfl]
  refine ⟨rfl, ?_, rfl, ?_, ?_, ?_⟩
  · intro s v o d
    dsimp only
    split_ifs <;> simp
  · simp [setCurVolume]
  · intro h
    dsimp only
    rw [if_pos h]
  · intro h
    dsimp only
    rw [if_neg h]

theorem fm_stream_path_witness :
    ((sampleState MODE_NORMAL FORCE_NONE FORCE_NONE 0x808).mOutputs 1).mMuteCount
        StreamType.FM = 0
      ∧ (checkAndSetVolume samplePlatform sampleOps sampleEnv
          (sampleState MODE_NORMAL FORCE_NONE FORCE_NONE 0x808)
          StreamType.FM 15 1 0x800 0 false).status = Status.NO_ERROR
      ∧ (checkAndSetVolume samplePlatform sampleOps sampleEnv
          (sampleState MODE_NORMAL FORCE_NONE FORCE_NONE 0x808)
          StreamType.FM 15 1 0x800 0 false).calls
        = [SinkCall.setFmVolume
            (attenuatedVolume samplePlatform sampleOps sampleEnv
              StreamType.FM 15 1 0x800) 0] :=
  have h := fm_stream_path samplePlatform sampleOps sampleEnv
    (sampleState MODE_NORMAL FORCE_NONE FORCE_NONE 0x808) 15 1 0x800 0 false (by decide)
  ⟨by decide, h.1,
    h.2.2.2.2.1 (by
      norm_num [sampleOps, sampleAtof_zero, sampleAttenuation_zero, exactOps,
        attenuatedVolume, attenuate, sampleEnv, samplePlatform, sampleState])⟩

end VolumeClaimsThree

section VoiceVolume

variable {F : Type}

/-- The voice volume side channel of an unmuted, not cross-routed call: which
`setVoiceVolume` calls are made and what `mLastVoiceVolume` holds afterwards. -/
theorem checkAndSetVolume_voice_of_pass (A : AudioSystem) (fl : FloatOps F)
    (env : Collaborators F) (m : AudioPolicyManager F) (stream : StreamType)
    (index output : Int) (device : Nat) (delayMs : Int) (force : Bool)
    (hmute : (m.mOutputs output).mMuteCount stream = 0) (hguard : ¬ crossRouted m stream) :
    (∀ v d, SinkCall.setVoiceVolume v d
          ∈ (checkAndSetVolume A fl env m stream index output device delayMs force).calls
        ↔ ((stream = StreamType.VOICE_CALL ∨ stream = StreamType.BLUETOOTH_SCO)
            ∧ fl.geZero (voiceVolumeOf fl m stream index) = true
            ∧ output = m.mHardwareOutput)
          ∧ v = voiceVolumeOf fl m stream index ∧ d = delayMs)
      ∧ (checkAndSetVolume A fl env m stream index output device delayMs
            force).state.mLastVoiceVolume
          = if (stream = StreamType.VOICE_CALL ∨ stream = StreamType.BLUETOOTH_SCO)
                ∧ fl.geZero (voiceVolumeOf fl m stream index) = true
                ∧ output = m.mHardwareOutput then voiceVolumeOf fl m stream index
            else m.mLastVoiceVolume := by
  have hvv : ∀ v : F, voiceVolumeOf fl (setCurVolume m output stream v) stream index
      = voiceVolumeOf fl m stream index := fun _ => rfl
  have hhw : ∀ v : F, (setCurVolume m output stream v).mHardwareOutput = m.mHardwareOutput :=
    fun _ => rfl
  have hlv : ∀ v : F, (setCurVolume m output stream v).mLastVoiceVolume
      = m.mLastVoiceVolume := fun _ => rfl
  rw [checkAndSetVolume_of_pass A fl env m stream index output device delayMs force hmute
    hguard]
  by_cases hw : fl.ne (attenuatedVolume A fl env stream index output device)
        ((m.mOutputs output).mCurVolume stream) = true
      ∨ stream = StreamType.VOICE_CALL ∨ stream = StreamType.FM ∨ force = true
  · rw [if_pos hw]
    by_cases hfm : stream = StreamType.FM
    · rw [if_pos hfm]
      subst hfm
      have hno : ¬ ((StreamType.FM = StreamType.VOICE_CALL
            ∨ StreamType.FM = StreamType.BLUETOOTH_SCO)
          ∧ fl.geZero (voiceVolumeOf fl m StreamType.FM index) = true
          ∧ output = m.mHardwareOutput) := by
        simp
      rw [if_neg hno]
      refine ⟨?_, hlv _⟩
      intro v d
      dsimp only
      constructor
      · intro h
        split_ifs at h <;> simp at h
      · intro h
        exact absurd h.1 hno
    · rw [if_neg hfm, voiceVolumeStep_eq, hvv, hhw]
      split_ifs with hc
      · refine ⟨?_, rfl⟩
        intro v d
        simp only [List.mem_append, List.mem_singleton, SinkCall.setVoiceVolume.injEq]
        constructor
        · rintro (h | h)
          · exact SinkCall.noConfusion h
          · exact ⟨hc, h⟩
        · rintro ⟨_, h⟩
          exact Or.inr h
      · refine ⟨?_, hlv _⟩
        intro v d
        simp only [List.mem_singleton]
        constructor
        · intro h
          exact SinkCall.noConfusion h
        · intro h
          exact absurd h.1 hc
  · rw [if_neg hw, voiceVolumeStep_eq]
    split_ifs with hc
    · refine ⟨?_, rfl⟩
      intro v d
      simp only [List.nil_append, List.mem_singleton, SinkCall.setVoiceVolume.injEq]
      constructor
      · intro h
        exact ⟨hc, h⟩
      · rintro ⟨_, h⟩
        exact h
    · refine ⟨?_, rfl⟩
      intro v d
      constructor
      · intro h
        simp at h
      · intro h
        exact absurd h.1 hc

end VoiceVolume

section VolumeClaimsFour

variable {F : Type}

/-- C17: for every `checkAndSetVolume` call that passes the mute gate and the cross-routing
guard: if the stream is `VOICE_CALL`, `index >= 0`, the stream's max index is positive and the
output is `mHardwareOutput`, then `setVoiceVolume(index/maxIndex, delayMs)` is invoked and
`mLastVoiceVolume` becomes `index/maxIndex`; if the stream is `BLUETOOTH_SCO` and the output
is `mHardwareOutput`, then `setVoiceVolume(1.0, delayMs)` is invoked and `mLastVoiceVolume`
becomes `1.0`, for every index and whether or not the generic write is made; if the output
differs from `mHardwareOutput` or the stream is any other stream, `setVoiceVolume` is not
invoked and `mLastVoiceVolume` is unchanged. The float comparison `>= 0` is taken to hold of
a quotient of a non-negative by a positive integer and of `1.0`. -/
theorem voice_volume_side_channel (A : AudioSystem) (fl : FloatOps F)
    (env : Collaborators F) (m : AudioPolicyManager F) (stream : StreamType)
    (index output : Int) (device : Nat) (delayMs : Int) (force : Bool)
    (hratio : ∀ i j : Int, 0 ≤ i → 0 < j → fl.geZero (fl.ratio i j) = true)
    (hone : fl.geZero fl.one = true)
    (hmute : (m.mOutputs output).mMuteCount stream = 0)
    (hguard : ¬ ((stream = StreamType.VOICE_CALL
          ∧ m.mForceUse FOR_COMMUNICATION = FORCE_BT_SCO)
        ∨ (stream = StreamType.BLUETOOTH_SCO
          ∧ m.mForceUse FOR_COMMUNICATION ≠ FORCE_BT_SCO))) :
    (stream = StreamType.VOICE_CALL → 0 ≤ index
        → 0 < (m.mStreams StreamType.VOICE_CALL).mIndexMax → output = m.mHardwareOutput →
        SinkCall.setVoiceVolume
            (fl.ratio index (m.mStreams StreamType.VOICE_CALL).mIndexMax) delayMs
          ∈ (checkAndSetVolume A fl env m stream index output device delayMs force).calls
        ∧ (checkAndSetVolume A fl env m stream index output device delayMs
              force).state.mLastVoiceVolume
            = fl.ratio index (m.mStreams StreamType.VOICE_CALL).mIndexMax)
      ∧ (stream = StreamType.BLUETOOTH_SCO → output = m.mHardwareOutput →
        SinkCall.setVoiceVolume fl.one delayMs
          ∈ (checkAndSetVolume A fl env m stream index output device delayMs force).calls
        ∧ (checkAndSetVolume A fl env m stream index output device delayMs
              force).state.mLastVoiceVolume = fl.one)
      ∧ (output ≠ m.mHardwareOutput
          ∨ (stream ≠ StreamType.VOICE_CALL ∧ stream ≠ StreamType.BLUETOOTH_SCO) →
        (∀ v d, SinkCall.setVoiceVolume v d
          ∉ (checkAndSetVolume A fl env m stream index output device delayMs force).calls)
        ∧ (checkAndSetVolume A fl env m stream index output device delayMs
              force).state.mLastVoiceVolume = m.mLastVoiceVolume) := by
  obtain ⟨hcalls, hlast⟩ := checkAndSetVolume_voice_of_pass A fl env m stream index output
    device delayMs force hmute hguard
  refine ⟨?_, ?_, ?_⟩
  · intro hs hi hmax hout
    subst hs
    have hvv : voiceVolumeOf fl m StreamType.VOICE_CALL index
        = fl.ratio index (m.mStreams StreamType.VOICE_CALL).mIndexMax := by
      simp [voiceVolumeOf]
    have hc : (StreamType.VOICE_CALL = StreamType.VOICE_CALL
          ∨ StreamType.VOICE_CALL = StreamType.BLUETOOTH_SCO)
        ∧ fl.geZero (voiceVolumeOf fl m StreamType.VOICE_CALL index) = true
        ∧ output = m.mHardwareOutput :=
      ⟨Or.inl rfl, by rw [hvv]; exact hratio _ _ hi hmax, hout⟩
    exact ⟨(hcalls _ _).2 ⟨hc, hvv.symm, rfl⟩, by rw [hlast, if_pos hc, hvv]⟩
  · intro hs hout
    subst hs
    have hvv : voiceVolumeOf fl m StreamType.BLUETOOTH_SCO index = fl.one := by
      simp [voiceVolumeOf]
    have hc : (StreamType.BLUETOOTH_SCO = StreamType.VOICE_CALL
          ∨ StreamType.BLUETOOTH_SCO = StreamType.BLUETOOTH_SCO)
        ∧ fl.geZero (voiceVolumeOf fl m StreamType.BLUETOOTH_SCO index) = true
        ∧ output = m.mHardwareOutput :=
      ⟨Or.inr rfl, by rw [hvv]; exact hone, hout⟩
    exact ⟨(hcalls _ _).2 ⟨hc, hvv.symm, rfl⟩, by rw [hlast, if_pos hc, hvv]⟩
  · intro hother
    have hc : ¬ ((stream = StreamType.VOICE_CALL ∨ stream = StreamType.BLUETOOTH_SCO)
        ∧ fl.geZero (voiceVolumeOf fl m stream index) = true
        ∧ output = m.mHardwareOutput) := by
      rintro ⟨hs, _, hout⟩
      rcases hother with h | ⟨h1, h2⟩
      · exact h hout
      · rcases hs with hs | hs
        · exact h1 hs
        · exact h2 hs
    exact ⟨fun v d h => hc ((hcalls v d).1 h).1, by rw [hlast, if_neg hc]⟩

theorem voice_volume_side_channel_witness :
    ((sampleState MODE_IN_CALL FORCE_NONE FORCE_NONE 0x1).mOutputs 1).mMuteCount
        StreamType.VOICE_CALL = 0
      ∧ SinkCall.setVoiceVolume (sampleOps.ratio 5 15) 0
        ∈ (checkAndSetVolume samplePlatform sampleOps sampleEnv
            (sampleState MODE_IN_CALL FORCE_NONE FORCE_NONE 0x1)
            StreamType.VOICE_CALL 5 1 0x1 0 false).calls
      ∧ (checkAndSetVolume samplePlatform sampleOps sampleEnv
            (sampleState MODE_IN_CALL FORCE_NONE FORCE_NONE 0x1)
            StreamType.VOICE_CALL 5 1 0x1 0 false).state.mLastVoiceVolume
          = sampleOps.ratio 5 15 :=
  have h := (voice_volume_side_channel samplePlatform sampleOps sampleEnv
    (sampleState MODE_IN_CALL FORCE_NONE FORCE_NONE 0x1) StreamType.VOICE_CALL 5 1 0x1 0 false
    (fun i j hi hj => by
      have hq : (0 : ℚ) ≤ (i : ℚ) / (j : ℚ) :=
        div_nonneg (by exact_mod_cast hi) (by exact_mod_cast hj.le)
      simpa [sampleOps, exactOps] using hq)
    (by simp [sampleOps, exactOps]) (by decide) (by decide)).1 rfl (by decide) (by decide) rfl
  ⟨by decide, h.1, h.2⟩

end VolumeClaimsFour

section Frame

variable {F : Type}

end Frame

/-! ## Device selection: further claims -/

section DeviceClaimsTwo

variable {F : Type}

theorem firstAvailable_eq_zero_iff (avail : Nat) (ds : List Nat) :
    firstAvailable avail ds = 0 ↔ ∀ d ∈ ds, avail &&& d = 0 := by
  induction ds with
  | nil => simp [firstAvailable]
  | cons d ds ih =>
    simp only [firstAvailable, List.mem_cons, forall_eq_or_imp]
    split_ifs with h
    · constructor
      · intro h0
        exact absurd h0 h
      · intro h0
        exact h0.1
    · rw [ih]
      constructor
      · intro h0
        exact ⟨not_not.mp h, h0⟩
      · intro h0
        exact h0.2

/-- The default branch of the phone rules returns the first available device of its
priority list. -/
theorem phoneDefaultCase_eq_firstAvailable (A : AudioSystem) (m : AudioPolicyManager F) :
    phoneDefaultCase A m
      = firstAvailable m.mAvailableOutputDevices (phoneDefaultCandidates A m) := by
  unfold phoneDefaultCase phoneDefaultCandidates
  by_cases hcall : m.mPhoneState = MODE_IN_CALL
  · have hring : m.mPhoneState ≠ MODE_RINGTONE := by
      rw [hcall]
      decide
    simp only [hcall, hring, ne_eq, not_true_eq_false, if_false, false_and, List.append_nil,
      List.cons_append, List.nil_append, firstAvailable]
    split_ifs <;> simp_all
  · by_cases hring : m.mPhoneState = MODE_RINGTONE
    · simp only [hcall, hring, ne_eq, not_false_eq_true, if_true, true_and,
        List.cons_append, List.nil_append, firstAvailable]
      split_ifs <;> simp_all
    · simp only [hcall, hring, ne_eq, not_false_eq_true, if_true, if_false, true_and,
        List.append_nil, List.cons_append, List.nil_append, firstAvailable]
      split_ifs <;> simp_all

theorem phoneCase_of_default (A : AudioSystem) (m : AudioPolicyManager F)
    (strategy : Strategy) (hsco : m.mForceUse FOR_COMMUNICATION ≠ FORCE_BT_SCO)
    (hspeaker : m.mForceUse FOR_COMMUNICATION ≠ FORCE_SPEAKER) :
    phoneCase A m strategy = phoneDefaultCase A m := by
  unfold phoneCase
  split
  · next h => exact absurd h hsco
  · next h => exact absurd h hspeaker
  · rfl

/-- C18: for `STRATEGY_PHONE` with `fromCache = false` and `FOR_COMMUNICATION` neither
`BT_SCO` nor `SPEAKER`, the result is the first available device of the list
`WIRED_HEADPHONE`, `WIRED_HEADSET`, then (only when the phone state is not IN_CALL)
`BLUETOOTH_A2DP` and `BLUETOOTH_A2DP_HEADPHONES`, then (only when the phone state is RINGTONE)
`SPEAKER`, then `EARPIECE`; it is `0` exactly when none of the entries applicable to the phone
state is available, so with no device of the list other than the speaker available the
result is `0` unless the phone is ringing, in which case it is the speaker. -/
theorem phone_default_branch (A : AudioSystem) (m : AudioPolicyManager F)
    (hsco : m.mForceUse FOR_COMMUNICATION ≠ FORCE_BT_SCO)
    (hspeaker : m.mForceUse FOR_COMMUNICATION ≠ FORCE_SPEAKER) :
    getDeviceForStrategy A m STRATEGY_PHONE false
        = firstAvailable m.mAvailableOutputDevices
            ([A.DEVICE_OUT_WIRED_HEADPHONE, A.DEVICE_OUT_WIRED_HEADSET]
              ++ (if m.mPhoneState ≠ MODE_IN_CALL then
                [A.DEVICE_OUT_BLUETOOTH_A2DP, A.DEVICE_OUT_BLUETOOTH_A2DP_HEADPHONES]
                else [])
              ++ (if m.mPhoneState = MODE_RINGTONE then [A.DEVICE_OUT_SPEAKER] else [])
              ++ [A.DEVICE_OUT_EARPIECE])
      ∧ (getDeviceForStrategy A m STRATEGY_PHONE false = 0
          ↔ ∀ d ∈ phoneDefaultCandidates A m, m.mAvailableOutputDevices &&& d = 0)
      ∧ (m.mAvailableOutputDevices &&& A.DEVICE_OUT_WIRED_HEADPHONE = 0 →
          m.mAvailableOutputDevices &&& A.DEVICE_OUT_WIRED_HEADSET = 0 →
          m.mAvailableOutputDevices &&& A.DEVICE_OUT_BLUETOOTH_A2DP = 0 →
          m.mAvailableOutputDevices &&& A.DEVICE_OUT_BLUETOOTH_A2DP_HEADPHONES = 0 →
          m.mAvailableOutputDevices &&& A.DEVICE_OUT_EARPIECE = 0 →
          getDeviceForStrategy A m STRATEGY_PHONE false
            = if m.mPhoneState = MODE_RINGTONE then
                m.mAvailableOutputDevices &&& A.DEVICE_OUT_SPEAKER
              else 0) := by
  have hfirst : getDeviceForStrategy A m STRATEGY_PHONE false
      = firstAvailable m.mAvailableOutputDevices (phoneDefaultCandidates A m) := by
    rw [getDevice_phone, phoneCase_of_default A m _ hsco hspeaker,
      phoneDefaultCase_eq_firstAvailable]
  refine ⟨hfirst, ?_, ?_⟩
  · rw [hfirst, firstAvailable_eq_zero_iff]
  · intro h1 h2 h3 h4 h5
    rw [hfirst]
    unfold phoneDefaultCandidates
    by_cases hring : m.mPhoneState = MODE_RINGTONE
    · have hcall : m.mPhoneState ≠ MODE_IN_CALL := by
        rw [hring]
        decide
      simp only [hcall, hring, ne_eq, not_false_eq_true, if_true, List.cons_append,
        List.nil_append, firstAvailable, h1, h2, h3, h4, h5, not_true_eq_false, if_false]
      split_ifs <;> simp_all
    · by_cases hcall : m.mPhoneState = MODE_IN_CALL <;>
        simp [hcall, hring, firstAvailable, h1, h2, h3, h4, h5]

theorem phone_default_branch_witness :
    (sampleState MODE_NORMAL FORCE_NONE FORCE_NONE 0x2).mForceUse FOR_COMMUNICATION
        ≠ FORCE_BT_SCO
      ∧ (sampleState MODE_NORMAL FORCE_NONE FORCE_NONE 0x2).mForceUse FOR_COMMUNICATION
        ≠ FORCE_SPEAKER
      ∧ getDeviceForStrategy samplePlatform
          (sampleState MODE_NORMAL FORCE_NONE FORCE_NONE 0x2) STRATEGY_PHONE false = 0 :=
  ⟨by decide, by decide,
    ((phone_default_branch samplePlatform (sampleState MODE_NORMAL FORCE_NONE FORCE_NONE 0x2)
      (by decide) (by decide)).2.2
      (by decide) (by decide) (by decide) (by decide) (by decide)).trans (by decide)⟩

/-- C19: for `STRATEGY_MEDIA` with `fromCache = false` while not in an active call, the result
is `C | F`, where `C` is the first available device of the list `SPEAKER` (only when
`FOR_MEDIA` is forced to `SPEAKER`), `AUX_DIGITAL`, then (only when an A2DP output is open)
`BLUETOOTH_A2DP`, `BLUETOOTH_A2DP_HEADPHONES`, `BLUETOOTH_A2DP_SPEAKER`, then
`WIRED_HEADPHONE`, `WIRED_HEADSET`, `SPEAKER`, `EARPIECE`, and `F` is `DEVICE_OUT_FM_ALL` when
any of its flags is available and `0` otherwise. -/
theorem media_off_call (A : AudioSystem) (m : AudioPolicyManager F)
    (hcall : m.mPhoneState ≠ MODE_IN_CALL) :
    getDeviceForStrategy A m STRATEGY_MEDIA false
      = firstAvailable m.mAvailableOutputDevices
          ((if m.mForceUse FOR_MEDIA = FORCE_SPEAKER then [A.DEVICE_OUT_SPEAKER] else [])
            ++ [A.DEVICE_OUT_AUX_DIGITAL]
            ++ (if m.mA2dpOutput ≠ 0 then
              [A.DEVICE_OUT_BLUETOOTH_A2DP, A.DEVICE_OUT_BLUETOOTH_A2DP_HEADPHONES,
                A.DEVICE_OUT_BLUETOOTH_A2DP_SPEAKER] else [])
            ++ [A.DEVICE_OUT_WIRED_HEADPHONE, A.DEVICE_OUT_WIRED_HEADSET,
              A.DEVICE_OUT_SPEAKER, A.DEVICE_OUT_EARPIECE])
        ||| (if m.mAvailableOutputDevices &&& A.DEVICE_OUT_FM_ALL ≠ 0 then
              A.DEVICE_OUT_FM_ALL else 0) := by
  rw [getDevice_media, mediaCase_zero_eq A m _ _ (by decide), if_neg (fun h => hcall h.1)]
  rfl

theorem media_off_call_witness :
    (sampleState MODE_NORMAL FORCE_NONE FORCE_SPEAKER 0x80E).mPhoneState ≠ MODE_IN_CALL
      ∧ getDeviceForStrategy samplePlatform
          (sampleState MODE_NORMAL FORCE_NONE FORCE_SPEAKER 0x80E) STRATEGY_MEDIA false
        = 0x1802 :=
  ⟨by decide,
    (media_off_call samplePlatform (sampleState MODE_NORMAL FORCE_NONE FORCE_SPEAKER 0x80E)
      (by decide)).trans (by decide)⟩

end DeviceClaimsTwo

/-! ## Device selection: the forced branches of the phone rules -/

section DeviceClaimsThree

variable {F : Type}

/-- In a call the default branch tries the wired headphone, the wired headset and the
earpiece. -/
theorem phoneDefaultCase_in_call (A : AudioSystem) (m : AudioPolicyManager F)
    (hcall : m.mPhoneState = MODE_IN_CALL) :
    phoneDefaultCase A m
      = firstAvailable m.mAvailableOutputDevices
          [A.DEVICE_OUT_WIRED_HEADPHONE, A.DEVICE_OUT_WIRED_HEADSET, A.DEVICE_OUT_EARPIECE] := by
  have hring : m.mPhoneState ≠ MODE_RINGTONE := by
    rw [hcall]
    decide
  rw [phoneDefaultCase_eq_firstAvailable]
  unfold phoneDefaultCandidates
  simp [hcall, hring]

/-- C2, amended: for every policy state whose phone state is IN_CALL,
`getDeviceForStrategy(DTMF, false)` equals `getDeviceForStrategy(PHONE, false)` whenever
`FOR_COMMUNICATION` is forced neither to `BT_SCO` nor to `SPEAKER`, or the SCO carkit is not
available. Under a forced `BT_SCO` the DTMF result is the first available of
`BLUETOOTH_SCO_HEADSET`, `BLUETOOTH_SCO`, `WIRED_HEADPHONE`, `WIRED_HEADSET`, `EARPIECE`, and
the PHONE result the first available of the same list headed by `BLUETOOTH_SCO_CARKIT`; under
a forced `SPEAKER` the DTMF result is `mAvailableOutputDevices & SPEAKER`, and the PHONE result
the first available of `BLUETOOTH_SCO_CARKIT`, `SPEAKER`. -/
theorem dtmf_in_call_eq_phone (A : AudioSystem) (m : AudioPolicyManager F)
    (hcall : m.mPhoneState = MODE_IN_CALL) :
    ((m.mForceUse FOR_COMMUNICATION ≠ FORCE_BT_SCO
            ∧ m.mForceUse FOR_COMMUNICATION ≠ FORCE_SPEAKER)
          ∨ m.mAvailableOutputDevices &&& A.DEVICE_OUT_BLUETOOTH_SCO_CARKIT = 0 →
        getDeviceForStrategy A m STRATEGY_DTMF false
          = getDeviceForStrategy A m STRATEGY_PHONE false)
      ∧ (m.mForceUse FOR_COMMUNICATION = FORCE_BT_SCO →
        getDeviceForStrategy A m STRATEGY_DTMF false
            = firstAvailable m.mAvailableOutputDevices
                [A.DEVICE_OUT_BLUETOOTH_SCO_HEADSET, A.DEVICE_OUT_BLUETOOTH_SCO,
                  A.DEVICE_OUT_WIRED_HEADPHONE, A.DEVICE_OUT_WIRED_HEADSET,
                  A.DEVICE_OUT_EARPIECE]
          ∧ getDeviceForStrategy A m STRATEGY_PHONE false
            = firstAvailable m.mAvailableOutputDevices
                [A.DEVICE_OUT_BLUETOOTH_SCO_CARKIT, A.DEVICE_OUT_BLUETOOTH_SCO_HEADSET,
                  A.DEVICE_OUT_BLUETOOTH_SCO, A.DEVICE_OUT_WIRED_HEADPHONE,
                  A.DEVICE_OUT_WIRED_HEADSET, A.DEVICE_OUT_EARPIECE])
      ∧ (m.mForceUse FOR_COMMUNICATION = FORCE_SPEAKER →
        getDeviceForStrategy A m STRATEGY_DTMF false
            = m.mAvailableOutputDevices &&& A.DEVICE_OUT_SPEAKER
          ∧ getDeviceForStrategy A m STRATEGY_PHONE false
            = firstAvailable m.mAvailableOutputDevices
                [A.DEVICE_OUT_BLUETOOTH_SCO_CARKIT, A.DEVICE_OUT_SPEAKER]) := by
  rw [getDevice_dtmf, getDevice_phone, if_neg (by simp [hcall])]
  refine ⟨?_, ?_, ?_⟩
  · intro h
    unfold phoneCase
    rcases h with ⟨h1, h2⟩ | h
    · split
      · next hf => exact absurd hf h1
      · next hf => exact absurd hf h2
      · rfl
    · split <;> simp [hcall, h]
  · intro hforce
    have hskip : decide (m.mPhoneState ≠ MODE_IN_CALL
        ∨ STRATEGY_DTMF ≠ STRATEGY_DTMF) = false := by
      simp [hcall]
    have htry : decide (m.mPhoneState ≠ MODE_IN_CALL
        ∨ STRATEGY_PHONE ≠ STRATEGY_DTMF) = true := by
      simp
    unfold phoneCase
    rw [hforce]
    dsimp only
    rw [phoneDefaultCase_in_call A m hcall, hskip, htry]
    simp only [firstAvailable, Bool.false_eq_true, false_and, if_false, if_true, true_and]
  · intro hforce
    have hskip : decide (m.mPhoneState ≠ MODE_IN_CALL
        ∨ STRATEGY_DTMF ≠ STRATEGY_DTMF) = false := by
      simp [hcall]
    have htry : decide (m.mPhoneState ≠ MODE_IN_CALL
        ∨ STRATEGY_PHONE ≠ STRATEGY_DTMF) = true := by
      simp
    have hin : ¬ m.mPhoneState ≠ MODE_IN_CALL := by
      simp [hcall]
    unfold phoneCase
    rw [hforce]
    dsimp only
    rw [hskip, htry]
    simp only [firstAvailable, Bool.false_eq_true, false_and, if_false, if_true, true_and,
      hin]
    split_ifs <;> simp_all

theorem dtmf_in_call_eq_phone_witness :
    (sampleState MODE_IN_CALL FORCE_SPEAKER FORCE_NONE 0x42).mPhoneState = MODE_IN_CALL
      ∧ getDeviceForStrategy samplePlatform
          (sampleState MODE_IN_CALL FORCE_SPEAKER FORCE_NONE 0x42) STRATEGY_DTMF false = 0x2
      ∧ getDeviceForStrategy samplePlatform
          (sampleState MODE_IN_CALL FORCE_SPEAKER FORCE_NONE 0x42) STRATEGY_PHONE false = 0x40
      ∧ getDeviceForStrategy samplePlatform
          (sampleState MODE_IN_CALL FORCE_BT_SCO FORCE_NONE 0x30) STRATEGY_DTMF false
        = getDeviceForStrategy samplePlatform
          (sampleState MODE_IN_CALL FORCE_BT_SCO FORCE_NONE 0x30) STRATEGY_PHONE false :=
  have h := (dtmf_in_call_eq_phone samplePlatform
    (sampleState MODE_IN_CALL FORCE_SPEAKER FORCE_NONE 0x42) rfl).2.2 rfl
  ⟨rfl, h.1.trans (by decide), h.2.trans (by decide),
    (dtmf_in_call_eq_phone samplePlatform
      (sampleState MODE_IN_CALL FORCE_BT_SCO FORCE_NONE 0x30) rfl).1 (Or.inr (by decide))⟩

/-- C8: for `STRATEGY_PHONE` with `fromCache = false`, whenever `FOR_COMMUNICATION` is forced
to `BT_SCO` and none of `BLUETOOTH_SCO_CARKIT`, `BLUETOOTH_SCO_HEADSET`, `BLUETOOTH_SCO` is
available, the result equals the result for the same state with `FOR_COMMUNICATION` set to
`NONE`, which is the first available device of the default branch: `WIRED_HEADPHONE`,
`WIRED_HEADSET`, then (off call) `BLUETOOTH_A2DP`, `BLUETOOTH_A2DP_HEADPHONES`, then (while
ringing) `SPEAKER`, then `EARPIECE`; it is `WIRED_HEADSET` when that is the only available
device. -/
theorem phone_bt_sco_fallback (A : AudioSystem) (m : AudioPolicyManager F)
    (hforce : m.mForceUse FOR_COMMUNICATION = FORCE_BT_SCO)
    (hcar : m.mAvailableOutputDevices &&& A.DEVICE_OUT_BLUETOOTH_SCO_CARKIT = 0)
    (hhead : m.mAvailableOutputDevices &&& A.DEVICE_OUT_BLUETOOTH_SCO_HEADSET = 0)
    (hsco : m.mAvailableOutputDevices &&& A.DEVICE_OUT_BLUETOOTH_SCO = 0) :
    getDeviceForStrategy A m STRATEGY_PHONE false
        = getDeviceForStrategy A (withForceUse m FOR_COMMUNICATION FORCE_NONE)
            STRATEGY_PHONE false
      ∧ getDeviceForStrategy A m STRATEGY_PHONE false
        = firstAvailable m.mAvailableOutputDevices
            ([A.DEVICE_OUT_WIRED_HEADPHONE, A.DEVICE_OUT_WIRED_HEADSET]
              ++ (if m.mPhoneState ≠ MODE_IN_CALL then
                [A.DEVICE_OUT_BLUETOOTH_A2DP, A.DEVICE_OUT_BLUETOOTH_A2DP_HEADPHONES]
                else [])
              ++ (if m.mPhoneState = MODE_RINGTONE then [A.DEVICE_OUT_SPEAKER] else [])
              ++ [A.DEVICE_OUT_EARPIECE])
      ∧ (m.mAvailableOutputDevices = A.DEVICE_OUT_WIRED_HEADSET →
          A.DEVICE_OUT_WIRED_HEADSET ≠ 0 →
          A.DEVICE_OUT_WIRED_HEADSET &&& A.DEVICE_OUT_WIRED_HEADPHONE = 0 →
          getDeviceForStrategy A m STRATEGY_PHONE false = A.DEVICE_OUT_WIRED_HEADSET) := by
  have hfall : getDeviceForStrategy A m STRATEGY_PHONE false = phoneDefaultCase A m := by
    rw [getDevice_phone]
    unfold phoneCase
    rw [hforce]
    simp [hcar, hhead, hsco]
  refine ⟨?_, ?_, ?_⟩
  · rw [hfall, getDevice_phone]
    unfold phoneCase
    simp only [withForceUse, if_true]
    rfl
  · rw [hfall, phoneDefaultCase_eq_firstAvailable]
    rfl
  · intro honly hne hdisj
    rw [hfall]
    unfold phoneDefaultCase
    simp [honly, hne, hdisj]

theorem phone_bt_sco_fallback_witness :
    (sampleState MODE_IN_CALL FORCE_BT_SCO FORCE_NONE 0xC).mForceUse FOR_COMMUNICATION
        = FORCE_BT_SCO
      ∧ getDeviceForStrategy samplePlatform
          (sampleState MODE_IN_CALL FORCE_BT_SCO FORCE_NONE 0xC) STRATEGY_PHONE false
        = getDeviceForStrategy samplePlatform
            (withForceUse (sampleState MODE_IN_CALL FORCE_BT_SCO FORCE_NONE 0xC)
              FOR_COMMUNICATION FORCE_NONE) STRATEGY_PHONE false
      ∧ getDeviceForStrategy samplePlatform
          (sampleState MODE_IN_CALL FORCE_BT_SCO FORCE_NONE 0xC) STRATEGY_PHONE false
        = samplePlatform.DEVICE_OUT_WIRED_HEADPHONE
      ∧ getDeviceForStrategy samplePlatform
          (sampleState MODE_IN_CALL FORCE_BT_SCO FORCE_NONE 0x4) STRATEGY_PHONE false
        = samplePlatform.DEVICE_OUT_WIRED_HEADSET :=
  have h := phone_bt_sco_fallback samplePlatform
    (sampleState MODE_IN_CALL FORCE_BT_SCO FORCE_NONE 0xC) rfl
    (by decide) (by decide) (by decide)
  have h4 := phone_bt_sco_fallback samplePlatform
    (sampleState MODE_IN_CALL FORCE_BT_SCO FORCE_NONE 0x4) rfl
    (by decide) (by decide) (by decide)
  ⟨rfl, h.1, h.2.1.trans (by decide), h4.2.2 rfl (by decide) (by decide)⟩

end DeviceClaimsThree

/-! ## Volume application: the change decision -/

section ChangeDecision

variable {F : Type}

/-- A call whose change decision holds for a stream other than FM: the generic write, then
the voice volume side channel. -/
theorem checkAndSetVolume_of_write (A : AudioSystem) (fl : FloatOps F) (env : Collaborators F)
    (m : AudioPolicyManager F) (stream : StreamType) (index output : Int) (device : Nat)
    (delayMs : Int) (force : Bool) (hmute : (m.mOutputs output).mMuteCount stream = 0)
    (hguard : ¬ crossRouted m stream) (hfm : stream ≠ StreamType.FM)
    (hwrite : fl.ne (attenuatedVolume A fl env stream index output device)
          ((m.mOutputs output).mCurVolume stream) = true
        ∨ stream = StreamType.VOICE_CALL ∨ force = true) :
    checkAndSetVolume A fl env m stream index output device delayMs force
      = voiceVolumeStep fl
          (setCurVolume m output stream (attenuatedVolume A fl env stream index output device))
          stream index output delayMs
          [SinkCall.setStreamVolume stream
            (transmittedVolume fl stream
              (attenuatedVolume A fl env stream index output device))
            output delayMs] := by
  rw [checkAndSetVolume_of_pass A fl env m stream index output device delayMs force hmute
    hguard, if_pos, if_neg hfm]
  rcases hwrite with h | h | h
  · exact Or.inl h
  · exact Or.inr (Or.inl h)
  · exact Or.inr (Or.inr (Or.inr h))

/-- A call whose change decision fails: only the voice volume side channel runs. -/
theorem checkAndSetVolume_of_skip (A : AudioSystem) (fl : FloatOps F) (env : Collaborators F)
    (m : AudioPolicyManager F) (stream : StreamType) (index output : Int) (device : Nat)
    (delayMs : Int) (hmute : (m.mOutputs output).mMuteCount stream = 0)
    (hguard : ¬ crossRouted m stream) (hvc : stream ≠ StreamType.VOICE_CALL)
    (hfm : stream ≠ StreamType.FM)
    (hsame : fl.ne (attenuatedVolume A fl env stream index output device)
          ((m.mOutputs output).mCurVolume stream) = false) :
    checkAndSetVolume A fl env m stream index output device delayMs false
      = voiceVolumeStep fl m stream index output delayMs [] := by
  rw [checkAndSetVolume_of_pass A fl env m stream index output device delayMs false hmute
    hguard, if_neg]
  simp [hsame, hvc, hfm]

theorem setCurVolume_recorded (m : AudioPolicyManager F) (output : Int) (stream : StreamType)
    (v : F) : ((setCurVolume m output stream v).mOutputs output).mCurVolume stream = v := by
  simp [setCurVolume]

theorem voiceVolumeStep_outputs (fl : FloatOps F) (m : AudioPolicyManager F)
    (stream : StreamType) (index output delayMs : Int) (calls : List (SinkCall F)) :
    (voiceVolumeStep fl m stream index output delayMs calls).state.mOutputs = m.mOutputs := by
  rw [voiceVolumeStep_eq]
  split_ifs <;> rfl

/-- The side channel adds nothing when the stream is neither the voice call stream nor a
Bluetooth SCO stream on the hardware output. -/
theorem voiceVolumeStep_of_silent (fl : FloatOps F) (m : AudioPolicyManager F)
    (stream : StreamType) (index output delayMs : Int) (calls : List (SinkCall F))
    (hvc : stream ≠ StreamType.VOICE_CALL)
    (hside : stream = StreamType.BLUETOOTH_SCO → output ≠ m.mHardwareOutput) :
    voiceVolumeStep fl m stream index output delayMs calls
      = { status := Status.NO_ERROR, state := m, calls := calls } := by
  rw [voiceVolumeStep_eq, if_neg]
  rintro ⟨hs | hs, _, hout⟩
  · exact hvc hs
  · exact hside hs hout

end ChangeDecision

section VolumeClaimsFive

variable {F : Type}

/-- C12, as stated, fails in two ways. With `FOR_COMMUNICATION` forced to `BT_SCO`, the
`BLUETOOTH_SCO` stream on the hardware output passes both gates, and the second of two
identical calls with `force = false` still calls `setVoiceVolume(1.0, delayMs)`. And for the
`MUSIC` stream at index `0`, whose volume `0` is already the recorded one, the first call makes
no call at all. -/
theorem repeated_call_counterexample :
    ((sampleState MODE_NORMAL FORCE_BT_SCO FORCE_NONE 0x10).mOutputs 1).mMuteCount
        StreamType.BLUETOOTH_SCO = 0
      ∧ ¬ crossRouted (sampleState MODE_NORMAL FORCE_BT_SCO FORCE_NONE 0x10)
          StreamType.BLUETOOTH_SCO
      ∧ (checkAndSetVolume samplePlatform sampleOps sampleEnv
          (checkAndSetVolume samplePlatform sampleOps sampleEnv
            (sampleState MODE_NORMAL FORCE_BT_SCO FORCE_NONE 0x10)
            StreamType.BLUETOOTH_SCO 5 1 0x10 0 false).state
          StreamType.BLUETOOTH_SCO 5 1 0x10 0 false).calls
        = [SinkCall.setVoiceVolume 1 0]
      ∧ (checkAndSetVolume samplePlatform sampleOps sampleEnv
          (sampleState MODE_NORMAL FORCE_NONE FORCE_NONE 0x1)
          StreamType.MUSIC 0 1 0x1 0 false).calls = [] := by
  refine ⟨by decide, by decide, ?_, ?_⟩
  · simp [checkAndSetVolume, voiceVolumeStep, setCurVolume, sampleOps, exactOps, sampleEnv,
      sampleState, samplePlatform]
  · simp [checkAndSetVolume, voiceVolumeStep, setCurVolume, sampleOps, exactOps, sampleEnv,
      sampleState, samplePlatform]

/-- C12, amended: for every stream other than `VOICE_CALL` and `FM`, other than
`BLUETOOTH_SCO` on the hardware output, and every input that passes the mute gate and the
cross-routing guard, if the attenuated volume differs from the last-applied one of the
starting state (and compares equal to itself), then two consecutive `checkAndSetVolume` calls
with `force = false`, identical arguments and unchanged collaborator answers make exactly one
call on the client interface in total: the `setStreamVolume` of the first call; the second
call makes none. -/
theorem repeated_call_single_write (A : AudioSystem) (fl : FloatOps F)
    (env : Collaborators F) (m : AudioPolicyManager F) (stream : StreamType)
    (index output : Int) (device : Nat) (delayMs : Int)
    (hmute : (m.mOutputs output).mMuteCount stream = 0)
    (hguard : ¬ ((stream = StreamType.VOICE_CALL
          ∧ m.mForceUse FOR_COMMUNICATION = FORCE_BT_SCO)
        ∨ (stream = StreamType.BLUETOOTH_SCO
          ∧ m.mForceUse FOR_COMMUNICATION ≠ FORCE_BT_SCO)))
    (hvc : stream ≠ StreamType.VOICE_CALL) (hfm : stream ≠ StreamType.FM)
    (hside : stream = StreamType.BLUETOOTH_SCO → output ≠ m.mHardwareOutput)
    (hnew : fl.ne (attenuatedVolume A fl env stream index output device)
        ((m.mOutputs output).mCurVolume stream) = true)
    (hrefl : fl.ne (attenuatedVolume A fl env stream index output device)
        (attenuatedVolume A fl env stream index output device) = false) :
    (checkAndSetVolume A fl env m stream index output device delayMs false).calls
        = [SinkCall.setStreamVolume stream
            (transmittedVolume fl stream
              (attenuatedVolume A fl env stream index output device))
            output delayMs]
      ∧ (checkAndSetVolume A fl env
          (checkAndSetVolume A fl env m stream index output device delayMs false).state
          stream index output device delayMs false).calls = [] := by
  have hfirst := checkAndSetVolume_of_write A fl env m stream index output device delayMs
    false hmute hguard hfm (Or.inl hnew)
  rw [voiceVolumeStep_of_silent fl
    (setCurVolume m output stream (attenuatedVolume A fl env stream index output device))
    stream index output delayMs _ hvc hside] at hfirst
  rw [hfirst]
  refine ⟨rfl, ?_⟩
  dsimp only
  have hmute2 : ((setCurVolume m output stream
      (attenuatedVolume A fl env stream index output device)).mOutputs output).mMuteCount
        stream = 0 := by
    simpa [setCurVolume] using hmute
  have hsame : fl.ne (attenuatedVolume A fl env stream index output device)
      (((setCurVolume m output stream
        (attenuatedVolume A fl env stream index output device)).mOutputs output).mCurVolume
          stream) = false := by
    rw [setCurVolume_recorded]
    exact hrefl
  rw [checkAndSetVolume_of_skip A fl env _ stream index output device delayMs hmute2 hguard
    hvc hfm hsame,
    voiceVolumeStep_of_silent fl
      (setCurVolume m output stream (attenuatedVolume A fl env stream index output device))
      stream index output delayMs _ hvc hside]

theorem repeated_call_single_write_witness :
    (checkAndSetVolume samplePlatform sampleOps sampleEnv
        (sampleState MODE_NORMAL FORCE_NONE FORCE_NONE 0x1)
        StreamType.MUSIC 15 1 0x1 0 false).calls
      = [SinkCall.setStreamVolume StreamType.MUSIC 1 1 0]
      ∧ (checkAndSetVolume samplePlatform sampleOps sampleEnv
          (checkAndSetVolume samplePlatform sampleOps sampleEnv
            (sampleState MODE_NORMAL FORCE_NONE FORCE_NONE 0x1)
            StreamType.MUSIC 15 1 0x1 0 false).state
          StreamType.MUSIC 15 1 0x1 0 false).calls = [] := by
  have hv : attenuatedVolume samplePlatform sampleOps sampleEnv StreamType.MUSIC 15 1 0x1
      = 1 := by
    unfold attenuatedVolume
    dsimp only
    rw [if_neg (by decide), if_neg (by decide), if_neg (by decide)]
    norm_num [sampleEnv]
  have h := repeated_call_single_write samplePlatform sampleOps sampleEnv
    (sampleState MODE_NORMAL FORCE_NONE FORCE_NONE 0x1) StreamType.MUSIC 15 1 0x1 0
    (by decide) (by decide) (by decide) (by decide) (by decide)
    (by rw [hv]; simp [sampleOps, exactOps, sampleState])
    (by simp [sampleOps, exactOps])
  rw [hv] at h
  exact ⟨h.1, h.2⟩

end VolumeClaimsFive

/-! ## Floating point: rounding -/

section Rounding

theorem roundHalfEven_floor_le (x : ℚ) : ⌊x⌋ ≤ roundHalfEven x := by
  unfold roundHalfEven
  split_ifs <;> omega

theorem roundHalfEven_le_floor_add_one (x : ℚ) : roundHalfEven x ≤ ⌊x⌋ + 1 := by
  unfold roundHalfEven
  split_ifs <;> omega

theorem roundHalfEven_intCast (n : ℤ) : roundHalfEven (n : ℚ) = n := by
  unfold roundHalfEven
  rw [Int.floor_intCast, sub_self, if_pos (by norm_num)]

theorem roundHalfEven_mono {x y : ℚ} (h : x ≤ y) : roundHalfEven x ≤ roundHalfEven y := by
  have hfl : ⌊x⌋ ≤ ⌊y⌋ := Int.floor_mono h
  rcases lt_or_eq_of_le hfl with hlt | heq
  · calc roundHalfEven x ≤ ⌊x⌋ + 1 := roundHalfEven_le_floor_add_one x
      _ ≤ ⌊y⌋ := hlt
      _ ≤ roundHalfEven y := roundHalfEven_floor_le y
  · have hfrac : x - ⌊x⌋ ≤ y - ⌊y⌋ := by
      rw [heq]
      linarith
    unfold roundHalfEven
    rw [heq] at hfrac ⊢
    split_ifs <;> first | omega | (exfalso; linarith)

theorem abs_roundHalfEven_sub_le (x : ℚ) : |(roundHalfEven x : ℚ) - x| ≤ 1 / 2 := by
  have h1 := Int.floor_le x
  have h2 := Int.lt_floor_add_one x
  rw [abs_le]
  unfold roundHalfEven
  split_ifs <;> push_cast <;> constructor <;> linarith

theorem roundHalfEven_eq_of_abs_lt {x : ℚ} {n : ℤ} (h : |x - n| < 1 / 2) :
    roundHalfEven x = n := by
  rw [abs_lt] at h
  obtain ⟨h1, h2⟩ := h
  have hle : n ≤ roundHalfEven x := by
    by_contra hc
    have hlt : roundHalfEven x + 1 ≤ n := by omega
    have hq : (roundHalfEven x : ℚ) + 1 ≤ n := by exact_mod_cast hlt
    have ha := abs_le.mp (abs_roundHalfEven_sub_le x)
    have hfl := Int.floor_le x
    have hfl2 := Int.lt_floor_add_one x
    -- x > n - 1/2 ≥ r + 1/2, and r ≥ x - 1/2: so r = x - 1/2 impossible strictly
    linarith [ha.1, ha.2]
  have hge : roundHalfEven x ≤ n := by
    by_contra hc
    have hlt : n + 1 ≤ roundHalfEven x := by omega
    have hq : (n : ℚ) + 1 ≤ roundHalfEven x := by exact_mod_cast hlt
    have ha := abs_le.mp (abs_roundHalfEven_sub_le x)
    linarith [ha.1, ha.2]
  omega

theorem binadeSpacing_pos (p : ℕ) (emin : ℤ) (q : ℚ) : 0 < binadeSpacing p emin q := by
  unfold binadeSpacing
  positivity

theorem emin_le_binadeExponent (emin : ℤ) (q : ℚ) : emin ≤ binadeExponent emin q :=
  le_max_right _ _

theorem binadeExponent_mono (emin : ℤ) {q₁ q₂ : ℚ} (h0 : 0 < q₁) (h : q₁ ≤ q₂) :
    binadeExponent emin q₁ ≤ binadeExponent emin q₂ :=
  max_le_max (Int.log_mono_right h0 h) le_rfl

theorem lt_two_zpow_binadeExponent (emin : ℤ) (q : ℚ) :
    q < 2 ^ (binadeExponent emin q + 1) := by
  have h := Int.lt_zpow_succ_log_self (b := 2) (by norm_num) q
  have hle : (2 : ℚ) ^ (Int.log 2 q + 1) ≤ 2 ^ (binadeExponent emin q + 1) :=
    zpow_le_zpow_right₀ (by norm_num) (by
      have := le_max_left (Int.log 2 q) emin
      unfold binadeExponent
      omega)
  have hlt2 : q < (2 : ℚ) ^ (Int.log 2 q + 1) := by exact_mod_cast h
  exact lt_of_lt_of_le hlt2 hle

theorem two_zpow_binadeExponent_le (emin : ℤ) {q : ℚ} (h0 : 0 < q)
    (he : emin < binadeExponent emin q) : 2 ^ binadeExponent emin q ≤ q := by
  have hlog : binadeExponent emin q = Int.log 2 q := by
    unfold binadeExponent at he ⊢
    rcases max_cases (Int.log 2 q) emin with ⟨h1, _⟩ | ⟨h1, _⟩
    · exact h1
    · rw [h1] at he
      exact absurd he (lt_irrefl _)
  rw [hlog]
  have h := Int.zpow_log_le_self (b := 2) (by norm_num) h0
  exact_mod_cast h

theorem two_zpow_split (p : ℕ) (e : ℤ) :
    (2 : ℚ) ^ (e + 1) = (2 : ℚ) ^ p * 2 ^ (e - p + 1) := by
  rw [← zpow_natCast, ← zpow_add₀ (by norm_num : (2 : ℚ) ≠ 0)]
  congr 1
  ring

theorem two_zpow_split_pred (p : ℕ) (hp : 1 ≤ p) (e : ℤ) :
    (2 : ℚ) ^ e = (2 : ℚ) ^ (p - 1) * 2 ^ (e - p + 1) := by
  rw [← zpow_natCast, ← zpow_add₀ (by norm_num : (2 : ℚ) ≠ 0)]
  congr 1
  rw [Nat.cast_sub hp]
  push_cast
  ring

theorem roundMagnitude_zero (p : ℕ) (emin : ℤ) : roundMagnitude p emin 0 = 0 := by
  simp [roundMagnitude]

theorem roundMagnitude_nonneg (p : ℕ) (emin : ℤ) {q : ℚ} (hq : 0 ≤ q) :
    0 ≤ roundMagnitude p emin q := by
  unfold roundMagnitude
  split_ifs
  · exact le_rfl
  · have hu := binadeSpacing_pos p emin q
    have hfl : (0 : ℤ) ≤ ⌊q / binadeSpacing p emin q⌋ :=
      Int.floor_nonneg.mpr (div_nonneg hq hu.le)
    have hr : (0 : ℤ) ≤ roundHalfEven (q / binadeSpacing p emin q) :=
      le_trans hfl (roundHalfEven_floor_le _)
    exact mul_nonneg (by exact_mod_cast hr) hu.le

/-- A rounded magnitude does not leave its binade upwards. -/
theorem roundMagnitude_le_two_zpow (p : ℕ) (emin : ℤ) {q : ℚ} (hq : 0 < q) :
    roundMagnitude p emin q ≤ 2 ^ (binadeExponent emin q + 1) := by
  have hu := binadeSpacing_pos p emin q
  unfold roundMagnitude
  rw [if_neg (ne_of_gt hq)]
  have hlt := lt_two_zpow_binadeExponent emin q
  rw [two_zpow_split p] at hlt ⊢
  have hdiv : q / binadeSpacing p emin q ≤ ((2 ^ p : ℤ) : ℚ) := by
    rw [div_le_iff₀ hu]
    push_cast
    exact hlt.le
  have hr := roundHalfEven_mono hdiv
  rw [roundHalfEven_intCast] at hr
  have hr2 : (roundHalfEven (q / binadeSpacing p emin q) : ℚ) ≤ (2 : ℚ) ^ p := by
    exact_mod_cast hr
  exact mul_le_mul_of_nonneg_right hr2 hu.le

/-- A rounded magnitude does not leave its binade downwards. -/
theorem two_zpow_le_roundMagnitude (p : ℕ) (hp : 1 ≤ p) (emin : ℤ) {q : ℚ} (hq : 0 < q)
    (he : 2 ^ binadeExponent emin q ≤ q) :
    2 ^ binadeExponent emin q ≤ roundMagnitude p emin q := by
  have hu := binadeSpacing_pos p emin q
  unfold roundMagnitude
  rw [if_neg (ne_of_gt hq)]
  rw [two_zpow_split_pred p hp] at he ⊢
  have hdiv : ((2 ^ (p - 1) : ℤ) : ℚ) ≤ q / binadeSpacing p emin q := by
    rw [le_div_iff₀ hu]
    push_cast
    exact he
  have hr := roundHalfEven_mono hdiv
  rw [roundHalfEven_intCast] at hr
  have hr2 : (2 : ℚ) ^ (p - 1) ≤ (roundHalfEven (q / binadeSpacing p emin q) : ℚ) := by
    exact_mod_cast hr
  exact mul_le_mul_of_nonneg_right hr2 hu.le

/-- Rounding is monotone on the non-negative rationals. -/
theorem roundMagnitude_mono (p : ℕ) (hp : 1 ≤ p) (emin : ℤ) {q₁ q₂ : ℚ}
    (h0 : 0 ≤ q₁) (h : q₁ ≤ q₂) : roundMagnitude p emin q₁ ≤ roundMagnitude p emin q₂ := by
  rcases eq_or_lt_of_le h0 with hz | hpos
  · rw [← hz, roundMagnitude_zero]
    exact roundMagnitude_nonneg p emin (le_trans h0 h)
  · have hpos2 : 0 < q₂ := lt_of_lt_of_le hpos h
    rcases eq_or_lt_of_le (binadeExponent_mono emin hpos h) with heq | hlt
    · have hu : binadeSpacing p emin q₁ = binadeSpacing p emin q₂ := by
        unfold binadeSpacing
        rw [heq]
      have hpu := binadeSpacing_pos p emin q₂
      unfold roundMagnitude
      rw [if_neg (ne_of_gt hpos), if_neg (ne_of_gt hpos2), hu]
      have hdiv : q₁ / binadeSpacing p emin q₂ ≤ q₂ / binadeSpacing p emin q₂ :=
        div_le_div_of_nonneg_right h hpu.le
      have hr := roundHalfEven_mono hdiv
      exact mul_le_mul_of_nonneg_right (by exact_mod_cast hr) hpu.le
    · have hemin : emin < binadeExponent emin q₂ :=
        lt_of_le_of_lt (emin_le_binadeExponent emin q₁) hlt
      calc roundMagnitude p emin q₁
          ≤ 2 ^ (binadeExponent emin q₁ + 1) := roundMagnitude_le_two_zpow p emin hpos
        _ ≤ 2 ^ binadeExponent emin q₂ :=
            zpow_le_zpow_right₀ (by norm_num) (by omega)
        _ ≤ roundMagnitude p emin q₂ :=
            two_zpow_le_roundMagnitude p hp emin hpos2
              (two_zpow_binadeExponent_le emin hpos2 hemin)

/-- Evaluation of a rounding: `q` lies in the binade of exponent `e` and `n` is the integer
nearest to `q` counted in units of the spacing of that binade. -/
theorem roundMagnitude_eq (p : ℕ) (emin e : ℤ) (n : ℤ) {q : ℚ} (hq : 0 < q)
    (hlo : 2 ^ e ≤ q) (hhi : q < 2 ^ (e + 1)) (hemin : emin ≤ e)
    (hn : |q / 2 ^ (e - p + 1) - n| < 1 / 2) :
    roundMagnitude p emin q = n * 2 ^ (e - p + 1) := by
  have hlog : Int.log 2 q = e := by
    have h1 : e ≤ Int.log 2 q :=
      (Int.zpow_le_iff_le_log (b := 2) (by norm_num) hq).mp (by exact_mod_cast hlo)
    have h2 : Int.log 2 q < e + 1 :=
      (Int.lt_zpow_iff_log_lt (b := 2) (by norm_num) hq).mp (by exact_mod_cast hhi)
    omega
  have hexp : binadeExponent emin q = e := by
    unfold binadeExponent
    rw [hlog]
    exact max_eq_left hemin
  unfold roundMagnitude binadeSpacing
  rw [if_neg (ne_of_gt hq), hexp, roundHalfEven_eq_of_abs_lt hn]

theorem roundBinary_of_nonneg (p : ℕ) (emin : ℤ) {q : ℚ} (hq : 0 ≤ q) :
    roundBinary p emin q = roundMagnitude p emin q := by
  unfold roundBinary
  rw [if_neg (not_lt.mpr hq)]

theorem roundBinary_nonneg (p : ℕ) (emin : ℤ) {q : ℚ} (hq : 0 ≤ q) :
    0 ≤ roundBinary p emin q := by
  rw [roundBinary_of_nonneg p emin hq]
  exact roundMagnitude_nonneg p emin hq

theorem roundBinary_mono (p : ℕ) (hp : 1 ≤ p) (emin : ℤ) {q₁ q₂ : ℚ} (h0 : 0 ≤ q₁)
    (h : q₁ ≤ q₂) : roundBinary p emin q₁ ≤ roundBinary p emin q₂ := by
  rw [roundBinary_of_nonneg p emin h0, roundBinary_of_nonneg p emin (le_trans h0 h)]
  exact roundMagnitude_mono p hp emin h0 h

theorem roundBinary_eq (p : ℕ) (emin e : ℤ) (n : ℤ) {q : ℚ} (hq : 0 < q)
    (hlo : 2 ^ e ≤ q) (hhi : q < 2 ^ (e + 1)) (hemin : emin ≤ e)
    (hn : |q / 2 ^ (e - p + 1) - n| < 1 / 2) :
    roundBinary p emin q = n * 2 ^ (e - p + 1) := by
  rw [roundBinary_of_nonneg p emin hq.le]
  exact roundMagnitude_eq p emin e n hq hlo hhi hemin hn

/-- The rounding error of a non-negative rational is at most half the spacing of its binade:
a relative error of `2^(-p)`, or the absolute error `2^(emin - p)` below the least binade. -/
theorem abs_roundMagnitude_sub_le (p : ℕ) (emin : ℤ) {q : ℚ} (hq : 0 ≤ q) :
    |roundMagnitude p emin q - q| ≤ q / 2 ^ p + 2 ^ (emin - p) := by
  have hpow : (0 : ℚ) < 2 ^ (emin - p) := by positivity
  rcases eq_or_lt_of_le hq with hz | hpos
  · rw [← hz, roundMagnitude_zero]
    simp only [sub_self, abs_zero, zero_div, zero_add]
    exact hpow.le
  · have hu := binadeSpacing_pos p emin q
    have herr : |roundMagnitude p emin q - q| ≤ binadeSpacing p emin q / 2 := by
      unfold roundMagnitude
      rw [if_neg (ne_of_gt hpos)]
      have h := abs_roundHalfEven_sub_le (q / binadeSpacing p emin q)
      have heq : (roundHalfEven (q / binadeSpacing p emin q) : ℚ) * binadeSpacing p emin q - q
          = ((roundHalfEven (q / binadeSpacing p emin q) : ℚ) - q / binadeSpacing p emin q)
            * binadeSpacing p emin q := by
        field_simp
      rw [heq, abs_mul, abs_of_pos hu]
      calc |(roundHalfEven (q / binadeSpacing p emin q) : ℚ) - q / binadeSpacing p emin q|
            * binadeSpacing p emin q
          ≤ 1 / 2 * binadeSpacing p emin q := mul_le_mul_of_nonneg_right h hu.le
        _ = binadeSpacing p emin q / 2 := by ring
    have hhalf : binadeSpacing p emin q / 2 = 2 ^ (binadeExponent emin q - p) := by
      unfold binadeSpacing
      rw [show binadeExponent emin q - (p : ℤ) + 1 = (binadeExponent emin q - p) + 1 by ring,
        zpow_add_one₀ (by norm_num : (2 : ℚ) ≠ 0)]
      ring
    rw [hhalf] at herr
    have hq2 : (0 : ℚ) ≤ q / 2 ^ p := by positivity
    rcases eq_or_lt_of_le (emin_le_binadeExponent emin q) with heq | hlt
    · rw [← heq] at herr
      linarith
    · have hle := two_zpow_binadeExponent_le emin hpos hlt
      have hsplit : (2 : ℚ) ^ (binadeExponent emin q - p)
          = 2 ^ binadeExponent emin q / 2 ^ p := by
        rw [zpow_sub₀ (by norm_num : (2 : ℚ) ≠ 0), zpow_natCast]
      have hdiv : (2 : ℚ) ^ binadeExponent emin q / 2 ^ p ≤ q / 2 ^ p :=
        div_le_div_of_nonneg_right hle (by positivity)
      rw [hsplit] at herr
      linarith

theorem abs_roundBinary_sub_le (p : ℕ) (emin : ℤ) (q : ℚ) :
    |roundBinary p emin q - q| ≤ |q| / 2 ^ p + 2 ^ (emin - p) := by
  unfold roundBinary
  split_ifs with h
  · have hlt2 : (0 : ℚ) ≤ -q := by linarith
    have hb := abs_roundMagnitude_sub_le p emin hlt2
    rw [abs_of_neg h]
    have heq : -roundMagnitude p emin (-q) - q = -(roundMagnitude p emin (-q) - -q) := by ring
    rw [heq, abs_neg]
    exact hb
  · have hlt2 : (0 : ℚ) ≤ q := not_lt.mp h
    rw [abs_of_nonneg hlt2]
    exact abs_roundMagnitude_sub_le p emin hlt2

theorem abs_toFloat_sub_le (q : ℚ) : |toFloat q - q| ≤ |q| / 2 ^ 24 + 1 / 2 ^ 150 := by
  have h := abs_roundBinary_sub_le 24 (-126) q
  have he : (2 : ℚ) ^ ((-126 : ℤ) - (24 : ℕ)) = 1 / 2 ^ 150 := by norm_num
  rw [he] at h
  exact h

theorem toDouble_one_hundredth : toDouble (1 / 100) = 5764607523034235 / 2 ^ 59 := by
  unfold toDouble
  rw [roundBinary_eq 53 (-1022) (-7) 5764607523034235 (by norm_num) (by norm_num)
    (by norm_num) (by norm_num) (by norm_num [abs_lt])]
  norm_num

theorem toDouble_ninety_nine_hundredths :
    toDouble (99 / 100) = 8917127262193582 / 2 ^ 53 := by
  unfold toDouble
  rw [roundBinary_eq 53 (-1022) (-1) 8917127262193582 (by norm_num) (by norm_num)
    (by norm_num) (by norm_num) (by norm_num [abs_lt])]
  norm_num

theorem toDouble_zero : toDouble 0 = 0 := by
  unfold toDouble
  rw [roundBinary_of_nonneg _ _ le_rfl, roundMagnitude_zero]

theorem toFloat_zero : toFloat 0 = 0 := by
  unfold toFloat
  rw [roundBinary_of_nonneg _ _ le_rfl, roundMagnitude_zero]

theorem toFloat_one : toFloat 1 = 1 := by
  unfold toFloat
  rw [roundBinary_eq 24 (-126) 0 8388608 (by norm_num) (by norm_num)
    (by norm_num) (by norm_num) (by norm_num [abs_lt])]
  norm_num

theorem toFloat_ten : toFloat 10 = 10 := by
  unfold toFloat
  rw [roundBinary_eq 24 (-126) 3 10485760 (by norm_num) (by norm_num)
    (by norm_num) (by norm_num) (by norm_num [abs_lt])]
  norm_num

theorem ieeeFloorRemap_zero : ieeeFloorRemap 0 = 5368709 / 536870912 := by
  unfold ieeeFloorRemap
  rw [mul_zero, toDouble_zero, add_zero, toDouble_one_hundredth]
  have hd : toDouble (5764607523034235 / 2 ^ 59) = 5764607523034235 / 2 ^ 59 := by
    unfold toDouble
    rw [roundBinary_eq 53 (-1022) (-7) 5764607523034235 (by norm_num) (by norm_num)
      (by norm_num) (by norm_num) (by norm_num [abs_lt])]
    norm_num
  rw [hd]
  unfold toFloat
  rw [roundBinary_eq 24 (-126) (-7) 10737418 (by norm_num) (by norm_num)
    (by norm_num) (by norm_num) (by norm_num [abs_lt])]
  norm_num

theorem ieeeFloorRemap_one : ieeeFloorRemap 1 = 1 := by
  unfold ieeeFloorRemap
  rw [mul_one, toDouble_one_hundredth, toDouble_ninety_nine_hundredths]
  have hd : toDouble (8917127262193582 / 2 ^ 53) = 8917127262193582 / 2 ^ 53 := by
    unfold toDouble
    rw [roundBinary_eq 53 (-1022) (-1) 8917127262193582 (by norm_num) (by norm_num)
      (by norm_num) (by norm_num) (by norm_num [abs_lt])]
    norm_num
  rw [hd]
  have hs : toDouble (5764607523034235 / 2 ^ 59 + 8917127262193582 / 2 ^ 53) = 1 := by
    unfold toDouble
    rw [roundBinary_eq 53 (-1022) (-1) 9007199254740992 (by norm_num) (by norm_num)
      (by norm_num) (by norm_num) (by norm_num [abs_lt])]
    norm_num
  rw [hs, toFloat_one]

theorem toFloat_mono {q₁ q₂ : ℚ} (h0 : 0 ≤ q₁) (h : q₁ ≤ q₂) :
    toFloat q₁ ≤ toFloat q₂ :=
  roundBinary_mono 24 (by norm_num) (-126) h0 h

theorem toDouble_mono {q₁ q₂ : ℚ} (h0 : 0 ≤ q₁) (h : q₁ ≤ q₂) :
    toDouble q₁ ≤ toDouble q₂ :=
  roundBinary_mono 53 (by norm_num) (-1022) h0 h

theorem toFloat_nonneg {q : ℚ} (h0 : 0 ≤ q) : 0 ≤ toFloat q :=
  roundBinary_nonneg 24 (-126) h0

theorem toDouble_nonneg {q : ℚ} (h0 : 0 ≤ q) : 0 ≤ toDouble q :=
  roundBinary_nonneg 53 (-1022) h0

/-- The floor remap in IEEE arithmetic is monotone on the non-negative volumes. -/
theorem ieeeFloorRemap_mono {v₁ v₂ : ℚ} (h0 : 0 ≤ v₁) (h : v₁ ≤ v₂) :
    ieeeFloorRemap v₁ ≤ ieeeFloorRemap v₂ := by
  have hc : (0 : ℚ) ≤ toDouble (99 / 100) := toDouble_nonneg (by norm_num)
  have hk : (0 : ℚ) ≤ toDouble (1 / 100) := toDouble_nonneg (by norm_num)
  have hp1 : 0 ≤ toDouble (99 / 100) * v₁ := mul_nonneg hc h0
  have hp : toDouble (99 / 100) * v₁ ≤ toDouble (99 / 100) * v₂ :=
    mul_le_mul_of_nonneg_left h hc
  have hr1 : 0 ≤ toDouble (toDouble (99 / 100) * v₁) := toDouble_nonneg hp1
  have hr : toDouble (toDouble (99 / 100) * v₁) ≤ toDouble (toDouble (99 / 100) * v₂) :=
    toDouble_mono hp1 hp
  unfold ieeeFloorRemap
  exact toFloat_mono (toDouble_nonneg (add_nonneg hk hr1))
    (toDouble_mono (add_nonneg hk hr1) (by linarith))

end Rounding

/-! ## Floating point: the operations of the program -/

section IeeeOps

theorem exactOps_eq_of_ne_false (atof : String → ℚ) (attenuation : ℚ → ℚ) (a b : ℚ)
    (h : (exactOps atof attenuation).ne a b = false) : a = b := by
  by_contra hab
  have ht : (exactOps atof attenuation).ne a b = true := decide_eq_true hab
  rw [ht] at h
  exact Bool.noConfusion h

/-- Two finite `float` values that `!=` does not tell apart are the same number. -/
theorem ieeeOps_eq_of_ne_false (atof : String → ℚ) (pow10 : ℚ → ℚ) (a b : ℚ)
    (h : (ieeeOps atof pow10).ne a b = false) : a = b := by
  by_contra hab
  have ht : (ieeeOps atof pow10).ne a b = true := decide_eq_true hab
  rw [ht] at h
  exact Bool.noConfusion h

/-- The `float` product of two values of `[0, 1]` lies in `[0, 1]`. -/
theorem ieeeOps_mul_range (atof : String → ℚ) (pow10 : ℚ → ℚ) (a b : ℚ) (ha0 : 0 ≤ a)
    (ha1 : a ≤ 1) (hb0 : 0 ≤ b) (hb1 : b ≤ 1) :
    0 ≤ (ieeeOps atof pow10).mul a b ∧ (ieeeOps atof pow10).mul a b ≤ 1 := by
  have h0 : 0 ≤ a * b := mul_nonneg ha0 hb0
  have h1 : a * b ≤ 1 := by
    calc a * b ≤ 1 * 1 := mul_le_mul ha1 hb1 hb0 zero_le_one
      _ = 1 := one_mul 1
  constructor
  · exact toFloat_nonneg h0
  · have h := toFloat_mono h0 h1
    rw [toFloat_one] at h
    exact h

/-- The `float` product is the exact product up to one rounding. -/
theorem ieeeOps_mul_round (atof : String → ℚ) (pow10 : ℚ → ℚ) (a b : ℚ) :
    |(ieeeOps atof pow10).mul a b - a * b| ≤ |a * b| / 2 ^ 24 + 1 / 2 ^ 150 :=
  abs_toFloat_sub_le (a * b)

/-- A factor `pow` returns in `[0, 1]` is still in `[0, 1]` as a `float`. -/
theorem ieeeOps_attenuation_range (atof : String → ℚ) (pow10 : ℚ → ℚ) (x : ℚ)
    (h : 0 ≤ pow10 x ∧ pow10 x ≤ 1) :
    0 ≤ (ieeeOps atof pow10).attenuation x ∧ (ieeeOps atof pow10).attenuation x ≤ 1 := by
  constructor
  · exact toFloat_nonneg h.1
  · have h1 := toFloat_mono h.1 h.2
    rw [toFloat_one] at h1
    exact h1

theorem sampleAtof_twenty : sampleAtof "20" = 20 := by
  unfold sampleAtof
  rw [if_neg (by decide), if_pos rfl]

theorem samplePow_zero : samplePow 0 = 1 := by
  unfold samplePow
  norm_num

theorem samplePow_minus_twenty : samplePow (-20) = 10 := by
  unfold samplePow
  norm_num

theorem samplePow_six : samplePow 6 = 2257146638606633 / 4503599627370496 := by
  unfold samplePow
  norm_num

theorem samplePow_twenty : samplePow 20 = 3602879701896397 / 36028797018963968 := by
  unfold samplePow
  norm_num

theorem samplePow_range (x : ℚ) (hx : 0 ≤ x) : 0 ≤ samplePow x ∧ samplePow x ≤ 1 := by
  have h20 : x ≠ -20 := by
    intro h
    rw [h] at hx
    norm_num at hx
  unfold samplePow
  rw [if_neg h20]
  split_ifs <;> norm_num

theorem toFloat_half : toFloat (1 / 2) = 1 / 2 := by
  unfold toFloat
  rw [roundBinary_eq 24 (-126) (-1) 8388608 (by norm_num) (by norm_num)
    (by norm_num) (by norm_num) (by norm_num [abs_lt])]
  norm_num

/-- The `float` of the default speaker factor `pow(10.0, -6/20.0)`. -/
theorem toFloat_samplePow_six : toFloat (samplePow 6) = 4204263 / 8388608 := by
  rw [samplePow_six]
  unfold toFloat
  rw [roundBinary_eq 24 (-126) (-1) 8408526 (by norm_num) (by norm_num)
    (by norm_num) (by norm_num) (by norm_num [abs_lt])]
  norm_num

/-- The `float` of the factor `pow(10.0, -20/20.0)`, the `float` nearest to `0.1`. -/
theorem toFloat_samplePow_twenty : toFloat (samplePow 20) = 13421773 / 134217728 := by
  rw [samplePow_twenty]
  unfold toFloat
  rw [roundBinary_eq 24 (-126) (-4) 13421773 (by norm_num) (by norm_num)
    (by norm_num) (by norm_num) (by norm_num [abs_lt])]
  norm_num

theorem toFloat_tenth : toFloat (13421773 / 134217728) = 13421773 / 134217728 := by
  unfold toFloat
  rw [roundBinary_eq 24 (-126) (-4) 13421773 (by norm_num) (by norm_num)
    (by norm_num) (by norm_num) (by norm_num [abs_lt])]
  norm_num

theorem toFloat_half_speaker : toFloat (4204263 / 16777216) = 4204263 / 16777216 := by
  unfold toFloat
  rw [roundBinary_eq 24 (-126) (-2) 8408526 (by norm_num) (by norm_num)
    (by norm_num) (by norm_num) (by norm_num [abs_lt])]
  norm_num

end IeeeOps

section FloorRemap

theorem abs_toDouble_sub_le (q : ℚ) : |toDouble q - q| ≤ |q| / 2 ^ 53 + 1 / 2 ^ 1075 := by
  have h := abs_roundBinary_sub_le 53 (-1022) q
  have he : (2 : ℚ) ^ ((-1022 : ℤ) - (53 : ℕ)) = 1 / 2 ^ 1075 := by norm_num
  rw [he] at h
  exact h

theorem toDouble_floor_sum_one :
    toDouble (toDouble (1 / 100) + toDouble (toDouble (99 / 100) * 1)) = 1 := by
  rw [mul_one, toDouble_one_hundredth, toDouble_ninety_nine_hundredths]
  have hd : toDouble (8917127262193582 / 2 ^ 53) = 8917127262193582 / 2 ^ 53 := by
    unfold toDouble
    rw [roundBinary_eq 53 (-1022) (-1) 8917127262193582 (by norm_num) (by norm_num)
      (by norm_num) (by norm_num) (by norm_num [abs_lt])]
    norm_num
  rw [hd]
  unfold toDouble
  rw [roundBinary_eq 53 (-1022) (-1) 9007199254740992 (by norm_num) (by norm_num)
    (by norm_num) (by norm_num) (by norm_num [abs_lt])]
  norm_num

/-- On `[0, 1]` the floor remap in IEEE arithmetic differs from the real number
`0.01 + 0.99 * v` by less than `10^(-7)`. -/
theorem abs_ieeeFloorRemap_sub_le {v : ℚ} (h0 : 0 ≤ v) (h1 : v ≤ 1) :
    |ieeeFloorRemap v - (1 / 100 + 99 / 100 * v)| ≤ 1 / 10 ^ 7 := by
  have hb : (0 : ℚ) ≤ toDouble (99 / 100) := toDouble_nonneg (by norm_num)
  have ha : (0 : ℚ) ≤ toDouble (1 / 100) := toDouble_nonneg (by norm_num)
  have hp0 : 0 ≤ toDouble (99 / 100) * v := mul_nonneg hb h0
  have hp0le : toDouble (99 / 100) * v ≤ toDouble (99 / 100) * 1 :=
    mul_le_mul_of_nonneg_left h1 hb
  have hp1 : 0 ≤ toDouble (toDouble (99 / 100) * v) := toDouble_nonneg hp0
  have hp1le : toDouble (toDouble (99 / 100) * v) ≤ toDouble (toDouble (99 / 100) * 1) :=
    toDouble_mono hp0 hp0le
  have hs0 : 0 ≤ toDouble (1 / 100) + toDouble (toDouble (99 / 100) * v) :=
    add_nonneg ha hp1
  have hs1 : 0 ≤ toDouble (toDouble (1 / 100) + toDouble (toDouble (99 / 100) * v)) :=
    toDouble_nonneg hs0
  have hs1le : toDouble (toDouble (1 / 100) + toDouble (toDouble (99 / 100) * v)) ≤ 1 := by
    have h := toDouble_mono hs0 (add_le_add_left hp1le (toDouble (1 / 100)))
    rw [toDouble_floor_sum_one] at h
    exact h
  have e1 := abs_toDouble_sub_le (toDouble (99 / 100) * v)
  have e2 := abs_toDouble_sub_le (toDouble (1 / 100) + toDouble (toDouble (99 / 100) * v))
  have e3 := abs_toFloat_sub_le
    (toDouble (toDouble (1 / 100) + toDouble (toDouble (99 / 100) * v)))
  rw [abs_of_nonneg hp0] at e1
  rw [abs_of_nonneg hs0] at e2
  rw [abs_of_nonneg hs1] at e3
  unfold ieeeFloorRemap
  generalize toFloat (toDouble (toDouble (1 / 100) + toDouble (toDouble (99 / 100) * v)))
    = r at e3 ⊢
  generalize toDouble (toDouble (1 / 100) + toDouble (toDouble (99 / 100) * v)) = s1
    at e2 e3 hs1 hs1le
  generalize toDouble (toDouble (99 / 100) * v) = p1 at e1 e2 hp1 hp1le hs0
  rw [toDouble_one_hundredth] at e2
  rw [toDouble_ninety_nine_hundredths] at e1
  rw [abs_le] at e1 e2 e3 ⊢
  norm_num at e1 e2 e3 ⊢
  constructor <;> linarith

end FloorRemap

/-! ## Volume application: the attenuated volume -/

section Recorded

variable {F : Type}

/-- After an unmuted, not cross-routed call the last-applied volume of the stream on the
output is the attenuated volume, either written by the call or found equal to it. -/
theorem recorded_of_pass (A : AudioSystem) (fl : FloatOps F) (env : Collaborators F)
    (m : AudioPolicyManager F) (stream : StreamType) (index output : Int) (device : Nat)
    (delayMs : Int) (force : Bool) (hne : ∀ a b, fl.ne a b = false → a = b)
    (hmute : (m.mOutputs output).mMuteCount stream = 0) (hguard : ¬ crossRouted m stream) :
    ((checkAndSetVolume A fl env m stream index output device delayMs force).state.mOutputs
        output).mCurVolume stream
      = attenuatedVolume A fl env stream index output device := by
  rw [checkAndSetVolume_of_pass A fl env m stream index output device delayMs force hmute
    hguard]
  by_cases hw : fl.ne (attenuatedVolume A fl env stream index output device)
        ((m.mOutputs output).mCurVolume stream) = true
      ∨ stream = StreamType.VOICE_CALL ∨ stream = StreamType.FM ∨ force = true
  · rw [if_pos hw]
    by_cases hfm : stream = StreamType.FM
    · rw [if_pos hfm]
      exact setCurVolume_recorded _ _ _ _
    · rw [if_neg hfm, voiceVolumeStep_outputs, setCurVolume_recorded]
  · rw [if_neg hw, voiceVolumeStep_outputs]
    have hsame : fl.ne (attenuatedVolume A fl env stream index output device)
        ((m.mOutputs output).mCurVolume stream) = false := by
      cases h : fl.ne (attenuatedVolume A fl env stream index output device)
        ((m.mOutputs output).mCurVolume stream)
      · rfl
      · exact absurd (Or.inl h) hw
    exact (hne _ _ hsame).symm

end Recorded

/-! ## Volume application: the floor remap -/

section VolumeClaimsSix

variable {F : Type}

/-- C13, as stated, fails: the statement `volume = 0.01 + 0.99 * volume` is evaluated in
`double` arithmetic and its result is rounded to `float`. For the `VOICE_CALL` stream with
attenuated volume `0` the value passed to `setStreamVolume` is `5368709 / 2^29`, the `float`
nearest to `0.01`, which is not `0.01 + 0.99 * 0` and lies below `0.01`, outside
`[0.01, 1]`. -/
theorem floor_remap_counterexample :
    attenuatedVolume samplePlatform ieeeSampleOps sampleEnv StreamType.VOICE_CALL 0 1 0x1 = 0
      ∧ (checkAndSetVolume samplePlatform ieeeSampleOps sampleEnv
          (sampleState MODE_IN_CALL FORCE_NONE FORCE_NONE 0x1)
          StreamType.VOICE_CALL 0 1 0x1 0 false).calls
        = [SinkCall.setStreamVolume StreamType.VOICE_CALL (5368709 / 536870912) 1 0,
            SinkCall.setVoiceVolume 0 0]
      ∧ (5368709 / 536870912 : ℚ) ≠ 1 / 100 + 99 / 100 * 0
      ∧ (5368709 / 536870912 : ℚ) < 1 / 100 := by
  have hv : attenuatedVolume samplePlatform ieeeSampleOps sampleEnv StreamType.VOICE_CALL 0 1
      0x1 = 0 := by
    unfold attenuatedVolume
    dsimp only
    rw [if_neg (by decide), if_neg (by decide), if_neg (by decide)]
    norm_num [sampleEnv]
  have hratio : voiceVolumeOf ieeeSampleOps
      (setCurVolume (sampleState MODE_IN_CALL FORCE_NONE FORCE_NONE 0x1) 1
        StreamType.VOICE_CALL 0) StreamType.VOICE_CALL 0 = 0 := by
    unfold voiceVolumeOf
    rw [if_pos rfl]
    show toFloat (toFloat ((0 : ℤ) : ℚ) / toFloat _) = 0
    rw [Int.cast_zero, toFloat_zero, zero_div, toFloat_zero]
  refine ⟨hv, ?_, by norm_num, by norm_num⟩
  rw [checkAndSetVolume_of_write samplePlatform ieeeSampleOps sampleEnv
    (sampleState MODE_IN_CALL FORCE_NONE FORCE_NONE 0x1) StreamType.VOICE_CALL 0 1 0x1 0 false
    (by decide) (by decide) (by decide) (Or.inr (Or.inl rfl)), hv, voiceVolumeStep_eq,
    hratio, if_pos]
  · have ht : transmittedVolume ieeeSampleOps StreamType.VOICE_CALL 0
        = 5368709 / 536870912 := by
      unfold transmittedVolume
      rw [if_pos (Or.inl rfl)]
      exact ieeeFloorRemap_zero
    rw [ht]
    rfl
  · refine ⟨Or.inl rfl, ?_, rfl⟩
    simp [ieeeSampleOps, ieeeOps]

/-- C13, amended: when `checkAndSetVolume` performs the generic write for a `VOICE_CALL`,
`DTMF` or `BLUETOOTH_SCO` stream with attenuated volume `v`, the value passed to
`setStreamVolume` is the remap `0.01 + 0.99 * v` as the float operations compute it, and for
every other stream than FM it is `v`; the value recorded as the output's last-applied volume
is `v` itself. The `setStreamVolume` call is the first call made, and only `setVoiceVolume`
calls follow it. In IEEE 754 arithmetic the remap is evaluated in `double` and rounded to
`float`: `0` is transmitted as `5368709 / 2^29`, the `float` nearest to `0.01`, `1` as `1`,
and every `v` in `[0, 1]` as a value in `[5368709 / 2^29, 1]` within `10^(-7)` of
`0.01 + 0.99 * v`. -/
theorem generic_write_floor_remap (A : AudioSystem) (fl : FloatOps F)
    (env : Collaborators F) (m : AudioPolicyManager F)
    (stream : StreamType) (index output : Int) (device : Nat) (delayMs : Int) (force : Bool)
    (hmute : (m.mOutputs output).mMuteCount stream = 0)
    (hguard : ¬ ((stream = StreamType.VOICE_CALL
          ∧ m.mForceUse FOR_COMMUNICATION = FORCE_BT_SCO)
        ∨ (stream = StreamType.BLUETOOTH_SCO
          ∧ m.mForceUse FOR_COMMUNICATION ≠ FORCE_BT_SCO)))
    (hfm : stream ≠ StreamType.FM)
    (hwrite : fl.ne (attenuatedVolume A fl env stream index output device)
          ((m.mOutputs output).mCurVolume stream) = true
        ∨ stream = StreamType.VOICE_CALL ∨ force = true) :
    (∃ rest,
        (checkAndSetVolume A fl env m stream index output device delayMs force).calls
          = SinkCall.setStreamVolume stream
              (if stream = StreamType.VOICE_CALL ∨ stream = StreamType.DTMF
                  ∨ stream = StreamType.BLUETOOTH_SCO then
                fl.floorRemap (attenuatedVolume A fl env stream index output device)
              else attenuatedVolume A fl env stream index output device)
              output delayMs :: rest
        ∧ ∀ c ∈ rest, ∃ x d, c = SinkCall.setVoiceVolume x d)
      ∧ ((checkAndSetVolume A fl env m stream index output device delayMs
            force).state.mOutputs output).mCurVolume stream
          = attenuatedVolume A fl env stream index output device
      ∧ (∀ (atof : String → ℚ) (pow10 : ℚ → ℚ),
          (ieeeOps atof pow10).floorRemap 0 = 5368709 / 536870912
            ∧ (ieeeOps atof pow10).floorRemap 1 = 1
            ∧ ∀ v, 0 ≤ v → v ≤ 1 →
              (ieeeOps atof pow10).floorRemap v
                  = toFloat (toDouble (toDouble (1 / 100) + toDouble (toDouble (99 / 100) * v)))
                ∧ 5368709 / 536870912 ≤ (ieeeOps atof pow10).floorRemap v
                ∧ (ieeeOps atof pow10).floorRemap v ≤ 1
                ∧ |(ieeeOps atof pow10).floorRemap v - (1 / 100 + 99 / 100 * v)|
                  ≤ 1 / 10 ^ 7) := by
  rw [checkAndSetVolume_of_write A fl env m stream index output device delayMs force hmute
    hguard hfm hwrite]
  refine ⟨?_, ?_, ?_⟩
  · have hgen : ∀ (r : AudioPolicyManager F) (w : F), ∃ rest,
        (voiceVolumeStep fl r stream index output delayMs
            [SinkCall.setStreamVolume stream w output delayMs]).calls
          = SinkCall.setStreamVolume stream w output delayMs :: rest
        ∧ ∀ c ∈ rest, ∃ x d, c = SinkCall.setVoiceVolume x d := by
      intro r w
      rw [voiceVolumeStep_eq]
      split_ifs
      · exact ⟨_, rfl, fun c hc => ⟨_, _, List.mem_singleton.mp hc⟩⟩
      · exact ⟨[], rfl, fun c hc => absurd hc (List.not_mem_nil c)⟩
    exact hgen _ _
  · rw [voiceVolumeStep_outputs, setCurVolume_recorded]
  · intro atof pow10
    refine ⟨ieeeFloorRemap_zero, ieeeFloorRemap_one, ?_⟩
    intro v h0 h1
    refine ⟨rfl, ?_, ?_, abs_ieeeFloorRemap_sub_le h0 h1⟩
    · have h := ieeeFloorRemap_mono le_rfl h0
      rw [ieeeFloorRemap_zero] at h
      exact h
    · have h := ieeeFloorRemap_mono h0 h1
      rw [ieeeFloorRemap_one] at h
      exact h

theorem generic_write_floor_remap_witness :
    (∃ rest,
        (checkAndSetVolume samplePlatform ieeeSampleOps sampleEnv
            (sampleState MODE_IN_CALL FORCE_NONE FORCE_NONE 0x1)
            StreamType.VOICE_CALL 15 1 0x1 0 false).calls
          = SinkCall.setStreamVolume StreamType.VOICE_CALL 1 1 0 :: rest
        ∧ ∀ c ∈ rest, ∃ x d, c = SinkCall.setVoiceVolume x d)
      ∧ ((checkAndSetVolume samplePlatform ieeeSampleOps sampleEnv
            (sampleState MODE_IN_CALL FORCE_NONE FORCE_NONE 0x1)
            StreamType.VOICE_CALL 15 1 0x1 0 false).state.mOutputs 1).mCurVolume
          StreamType.VOICE_CALL = 1
      ∧ ieeeSampleOps.floorRemap 0 = 5368709 / 536870912 := by
  have hv : attenuatedVolume samplePlatform ieeeSampleOps sampleEnv StreamType.VOICE_CALL 15 1
      0x1 = 1 := by
    unfold attenuatedVolume
    dsimp only
    rw [if_neg (by decide), if_neg (by decide), if_neg (by decide)]
    norm_num [sampleEnv]
  have h := generic_write_floor_remap samplePlatform ieeeSampleOps sampleEnv
    (sampleState MODE_IN_CALL FORCE_NONE FORCE_NONE 0x1) StreamType.VOICE_CALL 15 1 0x1 0
    false (by decide) (by decide) (by decide) (Or.inr (Or.inl rfl))
  rw [hv] at h
  obtain ⟨⟨rest, hcalls, hrest⟩, hrec, hieee⟩ := h
  refine ⟨⟨rest, ?_, hrest⟩, hrec, (hieee sampleAtof samplePow).1⟩
  rw [hcalls, if_pos (Or.inl rfl)]
  have h1 : ieeeSampleOps.floorRemap 1 = 1 := ieeeFloorRemap_one
  rw [h1]

end VolumeClaimsSix

section VolumeClaimsSeven

variable {K : Type} [LinearOrderedField K]

/-- One attenuation block keeps a volume of `[0, 1]` in `[0, 1]` when the property it reads
is at least `0` dB. -/
theorem attenuate_range (fl : FloatOps K) (env : Collaborators K) (key dflt : String) (v : K)
    (hmul : ∀ a b, 0 ≤ a → a ≤ 1 → 0 ≤ b → b ≤ 1 → 0 ≤ fl.mul a b ∧ fl.mul a b ≤ 1)
    (hatt : ∀ x, 0 ≤ x → 0 ≤ fl.attenuation x ∧ fl.attenuation x ≤ 1)
    (hdb : 0 ≤ fl.atof (env.property_get key dflt)) (hv : 0 ≤ v ∧ v ≤ 1) :
    0 ≤ attenuate fl env key dflt v ∧ attenuate fl env key dflt v ≤ 1 := by
  unfold attenuate
  obtain ⟨hf0, hf1⟩ := hatt _ hdb
  exact hmul _ _ hv.1 hv.2 hf0 hf1

/-- C14, as stated, fails: with the speaker attenuation property set to `-20` dB, the speaker
as device and the curve value `1`, the volume after attenuation, which `checkAndSetVolume`
records as last applied, is `10`, outside `[0, 1]`; the values are the same with and without
rounding. -/
theorem attenuated_range_counterexample :
    boostedEnv.computeVolume StreamType.MUSIC 15 1 0x2 = 1
      ∧ attenuatedVolume samplePlatform sampleOps boostedEnv StreamType.MUSIC 15 1 0x2 = 10
      ∧ ((checkAndSetVolume samplePlatform sampleOps boostedEnv
            (sampleState MODE_NORMAL FORCE_NONE FORCE_NONE 0x2)
            StreamType.MUSIC 15 1 0x2 0 false).state.mOutputs 1).mCurVolume StreamType.MUSIC
          = 10
      ∧ ¬ ((0 : ℚ) ≤ attenuatedVolume samplePlatform sampleOps boostedEnv StreamType.MUSIC
              15 1 0x2
          ∧ attenuatedVolume samplePlatform sampleOps boostedEnv StreamType.MUSIC 15 1 0x2
            ≤ 1)
      ∧ attenuatedVolume samplePlatform ieeeSampleOps boostedEnv StreamType.MUSIC 15 1 0x2
          = 10
      ∧ ((checkAndSetVolume samplePlatform ieeeSampleOps boostedEnv
            (sampleState MODE_NORMAL FORCE_NONE FORCE_NONE 0x2)
            StreamType.MUSIC 15 1 0x2 0 false).state.mOutputs 1).mCurVolume StreamType.MUSIC
          = 10 := by
  have hv : attenuatedVolume samplePlatform sampleOps boostedEnv StreamType.MUSIC 15 1 0x2
      = 10 := by
    unfold attenuatedVolume
    dsimp only
    rw [if_neg (by decide), if_neg (by decide), if_pos (by decide)]
    norm_num [attenuate, sampleOps, exactOps, boostedEnv, sampleAtof_minus_twenty,
      sampleAttenuation_minus_twenty]
  have hw : attenuatedVolume samplePlatform ieeeSampleOps boostedEnv StreamType.MUSIC 15 1 0x2
      = 10 := by
    unfold attenuatedVolume
    dsimp only
    rw [if_neg (by decide), if_neg (by decide), if_pos (by decide)]
    norm_num [attenuate, ieeeSampleOps, ieeeOps, boostedEnv, sampleAtof_minus_twenty,
      samplePow_minus_twenty, toFloat_ten]
  refine ⟨?_, hv, ?_, ?_, hw, ?_⟩
  · norm_num [boostedEnv]
  · rw [recorded_of_pass samplePlatform sampleOps boostedEnv _ StreamType.MUSIC 15 1 0x2 0
      false (exactOps_eq_of_ne_false _ _) (by decide) (by decide), hv]
  · rw [hv]
    norm_num
  · rw [recorded_of_pass samplePlatform ieeeSampleOps boostedEnv _ StreamType.MUSIC 15 1 0x2 0
      false (ieeeOps_eq_of_ne_false _ _) (by decide) (by decide), hw]

/-- C14, amended: for every stream, output and device and every curve value in `[0, 1]`, if
each attenuation that applies is at least `0` dB (the speaker attenuation when the device is
the speaker, the headset attenuation when it is the wired headset or headphone, the FM
attenuation when the stream is FM), then the volume `checkAndSetVolume` computes after device
and stream attenuation lies in `[0, 1]`, and it is the value recorded as last applied by a
call that passes the two gates. The facts used of the float operations hold in IEEE 754
arithmetic: a factor `pow(10.0, -x/20.0)` with `x ≥ 0` lies in `[0, 1]`, the product of two
values of `[0, 1]` lies in `[0, 1]`, and values that `!=` does not tell apart are equal. -/
theorem attenuated_range_of_applied_db (A : AudioSystem) (fl : FloatOps K)
    (env : Collaborators K) (m : AudioPolicyManager K)
    (stream : StreamType) (index output : Int) (device : Nat) (delayMs : Int) (force : Bool)
    (hmul : ∀ a b, 0 ≤ a → a ≤ 1 → 0 ≤ b → b ≤ 1 → 0 ≤ fl.mul a b ∧ fl.mul a b ≤ 1)
    (hatt : ∀ x, 0 ≤ x → 0 ≤ fl.attenuation x ∧ fl.attenuation x ≤ 1)
    (hne : ∀ a b, fl.ne a b = false → a = b)
    (hspeaker : device = A.DEVICE_OUT_SPEAKER →
      0 ≤ fl.atof (env.property_get "persist.sys.speaker-attn" "6"))
    (hheadset : device = A.DEVICE_OUT_WIRED_HEADSET ∨ device = A.DEVICE_OUT_WIRED_HEADPHONE →
      0 ≤ fl.atof (env.property_get "persist.sys.headset-attn" "0"))
    (hfmdb : stream = StreamType.FM →
      0 ≤ fl.atof (env.property_get "persist.sys.fm-attn" "0"))
    (hcurve : 0 ≤ env.computeVolume stream index output device
      ∧ env.computeVolume stream index output device ≤ 1) :
    (0 ≤ attenuatedVolume A fl env stream index output device
        ∧ attenuatedVolume A fl env stream index output device ≤ 1)
      ∧ ((m.mOutputs output).mMuteCount stream = 0 →
          ¬ ((stream = StreamType.VOICE_CALL
              ∧ m.mForceUse FOR_COMMUNICATION = FORCE_BT_SCO)
            ∨ (stream = StreamType.BLUETOOTH_SCO
              ∧ m.mForceUse FOR_COMMUNICATION ≠ FORCE_BT_SCO)) →
          ((checkAndSetVolume A fl env m stream index output device delayMs
              force).state.mOutputs output).mCurVolume stream
            = attenuatedVolume A fl env stream index output device) := by
  constructor
  · unfold attenuatedVolume
    dsimp only
    have h1 : 0 ≤ (if device = A.DEVICE_OUT_SPEAKER then
          attenuate fl env "persist.sys.speaker-attn" "6"
            (env.computeVolume stream index output device)
        else env.computeVolume stream index output device)
        ∧ (if device = A.DEVICE_OUT_SPEAKER then
          attenuate fl env "persist.sys.speaker-attn" "6"
            (env.computeVolume stream index output device)
        else env.computeVolume stream index output device) ≤ 1 := by
      split_ifs with hd
      · exact attenuate_range fl env _ _ _ hmul hatt (hspeaker hd) hcurve
      · exact hcurve
    generalize (if device = A.DEVICE_OUT_SPEAKER then
          attenuate fl env "persist.sys.speaker-attn" "6"
            (env.computeVolume stream index output device)
        else env.computeVolume stream index output device) = v1 at h1 ⊢
    have h2 : 0 ≤ (if device = A.DEVICE_OUT_WIRED_HEADSET
            ∨ device = A.DEVICE_OUT_WIRED_HEADPHONE then
          attenuate fl env "persist.sys.headset-attn" "0" v1 else v1)
        ∧ (if device = A.DEVICE_OUT_WIRED_HEADSET
            ∨ device = A.DEVICE_OUT_WIRED_HEADPHONE then
          attenuate fl env "persist.sys.headset-attn" "0" v1 else v1) ≤ 1 := by
      split_ifs with hd
      · exact attenuate_range fl env _ _ _ hmul hatt (hheadset hd) h1
      · exact h1
    generalize (if device = A.DEVICE_OUT_WIRED_HEADSET
            ∨ device = A.DEVICE_OUT_WIRED_HEADPHONE then
          attenuate fl env "persist.sys.headset-attn" "0" v1 else v1) = v2 at h2 ⊢
    split_ifs with hs
    · exact attenuate_range fl env _ _ _ hmul hatt (hfmdb hs) h2
    · exact h2
  · intro hmute hguard
    exact recorded_of_pass A fl env m stream index output device delayMs force
      hne hmute hguard

theorem attenuated_range_of_applied_db_witness :
    attenuatedVolume samplePlatform ieeeSampleOps dampedEnv StreamType.FM 15 1 0x2
        = 13421773 / 134217728
      ∧ (0 ≤ attenuatedVolume samplePlatform ieeeSampleOps dampedEnv StreamType.FM 15 1 0x2
        ∧ attenuatedVolume samplePlatform ieeeSampleOps dampedEnv StreamType.FM 15 1 0x2 ≤ 1)
      ∧ ((checkAndSetVolume samplePlatform ieeeSampleOps dampedEnv
            (sampleState MODE_NORMAL FORCE_NONE FORCE_NONE 0x2)
            StreamType.FM 15 1 0x2 0 false).state.mOutputs 1).mCurVolume StreamType.FM
          = attenuatedVolume samplePlatform ieeeSampleOps dampedEnv StreamType.FM 15 1 0x2 := by
  have hv : attenuatedVolume samplePlatform ieeeSampleOps dampedEnv StreamType.FM 15 1 0x2
      = 13421773 / 134217728 := by
    unfold attenuatedVolume
    dsimp only
    rw [if_pos rfl, if_neg (by decide), if_pos (by decide)]
    have h20 : dampedEnv.property_get "persist.sys.speaker-attn" "6" = "20" := by
      unfold dampedEnv
      dsimp only
      rw [if_pos rfl]
    have h0 : dampedEnv.property_get "persist.sys.fm-attn" "0" = "0" := by
      unfold dampedEnv
      dsimp only
      rw [if_neg (by decide)]
    have hc : dampedEnv.computeVolume StreamType.FM 15 1 0x2 = 1 := by
      norm_num [dampedEnv]
    unfold attenuate
    rw [h20, h0, hc]
    show toFloat (toFloat (1 * toFloat (samplePow (sampleAtof "20")))
      * toFloat (samplePow (sampleAtof "0"))) = 13421773 / 134217728
    rw [sampleAtof_twenty, sampleAtof_zero, toFloat_samplePow_twenty, samplePow_zero,
      toFloat_one, one_mul, mul_one, toFloat_tenth, toFloat_tenth]
  have h := attenuated_range_of_applied_db samplePlatform ieeeSampleOps dampedEnv
    (sampleState MODE_NORMAL FORCE_NONE FORCE_NONE 0x2) StreamType.FM 15 1 0x2 0 false
    (ieeeOps_mul_range sampleAtof samplePow)
    (fun x hx => ieeeOps_attenuation_range sampleAtof samplePow x (samplePow_range x hx))
    (ieeeOps_eq_of_ne_false sampleAtof samplePow)
    (fun _ => by
      show (0 : ℚ) ≤ sampleAtof (dampedEnv.property_get "persist.sys.speaker-attn" "6")
      unfold dampedEnv
      dsimp only
      rw [if_pos rfl, sampleAtof_twenty]
      norm_num)
    (fun hd => absurd hd (by decide))
    (fun _ => by
      show (0 : ℚ) ≤ sampleAtof (dampedEnv.property_get "persist.sys.fm-attn" "0")
      unfold dampedEnv
      dsimp only
      rw [if_neg (by decide), sampleAtof_zero])
    (by norm_num [dampedEnv])
  exact ⟨hv, h.1, h.2 (by decide) (by decide)⟩

end VolumeClaimsSeven

/-! ## Volume application: the default attenuations -/

section SpeakerFactor

theorem speaker_default_factor_pow :
    ((10 : ℝ) ^ (-(6 : ℝ) / 20)) ^ (10 : ℕ) = 1 / 1000 := by
  rw [← Real.rpow_natCast, ← Real.rpow_mul (by norm_num : (0 : ℝ) ≤ 10)]
  have he : -(6 : ℝ) / 20 * ((10 : ℕ) : ℝ) = -((3 : ℕ) : ℝ) := by
    norm_num
  rw [he, Real.rpow_neg (by norm_num : (0 : ℝ) ≤ 10), Real.rpow_natCast]
  norm_num

/-- The default speaker factor `10^(-6/20)` lies strictly between `0.5011872` and
`0.5011873`. -/
theorem speaker_default_factor_bounds :
    (0.5011872 : ℝ) < (10 : ℝ) ^ (-(6 : ℝ) / 20)
      ∧ (10 : ℝ) ^ (-(6 : ℝ) / 20) < 0.5011873 := by
  have ht0 : (0 : ℝ) < (10 : ℝ) ^ (-(6 : ℝ) / 20) :=
    Real.rpow_pos_of_pos (by norm_num) _
  have ht10 := speaker_default_factor_pow
  constructor
  · by_contra h
    have hle : (10 : ℝ) ^ (-(6 : ℝ) / 20) ≤ 0.5011872 := not_lt.mp h
    have hpow := pow_le_pow_left₀ ht0.le hle 10
    rw [ht10] at hpow
    norm_num at hpow
  · by_contra h
    have hle : (0.5011873 : ℝ) ≤ (10 : ℝ) ^ (-(6 : ℝ) / 20) := not_lt.mp h
    have hpow := pow_le_pow_left₀ (by norm_num : (0 : ℝ) ≤ 0.5011873) hle 10
    rw [ht10] at hpow
    norm_num at hpow

/-- The `double` that the table `samplePow` holds at `6` is the one nearest to `10^(-6/20)`:
it is within half a unit in the last place, `2^(-54)`. -/
theorem samplePow_six_nearest :
    |((samplePow 6 : ℚ) : ℝ) - (10 : ℝ) ^ (-(6 : ℝ) / 20)| ≤ 1 / 2 ^ 54 := by
  have ht0 : (0 : ℝ) < (10 : ℝ) ^ (-(6 : ℝ) / 20) :=
    Real.rpow_pos_of_pos (by norm_num) _
  have ht10 := speaker_default_factor_pow
  rw [samplePow_six, abs_le]
  push_cast
  constructor
  · by_contra h
    have hle : (2257146638606633 / 4503599627370496 + 1 / 2 ^ 54 : ℝ)
        ≤ (10 : ℝ) ^ (-(6 : ℝ) / 20) := by linarith [not_le.mp h]
    have hpow := pow_le_pow_left₀ (by norm_num) hle 10
    rw [ht10] at hpow
    norm_num at hpow
  · by_contra h
    have hle : (10 : ℝ) ^ (-(6 : ℝ) / 20)
        ≤ (2257146638606633 / 4503599627370496 - 1 / 2 ^ 54 : ℝ) := by linarith [not_le.mp h]
    have hpow := pow_le_pow_left₀ ht0.le hle 10
    rw [ht10] at hpow
    norm_num at hpow

/-- A correctly rounded product of `c` with a factor `f` that is within `10^(-7)` of the
default speaker factor is within `2 |c| / 10^7 + 2^(-150)` of `c * 10^(-6/20)`. -/
theorem abs_speaker_product_sub_le (c f r : ℝ)
    (hf : |f - (10 : ℝ) ^ (-(6 : ℝ) / 20)| ≤ 1 / 10 ^ 7)
    (hr : |r - c * f| ≤ |c * f| / 2 ^ 24 + 1 / 2 ^ 150) :
    |r - c * (10 : ℝ) ^ (-(6 : ℝ) / 20)| ≤ 2 * |c| / 10 ^ 7 + 1 / 2 ^ 150 := by
  obtain ⟨hlo, hhi⟩ := speaker_default_factor_bounds
  generalize (10 : ℝ) ^ (-(6 : ℝ) / 20) = t at hf hlo hhi ⊢
  have hf2 := abs_le.mp hf
  have hfabs : |f| ≤ 0.5011875 := by
    rw [abs_le]
    constructor <;> norm_num at hlo hhi hf2 ⊢ <;> linarith [hf2.1, hf2.2]
  have hc := abs_nonneg c
  have h1 : |c * f| ≤ |c| * 0.5011875 := by
    rw [abs_mul]
    exact mul_le_mul_of_nonneg_left hfabs hc
  have h2 : |c * f - c * t| ≤ |c| * (1 / 10 ^ 7) := by
    rw [← mul_sub, abs_mul]
    exact mul_le_mul_of_nonneg_left hf hc
  have h3 : |r - c * t| ≤ |r - c * f| + |c * f - c * t| := abs_sub_le _ _ _
  generalize |c| = a at hc h1 h2 ⊢
  generalize |r - c * t| = x at h3 ⊢
  generalize |r - c * f| = y at hr h3
  generalize |c * f - c * t| = z at h2 h3
  generalize |c * f| = w at hr h1
  norm_num at hr h1 h2 ⊢
  linarith

end SpeakerFactor

section VolumeClaimsEight

/-- C15, as stated, fails in two ways. For the FM stream on the wired headset, with the
headset property unset and the FM attenuation property set to `-20` dB, the recorded volume
for the curve value `1` is `10`, not the curve value. And for the speaker with the speaker
property unset and the curve value `0.5`, the recorded volume is the `float` product
`4204263 / 2^24` of `0.5` and the `float` of `pow(10.0, -6/20.0)`, which is not the real
number `0.5 * 10^(-6/20)`. -/
theorem default_attenuation_counterexample :
    fmBoostedEnv.property_get "persist.sys.headset-attn" "0" = "0"
      ∧ fmBoostedEnv.computeVolume StreamType.FM 15 1 0x4 = 1
      ∧ ((checkAndSetVolume samplePlatform ieeeSampleOps fmBoostedEnv
            (sampleState MODE_NORMAL FORCE_NONE FORCE_NONE 0x4)
            StreamType.FM 15 1 0x4 0 false).state.mOutputs 1).mCurVolume StreamType.FM = 10
      ∧ halfEnv.property_get "persist.sys.speaker-attn" "6" = "6"
      ∧ halfEnv.computeVolume StreamType.MUSIC 7 1 0x2 = 1 / 2
      ∧ ((checkAndSetVolume samplePlatform ieeeSampleOps halfEnv
            (sampleState MODE_NORMAL FORCE_NONE FORCE_NONE 0x2)
            StreamType.MUSIC 7 1 0x2 0 false).state.mOutputs 1).mCurVolume StreamType.MUSIC
          = 4204263 / 16777216
      ∧ (((4204263 / 16777216 : ℚ) : ℝ)) ≠ 1 / 2 * (10 : ℝ) ^ (-(6 : ℝ) / 20) := by
  have hfm : attenuatedVolume samplePlatform ieeeSampleOps fmBoostedEnv StreamType.FM 15 1 0x4
      = 10 := by
    unfold attenuatedVolume
    dsimp only
    rw [if_pos rfl, if_pos (by decide), if_neg (by decide)]
    have hh : fmBoostedEnv.property_get "persist.sys.headset-attn" "0" = "0" := by
      unfold fmBoostedEnv
      dsimp only
      rw [if_neg (by decide)]
    have hf : fmBoostedEnv.property_get "persist.sys.fm-attn" "0" = "-20" := by
      unfold fmBoostedEnv
      dsimp only
      rw [if_pos rfl]
    have hc : fmBoostedEnv.computeVolume StreamType.FM 15 1 0x4 = 1 := by
      norm_num [fmBoostedEnv]
    unfold attenuate
    rw [hh, hf, hc]
    show toFloat (toFloat (1 * toFloat (samplePow (sampleAtof "0")))
      * toFloat (samplePow (sampleAtof "-20"))) = 10
    rw [sampleAtof_zero, sampleAtof_minus_twenty, samplePow_zero, samplePow_minus_twenty,
      toFloat_one, toFloat_ten, one_mul, toFloat_one, one_mul, toFloat_ten]
  have hsp : attenuatedVolume samplePlatform ieeeSampleOps halfEnv StreamType.MUSIC 7 1 0x2
      = 4204263 / 16777216 := by
    unfold attenuatedVolume
    dsimp only
    rw [if_neg (by decide), if_neg (by decide), if_pos (by decide)]
    show toFloat (1 / 2 * toFloat (samplePow (sampleAtof "6"))) = 4204263 / 16777216
    rw [sampleAtof_six, toFloat_samplePow_six]
    have he : (1 / 2 : ℚ) * (4204263 / 8388608) = 4204263 / 16777216 := by norm_num
    rw [he, toFloat_half_speaker]
  refine ⟨?_, ?_, ?_, rfl, rfl, ?_, ?_⟩
  · unfold fmBoostedEnv
    dsimp only
    rw [if_neg (by decide)]
  · norm_num [fmBoostedEnv]
  · rw [recorded_of_pass samplePlatform ieeeSampleOps fmBoostedEnv _ StreamType.FM 15 1 0x4 0
      false (ieeeOps_eq_of_ne_false _ _) (by decide) (by decide), hfm]
  · rw [recorded_of_pass samplePlatform ieeeSampleOps halfEnv _ StreamType.MUSIC 7 1 0x2 0
      false (ieeeOps_eq_of_ne_false _ _) (by decide) (by decide), hsp]
  · intro h
    have ht : (10 : ℝ) ^ (-(6 : ℝ) / 20) = 4204263 / 8388608 := by
      push_cast at h
      linarith
    have hp := speaker_default_factor_pow
    rw [ht] at hp
    norm_num at hp

/-- C15, amended. When the device argument is exactly `SPEAKER`, the stream is not FM and the
speaker-attenuation property is unset (default 6 dB), the volume `checkAndSetVolume` records
is the `float` product of the curve value and the `float` of `pow(10.0, -6/20.0)`; it is
within `2 |curveValue| / 10^7 + 2^(-150)` of `curveValue * 10^(-6/20)`, and for the curve
value `0.5` within `0.0001` of `0.2506`. When the device is exactly `WIRED_HEADSET` or
`WIRED_HEADPHONE` with the headset property unset (default 0 dB), the recorded volume is the
curve value unchanged if the stream is not FM, or if the FM attenuation property is unset as
well; for the FM stream it is the curve value multiplied by the FM factor. The call is one
that passes the two gates and the speaker flag differs from the two wired flags. The facts
used of the float operations hold in IEEE 754 arithmetic: values that `!=` does not tell
apart are equal, the `float` of `pow(10.0, -6/20.0)` is within `10^(-7)` of `10^(-6/20)`, the
product with it is rounded to nearest, and multiplying a curve value by the 0 dB factor
`1.0` returns it. -/
theorem default_attenuation (A : AudioSystem) (fl : FloatOps ℚ) (env : Collaborators ℚ)
    (m : AudioPolicyManager ℚ) (stream : StreamType) (index output delayMs : Int)
    (force : Bool)
    (hne : ∀ a b, fl.ne a b = false → a = b)
    (hfactor : |((fl.attenuation (fl.atof "6") : ℚ) : ℝ) - (10 : ℝ) ^ (-(6 : ℝ) / 20)|
      ≤ 1 / 10 ^ 7)
    (hround : |fl.mul (env.computeVolume stream index output A.DEVICE_OUT_SPEAKER)
          (fl.attenuation (fl.atof "6"))
        - env.computeVolume stream index output A.DEVICE_OUT_SPEAKER
          * fl.attenuation (fl.atof "6")|
      ≤ |env.computeVolume stream index output A.DEVICE_OUT_SPEAKER
          * fl.attenuation (fl.atof "6")| / 2 ^ 24 + 1 / 2 ^ 150)
    (hkeep : ∀ device,
      device = A.DEVICE_OUT_WIRED_HEADSET ∨ device = A.DEVICE_OUT_WIRED_HEADPHONE →
        fl.mul (env.computeVolume stream index output device) (fl.attenuation (fl.atof "0"))
          = env.computeVolume stream index output device)
    (hflags : A.DEVICE_OUT_SPEAKER ≠ A.DEVICE_OUT_WIRED_HEADSET
      ∧ A.DEVICE_OUT_SPEAKER ≠ A.DEVICE_OUT_WIRED_HEADPHONE)
    (hmute : (m.mOutputs output).mMuteCount stream = 0)
    (hguard : ¬ ((stream = StreamType.VOICE_CALL
          ∧ m.mForceUse FOR_COMMUNICATION = FORCE_BT_SCO)
        ∨ (stream = StreamType.BLUETOOTH_SCO
          ∧ m.mForceUse FOR_COMMUNICATION ≠ FORCE_BT_SCO))) :
    (stream ≠ StreamType.FM → env.property_get "persist.sys.speaker-attn" "6" = "6" →
        ((checkAndSetVolume A fl env m stream index output A.DEVICE_OUT_SPEAKER delayMs
            force).state.mOutputs output).mCurVolume stream
          = fl.mul (env.computeVolume stream index output A.DEVICE_OUT_SPEAKER)
              (fl.attenuation (fl.atof "6"))
        ∧ |((((checkAndSetVolume A fl env m stream index output A.DEVICE_OUT_SPEAKER delayMs
              force).state.mOutputs output).mCurVolume stream : ℚ) : ℝ)
            - ((env.computeVolume stream index output A.DEVICE_OUT_SPEAKER : ℚ) : ℝ)
              * (10 : ℝ) ^ (-(6 : ℝ) / 20)|
          ≤ 2 * |((env.computeVolume stream index output A.DEVICE_OUT_SPEAKER : ℚ) : ℝ)|
              / 10 ^ 7 + 1 / 2 ^ 150
        ∧ (env.computeVolume stream index output A.DEVICE_OUT_SPEAKER = 1 / 2 →
          |((((checkAndSetVolume A fl env m stream index output A.DEVICE_OUT_SPEAKER delayMs
              force).state.mOutputs output).mCurVolume stream : ℚ) : ℝ) - 0.2506|
            < 0.0001))
      ∧ (env.property_get "persist.sys.headset-attn" "0" = "0" →
        ∀ device,
          device = A.DEVICE_OUT_WIRED_HEADSET ∨ device = A.DEVICE_OUT_WIRED_HEADPHONE →
            (stream ≠ StreamType.FM
                ∨ env.property_get "persist.sys.fm-attn" "0" = "0" →
              ((checkAndSetVolume A fl env m stream index output device delayMs
                  force).state.mOutputs output).mCurVolume stream
                = env.computeVolume stream index output device)
            ∧ (stream = StreamType.FM →
              ((checkAndSetVolume A fl env m stream index output device delayMs
                  force).state.mOutputs output).mCurVolume stream
                = fl.mul (env.computeVolume stream index output device)
                    (fl.attenuation
                      (fl.atof (env.property_get "persist.sys.fm-attn" "0"))))) := by
  have hrec : ∀ device,
      ((checkAndSetVolume A fl env m stream index output device delayMs
          force).state.mOutputs output).mCurVolume stream
        = attenuatedVolume A fl env stream index output device := fun device =>
    recorded_of_pass A fl env m stream index output device delayMs force hne hmute hguard
  constructor
  · intro hfm hunset
    have hv : attenuatedVolume A fl env stream index output A.DEVICE_OUT_SPEAKER
        = fl.mul (env.computeVolume stream index output A.DEVICE_OUT_SPEAKER)
            (fl.attenuation (fl.atof "6")) := by
      unfold attenuatedVolume
      dsimp only
      rw [if_neg hfm, if_neg (by
          rintro (h | h)
          · exact hflags.1 h
          · exact hflags.2 h), if_pos rfl]
      unfold attenuate
      rw [hunset]
    rw [hrec, hv]
    have hr : |((fl.mul (env.computeVolume stream index output A.DEVICE_OUT_SPEAKER)
            (fl.attenuation (fl.atof "6")) : ℚ) : ℝ)
          - ((env.computeVolume stream index output A.DEVICE_OUT_SPEAKER : ℚ) : ℝ)
            * ((fl.attenuation (fl.atof "6") : ℚ) : ℝ)|
        ≤ |((env.computeVolume stream index output A.DEVICE_OUT_SPEAKER : ℚ) : ℝ)
            * ((fl.attenuation (fl.atof "6") : ℚ) : ℝ)| / 2 ^ 24 + 1 / 2 ^ 150 := by
      have h0 : ((|fl.mul (env.computeVolume stream index output A.DEVICE_OUT_SPEAKER)
              (fl.attenuation (fl.atof "6"))
            - env.computeVolume stream index output A.DEVICE_OUT_SPEAKER
              * fl.attenuation (fl.atof "6")| : ℚ) : ℝ)
          ≤ ((|env.computeVolume stream index output A.DEVICE_OUT_SPEAKER
              * fl.attenuation (fl.atof "6")| / 2 ^ 24 + 1 / 2 ^ 150 : ℚ) : ℝ) :=
        Rat.cast_le.mpr hround
      push_cast at h0
      exact h0
    have hb := abs_speaker_product_sub_le _ _ _ hfactor hr
    refine ⟨rfl, hb, ?_⟩
    intro hhalf
    obtain ⟨hlo, hhi⟩ := speaker_default_factor_bounds
    generalize (10 : ℝ) ^ (-(6 : ℝ) / 20) = t at hb hlo hhi
    generalize ((fl.mul (env.computeVolume stream index output A.DEVICE_OUT_SPEAKER)
            (fl.attenuation (fl.atof "6")) : ℚ) : ℝ) = r at hb ⊢
    rw [hhalf] at hb
    have habs : |((1 / 2 : ℚ) : ℝ)| = 1 / 2 := by
      rw [abs_of_nonneg (by norm_num)]
      norm_num
    rw [habs] at hb
    rw [abs_le] at hb
    rw [abs_lt]
    push_cast at hb
    norm_num at hb hlo hhi ⊢
    constructor <;> linarith [hb.1, hb.2]
  · intro hunset device hdev
    have hns : device ≠ A.DEVICE_OUT_SPEAKER := by
      rintro h
      rcases hdev with h2 | h2
      · exact hflags.1 (h.symm.trans h2)
      · exact hflags.2 (h.symm.trans h2)
    have hk := hkeep device hdev
    constructor
    · intro hcase
      rw [hrec]
      unfold attenuatedVolume
      dsimp only
      rw [if_neg hns, if_pos hdev]
      unfold attenuate
      rw [hunset, hk]
      by_cases hfm : stream = StreamType.FM
      · rw [if_pos hfm]
        rcases hcase with hc | hc
        · exact absurd hfm hc
        · rw [hc, hk]
      · rw [if_neg hfm]
    · intro hfm
      rw [hrec]
      unfold attenuatedVolume
      dsimp only
      rw [if_pos hfm, if_neg hns, if_pos hdev]
      unfold attenuate
      rw [hunset, hk]

theorem default_attenuation_witness :
    |((((checkAndSetVolume samplePlatform ieeeSampleOps halfEnv
          (sampleState MODE_NORMAL FORCE_NONE FORCE_NONE 0x2) StreamType.MUSIC 7 1
          samplePlatform.DEVICE_OUT_SPEAKER 0 false).state.mOutputs 1).mCurVolume
            StreamType.MUSIC : ℚ) : ℝ) - 0.2506| < 0.0001
      ∧ ((checkAndSetVolume samplePlatform ieeeSampleOps halfEnv
          (sampleState MODE_NORMAL FORCE_NONE FORCE_NONE 0x2) StreamType.MUSIC 7 1
          samplePlatform.DEVICE_OUT_WIRED_HEADSET 0 false).state.mOutputs 1).mCurVolume
            StreamType.MUSIC = 1 / 2
      ∧ ((checkAndSetVolume samplePlatform ieeeSampleOps halfEnv
          (sampleState MODE_NORMAL FORCE_NONE FORCE_NONE 0x2) StreamType.FM 7 1
          samplePlatform.DEVICE_OUT_WIRED_HEADPHONE 0 false).state.mOutputs 1).mCurVolume
            StreamType.FM = 1 / 2 := by
  have hfac : |((ieeeSampleOps.attenuation (ieeeSampleOps.atof "6") : ℚ) : ℝ)
      - (10 : ℝ) ^ (-(6 : ℝ) / 20)| ≤ 1 / 10 ^ 7 := by
    have h6 : ieeeSampleOps.attenuation (ieeeSampleOps.atof "6") = 4204263 / 8388608 := by
      show toFloat (samplePow (sampleAtof "6")) = 4204263 / 8388608
      rw [sampleAtof_six, toFloat_samplePow_six]
    obtain ⟨hlo, hhi⟩ := speaker_default_factor_bounds
    rw [h6, abs_le]
    push_cast
    constructor <;> norm_num at hlo hhi ⊢ <;> linarith
  have hkeep : ∀ (stream : StreamType) (device : Nat),
      device = samplePlatform.DEVICE_OUT_WIRED_HEADSET
        ∨ device = samplePlatform.DEVICE_OUT_WIRED_HEADPHONE →
      ieeeSampleOps.mul (halfEnv.computeVolume stream 7 1 device)
          (ieeeSampleOps.attenuation (ieeeSampleOps.atof "0"))
        = halfEnv.computeVolume stream 7 1 device := by
    intro stream device _
    show toFloat (1 / 2 * toFloat (samplePow (sampleAtof "0"))) = 1 / 2
    rw [sampleAtof_zero, samplePow_zero, toFloat_one, mul_one, toFloat_half]
  have h1 := default_attenuation samplePlatform ieeeSampleOps halfEnv
    (sampleState MODE_NORMAL FORCE_NONE FORCE_NONE 0x2) StreamType.MUSIC 7 1 0 false
    (ieeeOps_eq_of_ne_false _ _) hfac (ieeeOps_mul_round _ _ _ _) (hkeep StreamType.MUSIC)
    (by decide) (by decide) (by decide)
  have h2 := default_attenuation samplePlatform ieeeSampleOps halfEnv
    (sampleState MODE_NORMAL FORCE_NONE FORCE_NONE 0x2) StreamType.FM 7 1 0 false
    (ieeeOps_eq_of_ne_false _ _) hfac (ieeeOps_mul_round _ _ _ _) (hkeep StreamType.FM)
    (by decide) (by decide) (by decide)
  exact ⟨(h1.1 (by decide) rfl).2.2 rfl, ((h1.2 rfl) _ (Or.inl rfl)).1 (Or.inl (by decide)),
    ((h2.2 rfl) _ (Or.inr rfl)).1 (Or.inr rfl)⟩

end VolumeClaimsEight

end AudioPolicy
